import Mathlib

/-!
The background monitoring engine of sass-monitor

A shallow embedding of `backend/internal/services/scheduler.go` (the task
scheduler, the alert evaluator and the retention cleaner) and of
`backend/internal/services/collector.go` (the data collector), together with
the records of `backend/internal/models/admin.go` that they read and write.

Conventions of the embedding

* A Go call that can end in a run-time fault returns `Except String α`; the
  `error` constructor carries the fault's text.  A Go `error` result is an
  `Option String` (`none` is `nil`).
* A Go `map[string]V` is an association list whose keys occur once; the
  operations below keep that shape.
* `*time.Ticker` and `chan bool` values are handles (indices) into two object
  tables kept beside the scheduler's own fields.
* The background loop launched for a task only waits for its ticker or for its
  cancellation signal; it never writes the registry, so the registry functions
  are modelled by the statements that run under the scheduler's mutex.
-/

namespace SassMonitor

/-! ## Machine integers and durations -/

/-- Two's complement wrap-around of a signed 64-bit integer. -/
def wrapInt64 (x : Int) : Int :=
  (x + 2 ^ 63) % 2 ^ 64 - 2 ^ 63

/-- The constant `time.Minute`, in nanoseconds. -/
def minuteNs : Int := 60000000000

/-- The constant `time.Hour`, in nanoseconds. -/
def hourNs : Int := 3600000000000

/-! ## Go maps as association lists -/

/-- Lookup `m[k]` with the comma-ok result. -/
def mapGet {V : Type} (m : List (String × V)) (k : String) : Option V :=
  (m.find? (fun e => e.1 == k)).map Prod.snd

/-- The builtin `delete(m, k)`. -/
def mapDelete {V : Type} (m : List (String × V)) (k : String) : List (String × V) :=
  m.filter (fun e => !(e.1 == k))

/-- The assignment `m[k] = v`. -/
def mapSet {V : Type} (m : List (String × V)) (k : String) (v : V) : List (String × V) :=
  mapDelete m k ++ [(k, v)]

/-- The key set of a map, in iteration order. -/
def mapKeys {V : Type} (m : List (String × V)) : List String :=
  m.map Prod.fst

/-! ## Run-time objects: tickers and channels -/

/-- A `time.Ticker` object: its period in nanoseconds and whether `Stop` was called. -/
structure Ticker where
  period : Int
  stopped : Bool
  deriving DecidableEq, Repr

/-- The fields of `config.MonitoringConfig` the scheduler reads. -/
structure MonitoringConfig where
  CollectInterval : Int
  RetentionDays : Int
  deriving DecidableEq, Repr

/-- The `TaskScheduler` struct, with the tickers and channels its maps point to.
`chans[i]` is `true` once channel `i` has been closed. -/
structure TaskScheduler where
  config : MonitoringConfig
  collectors : List (String × Nat)
  stopChans : List (String × Nat)
  running : Bool
  tickers : List Ticker
  chans : List Bool
  deriving DecidableEq, Repr

/-- The constructor `NewTaskScheduler`. -/
def NewTaskScheduler (cfg : MonitoringConfig) : TaskScheduler :=
  { config := cfg, collectors := [], stopChans := [], running := false,
    tickers := [], chans := [] }

/-- The call `time.NewTicker(d)`: faults on a non-positive period, otherwise
allocates a ticker and returns its handle. -/
def newTicker (ts : TaskScheduler) (d : Int) : Except String (Nat × TaskScheduler) :=
  if d ≤ 0 then .error "non-positive interval for NewTicker"
  else .ok (ts.tickers.length,
            { ts with tickers := ts.tickers ++ [{ period := d, stopped := false }] })

/-- The call `make(chan bool)`: allocates an open channel and returns its handle. -/
def makeChan (ts : TaskScheduler) : Nat × TaskScheduler :=
  (ts.chans.length, { ts with chans := ts.chans ++ [false] })

/-- The builtin `close(c)`: faults when the channel is already closed. -/
def closeChan (ts : TaskScheduler) (c : Nat) : Except String TaskScheduler :=
  match ts.chans[c]? with
  | some false => .ok { ts with chans := ts.chans.set c true }
  | some true => .error "close of closed channel"
  | none => .error "close of nil channel"

/-- The method `(*time.Ticker).Stop`. -/
def tickerStop (ts : TaskScheduler) (t : Nat) : TaskScheduler :=
  match ts.tickers[t]? with
  | some k => { ts with tickers := ts.tickers.set t { k with stopped := true } }
  | none => ts

/-- Registration shared by the three `start*` methods: create the ticker and the
channel, store both under the task's name, return `nil`. -/
def startTask (ts : TaskScheduler) (name : String) (interval : Int) :
    Except String (Option String × TaskScheduler) :=
  match newTicker ts interval with
  | .error e => .error e
  | .ok (ticker, ts1) =>
    let (stopChan, ts2) := makeChan ts1
    let ts3 := { ts2 with collectors := mapSet ts2.collectors name ticker }
    let ts4 := { ts3 with stopChans := mapSet ts3.stopChans name stopChan }
    .ok (none, ts4)

/-- The interval computed by `startDataCollection`:
`time.Duration(CollectInterval) * time.Minute` in 64-bit arithmetic. -/
def dataCollectionInterval (cfg : MonitoringConfig) : Int :=
  wrapInt64 (cfg.CollectInterval * minuteNs)

/-- The method `startDataCollection`. -/
def startDataCollection (ts : TaskScheduler) : Except String (Option String × TaskScheduler) :=
  startTask ts "data_collection" (dataCollectionInterval ts.config)

/-- The method `startAlertChecker`: the interval is one minute. -/
def startAlertChecker (ts : TaskScheduler) : Except String (Option String × TaskScheduler) :=
  startTask ts "alert_checker" (1 * minuteNs)

/-- The method `startDataCleanup`: the interval is twenty-four hours. -/
def startDataCleanup (ts : TaskScheduler) : Except String (Option String × TaskScheduler) :=
  startTask ts "data_cleanup" (24 * hourNs)

/-- The method `Start`. -/
def Start (ts : TaskScheduler) : Except String (Option String × TaskScheduler) :=
  if ts.running then .ok (some "scheduler is already running", ts)
  else
    match startDataCollection ts with
    | .error e => .error e
    | .ok (some err, ts1) => .ok (some ("failed to start data collection: " ++ err), ts1)
    | .ok (none, ts1) =>
      match startAlertChecker ts1 with
      | .error e => .error e
      | .ok (some err, ts2) => .ok (some ("failed to start alert checker: " ++ err), ts2)
      | .ok (none, ts2) =>
        match startDataCleanup ts2 with
        | .error e => .error e
        | .ok (some err, ts3) => .ok (some ("failed to start data cleanup: " ++ err), ts3)
        | .ok (none, ts3) => .ok (none, { ts3 with running := true })

/-- One iteration of the loop of `Stop` for the entry `(name, stopChan)`. -/
def stopEntry (ts : TaskScheduler) (name : String) (stopChan : Nat) :
    Except String TaskScheduler :=
  match closeChan ts stopChan with
  | .error e => .error e
  | .ok ts1 =>
    let ts2 :=
      match mapGet ts1.collectors name with
      | some ticker =>
        let ts' := tickerStop ts1 ticker
        { ts' with collectors := mapDelete ts'.collectors name }
      | none => ts1
    .ok { ts2 with stopChans := mapDelete ts2.stopChans name }

/-- The loop `for name, stopChan := range ts.stopChans` of `Stop`, run over the
entries still to be visited.  An iteration deletes only the entry it visits. -/
def stopLoop : List (String × Nat) → TaskScheduler → Except String TaskScheduler
  | [], ts => .ok ts
  | (name, stopChan) :: rest, ts =>
    match stopEntry ts name stopChan with
    | .error e => .error e
    | .ok ts1 => stopLoop rest ts1

/-- The method `Stop`. -/
def Stop (ts : TaskScheduler) : Except String TaskScheduler :=
  if !ts.running then .ok ts
  else
    match stopLoop ts.stopChans ts with
    | .error e => .error e
    | .ok ts1 => .ok { ts1 with running := false }

/-- The method `IsRunning`. -/
def IsRunning (ts : TaskScheduler) : Bool := ts.running

/-- The method `GetTaskStatus`: one `"running"` entry per key of `collectors`. -/
def GetTaskStatus (ts : TaskScheduler) : List (String × String) :=
  ts.collectors.foldl (fun status e => mapSet status e.1 "running") []

/-- The method `RestartTask`. -/
def RestartTask (ts : TaskScheduler) (taskName : String) :
    Except String (Option String × TaskScheduler) :=
  if !ts.running then .ok (some "scheduler is not running", ts)
  else
    let afterClose : Except String TaskScheduler :=
      match mapGet ts.stopChans taskName with
      | some stopChan =>
        match closeChan ts stopChan with
        | .error e => .error e
        | .ok ts1 => .ok { ts1 with stopChans := mapDelete ts1.stopChans taskName }
      | none => .ok ts
    match afterClose with
    | .error e => .error e
    | .ok ts1 =>
      let ts2 :=
        match mapGet ts1.collectors taskName with
        | some ticker =>
          let ts' := tickerStop ts1 ticker
          { ts' with collectors := mapDelete ts'.collectors taskName }
        | none => ts1
      if taskName = "data_collection" then startDataCollection ts2
      else if taskName = "alert_checker" then startAlertChecker ts2
      else if taskName = "data_cleanup" then startDataCleanup ts2
      else .ok (some ("unknown task: " ++ taskName), ts2)

deriving instance DecidableEq for Except

/-- The three task names the scheduler registers. -/
def taskNames : List String := ["data_collection", "alert_checker", "data_cleanup"]

/-- The interval each `start*` method gives its ticker. -/
def taskInterval (cfg : MonitoringConfig) (name : String) : Int :=
  if name = "data_collection" then dataCollectionInterval cfg
  else if name = "alert_checker" then 1 * minuteNs
  else 24 * hourNs

/-- Consistency of the registry with the run-time objects: every name occurs
once, no handle is shared by two names, every registered channel is open and
every registered ticker is live with the interval of its task. -/
structure Reg (ts : TaskScheduler) : Prop where
  keysC : (mapKeys ts.collectors).Nodup
  keysS : (mapKeys ts.stopChans).Nodup
  valsC : (ts.collectors.map Prod.snd).Nodup
  valsS : (ts.stopChans.map Prod.snd).Nodup
  chanOpen : ∀ e ∈ ts.stopChans, ts.chans[e.2]? = some false
  tickerLive : ∀ e ∈ ts.collectors,
    ts.tickers[e.2]? = some { period := taskInterval ts.config e.1, stopped := false }

/-- The invariant of the scheduler: a consistent registry that is empty while
stopped and holds exactly the three tasks while running. -/
structure Inv (ts : TaskScheduler) : Prop where
  reg : Reg ts
  stopped : ts.running = false → ts.collectors = [] ∧ ts.stopChans = []
  runKeysC : ts.running = true → ∀ n, n ∈ mapKeys ts.collectors ↔ n ∈ taskNames
  runKeysS : ts.running = true → ∀ n, n ∈ mapKeys ts.stopChans ↔ n ∈ taskNames
  runPeriod : ts.running = true → 0 < dataCollectionInterval ts.config

/-- A running scheduler used in examples: the state `Start` produces on a fresh
scheduler configured with a five-minute collection interval. -/
def runningExample : TaskScheduler :=
  { config := { CollectInterval := 5, RetentionDays := 30 }
    collectors := [("data_collection", 0), ("alert_checker", 1), ("data_cleanup", 2)]
    stopChans := [("data_collection", 0), ("alert_checker", 1), ("data_cleanup", 2)]
    running := true
    tickers := [{ period := 300000000000, stopped := false },
                { period := 60000000000, stopped := false },
                { period := 86400000000000, stopped := false }]
    chans := [false, false, false] }

/-- The states a scheduler can be in: those obtained from `NewTaskScheduler` by
calls of `Start`, `Stop` and `RestartTask` that return. -/
inductive Reachable : TaskScheduler → Prop
  | new (cfg : MonitoringConfig) : Reachable (NewTaskScheduler cfg)
  | start {ts ts1 : TaskScheduler} {err : Option String} :
      Reachable ts → Start ts = .ok (err, ts1) → Reachable ts1
  | stop {ts ts1 : TaskScheduler} :
      Reachable ts → Stop ts = .ok ts1 → Reachable ts1
  | restart {ts ts1 : TaskScheduler} {err : Option String} (taskName : String) :
      Reachable ts → RestartTask ts taskName = .ok (err, ts1) → Reachable ts1


/-! ## Records of `models/admin.go` -/

/-- A Go `float64` as far as comparison is concerned: not-a-number, the two
infinities, and the finite values (both zeros are `fin 0`). -/
inductive Float64 where
  | nan
  | negInf
  | fin (q : ℚ)
  | posInf
  deriving DecidableEq

namespace Float64

/-- The Go operator `<` on `float64`. -/
def lt : Float64 → Float64 → Bool
  | nan, _ => false
  | _, nan => false
  | negInf, negInf => false
  | negInf, _ => true
  | fin _, negInf => false
  | fin a, fin b => decide (a < b)
  | fin _, posInf => true
  | posInf, _ => false

/-- The Go operator `==` on `float64`. -/
def eq : Float64 → Float64 → Bool
  | nan, _ => false
  | _, nan => false
  | a, b => decide (a = b)

/-- The Go operator `<=` on `float64`. -/
def le (a b : Float64) : Bool := lt a b || eq a b

/-- The Go operator `>` on `float64`. -/
def gt (a b : Float64) : Bool := lt b a

/-- The Go operator `>=` on `float64`. -/
def ge (a b : Float64) : Bool := le b a

end Float64

/-- The model `AlertRule`; identifiers are their text form, times are instants. -/
structure AlertRule where
  ID : String
  Name : String
  Description : String := ""
  RuleType : String := ""
  TargetType : String
  TargetName : String
  MetricName : String
  Operator : String
  Threshold : Float64
  Duration : Int := 5
  Severity : String := "warning"
  Enabled : Bool := true
  NotificationConfig : String := ""
  CreatedBy : String := ""
  CreatedAt : Int := 0
  UpdatedAt : Int := 0
  deriving DecidableEq

/-- The model `ResourceMetric`. -/
structure ResourceMetric where
  ID : String
  OrganizationID : Option String := none
  DatabaseType : String
  DatabaseName : String
  MetricType : String := ""
  MetricName : String
  MetricValue : Float64
  Unit : String := ""
  Tags : String := ""
  CollectedAt : Int
  CreatedAt : Int := 0
  deriving DecidableEq

/-- The model `MonitoringLog`, as handed to `Create`; the identifier column is
filled in by the database and is not part of the record the scheduler builds. -/
structure MonitoringLog where
  LogLevel : String
  Source : String
  Component : String := ""
  OrganizationID : Option String := none
  Message : String
  Details : String
  CreatedAt : Int
  deriving DecidableEq

/-- The model `SystemHealth`.  Identifiers of health records are numbered; `0` is
the zero value of the identifier type, which a record carries until the
database has given it one. -/
structure SystemHealth where
  ID : Nat := 0
  ComponentName : String
  ComponentType : String
  Status : String
  ResponseTime : Option Int := none
  ErrorMessage : Option String := none
  LastCheckedAt : Int
  CreatedAt : Int := 0
  UpdatedAt : Int := 0
  deriving DecidableEq

/-! ## The store and the library calls made on it -/

/-- An error value returned by a database statement. -/
inductive GormError where
  | ErrRecordNotFound
  | other (msg : String)
  deriving DecidableEq

/-- What the evaluator acts on: three tables of `SaasMonitorDB`, the outcome of
the statements still to be issued (`some msg` makes the next statement fail
with that message, an exhausted list means success), and the wall clock, which
`time.Now()` reads and which does not advance within one call.  `systemHealth`
is the fourth table the collector writes; `issued` counts the identifiers the
database has generated for sample rows. -/
structure World where
  alertRules : List AlertRule := []
  resourceMetrics : List ResourceMetric := []
  monitoringLogs : List MonitoringLog := []
  faults : List (Option String) := []
  now : Int := 0
  systemHealth : List SystemHealth := []
  issued : Nat := 0
  deriving DecidableEq

/-- The conversions of the standard library the scheduler relies on: the verb
`%v` on a `float64`, `Time.Format(time.RFC3339)`, and `Time.AddDate(0, 0, days)`
on an instant. -/
structure Fmt where
  float : Float64 → String
  rfc3339 : Int → String
  addDays : Int → Int → Int

/-- A stand-in for `Fmt` used to evaluate concrete runs: integer-valued floats
print as Go prints them below `1e21`, instants are nanoseconds and a day has
twenty-four hours. -/
def plainFmt : Fmt where
  float := fun v =>
    match v with
    | .nan => "NaN"
    | .negInf => "-Inf"
    | .posInf => "+Inf"
    | .fin q => if q.den = 1 then toString q.num else "float"
  rfc3339 := fun t => toString t
  addDays := fun t days => t + days * (24 * hourNs)

/-- Consume the outcome decided for the next database statement. -/
def nextFault (w : World) : Option String × World :=
  match w.faults with
  | [] => (none, w)
  | f :: rest => (f, { w with faults := rest })

/-- The statement `Create(&log)` on the log table. -/
def dbCreateLog (w : World) (l : MonitoringLog) : Option String × World :=
  match nextFault w with
  | (some msg, w1) => (some msg, w1)
  | (none, w1) => (none, { w1 with monitoringLogs := w1.monitoringLogs ++ [l] })

/-- The statement `Where("enabled = ?", true).Find(&alertRules)`. -/
def dbFindEnabledRules (w : World) : Except String (List AlertRule) × World :=
  match nextFault w with
  | (some msg, w1) => (.error msg, w1)
  | (none, w1) => (.ok (w1.alertRules.filter (fun r => r.Enabled)), w1)

/-- The row that `ORDER BY collected_at DESC, id LIMIT 1` keeps: the greatest
collection time, the smaller identifier among equal times. -/
def latestMetric (ms : List ResourceMetric) : Option ResourceMetric :=
  ms.foldl
    (fun best m =>
      match best with
      | none => some m
      | some b =>
        if b.CollectedAt < m.CollectedAt ∨ (b.CollectedAt = m.CollectedAt ∧ m.ID < b.ID)
        then some m else some b)
    none

/-- The rows selected by
`database_type = ? AND database_name = ? AND metric_name = ?`. -/
def matchingMetrics (w : World) (dbType dbName metricName : String) : List ResourceMetric :=
  w.resourceMetrics.filter
    (fun m => m.DatabaseType == dbType && m.DatabaseName == dbName && m.MetricName == metricName)

/-- The statement `Where(...).Order("collected_at DESC").First(&metric)`. -/
def dbFirstMetric (w : World) (dbType dbName metricName : String) :
    Except GormError ResourceMetric × World :=
  match nextFault w with
  | (some msg, w1) => (.error (.other msg), w1)
  | (none, w1) =>
    match latestMetric (matchingMetrics w1 dbType dbName metricName) with
    | some m => (.ok m, w1)
    | none => (.error .ErrRecordNotFound, w1)

/-! ## The alert evaluator -/

/-- The record `alertLog` built by `sendAlertNotification`. -/
def notificationLog (fmt : Fmt) (rule : AlertRule) (metric : ResourceMetric) (now : Int) :
    MonitoringLog :=
  { LogLevel := "warning"
    Source := "alert_system"
    Message := "Alert triggered: " ++ rule.Name ++ " - " ++ rule.MetricName ++ " " ++
      rule.Operator ++ " " ++ fmt.float rule.Threshold ++ " (actual: " ++
      fmt.float metric.MetricValue ++ " " ++ metric.Unit ++ ")"
    Details := "\x7b\"rule_id\": \"" ++ rule.ID ++ "\", \"severity\": \"" ++ rule.Severity ++
      "\", \"metric_value\": " ++ fmt.float metric.MetricValue ++ "\x7d"
    CreatedAt := now }

/-- The method `sendAlertNotification`. -/
def sendAlertNotification (fmt : Fmt) (w : World) (rule : AlertRule) (metric : ResourceMetric) :
    Option String × World :=
  dbCreateLog w (notificationLog fmt rule metric w.now)

/-- The record `alertLog` built by `logAlertTriggered`. -/
def triggeredLog (fmt : Fmt) (rule : AlertRule) (metric : ResourceMetric) (now : Int) :
    MonitoringLog :=
  { LogLevel := "warning"
    Source := "alert_system"
    Component := rule.TargetType ++ "_" ++ rule.TargetName
    Message := "Alert rule '" ++ rule.Name ++ "' triggered"
    Details := "\x7b\"rule_id\": \"" ++ rule.ID ++ "\", \"metric_name\": \"" ++ rule.MetricName ++
      "\", \"threshold\": " ++ fmt.float rule.Threshold ++ ", \"actual\": " ++
      fmt.float metric.MetricValue ++ ", \"operator\": \"" ++ rule.Operator ++
      "\", \"severity\": \"" ++ rule.Severity ++ "\"\x7d"
    CreatedAt := now }

/-- The method `logAlertTriggered`; the result of `Create` is dropped. -/
def logAlertTriggered (fmt : Fmt) (w : World) (rule : AlertRule) (metric : ResourceMetric) :
    World :=
  (dbCreateLog w (triggeredLog fmt rule metric w.now)).2

/-- The `switch rule.Operator` of `evaluateAlertRule`, starting from
`triggered := false`. -/
def triggered (operator : String) (value threshold : Float64) : Bool :=
  if operator = ">" then value.gt threshold
  else if operator = ">=" then value.ge threshold
  else if operator = "<" then value.lt threshold
  else if operator = "<=" then value.le threshold
  else if operator = "=" then value.eq threshold
  else false

/-- The method `evaluateAlertRule`. -/
def evaluateAlertRule (fmt : Fmt) (w : World) (rule : AlertRule) : Option String × World :=
  match dbFirstMetric w rule.TargetType rule.TargetName rule.MetricName with
  | (.error .ErrRecordNotFound, w1) => (some ("no metric found for rule " ++ rule.Name), w1)
  | (.error (.other msg), w1) =>
    (some ("failed to query metric for rule " ++ rule.Name ++ ": " ++ msg), w1)
  | (.ok metric, w1) =>
    if triggered rule.Operator metric.MetricValue rule.Threshold then
      let w2 := (sendAlertNotification fmt w1 rule metric).2
      let w3 := logAlertTriggered fmt w2 rule metric
      (none, w3)
    else (none, w1)

/-- The method `checkAlerts`: an error of a single rule is printed and dropped. -/
def checkAlerts (fmt : Fmt) (w : World) : Option String × World :=
  match dbFindEnabledRules w with
  | (.error msg, w1) => (some ("failed to fetch alert rules: " ++ msg), w1)
  | (.ok alertRules, w1) =>
    (none, alertRules.foldl (fun acc rule => (evaluateAlertRule fmt acc rule).2) w1)

/-- The method `logMonitoringError`; the result of `Create` is dropped. -/
def logMonitoringError (fmt : Fmt) (w : World) (component errorMessage : String) : World :=
  (dbCreateLog w
    { LogLevel := "error"
      Source := "scheduler"
      Component := component
      Message := "Monitoring task error"
      Details := "\x7b\"error\": \"" ++ errorMessage ++ "\", \"timestamp\": \"" ++
        fmt.rfc3339 w.now ++ "\"\x7d"
      CreatedAt := w.now }).2

/-- The body run on every tick of the loop started by `startAlertChecker`. -/
def alertCheckerTick (fmt : Fmt) (w : World) : World :=
  match checkAlerts fmt w with
  | (some err, w1) => logMonitoringError fmt w1 "alert_checker" err
  | (none, w1) => w1

/-- The log entries one evaluation of `rule` adds when every statement succeeds. -/
def alertEntries (fmt : Fmt) (w : World) (rule : AlertRule) : List MonitoringLog :=
  match latestMetric (matchingMetrics w rule.TargetType rule.TargetName rule.MetricName) with
  | some metric =>
    if triggered rule.Operator metric.MetricValue rule.Threshold then
      [notificationLog fmt rule metric w.now, triggeredLog fmt rule metric w.now]
    else []
  | none => []

/-! ## The retention cleaner -/

/-- The statement `Where("created_at < ?", cutoff).Delete(&models.ResourceMetric{})`. -/
def dbDeleteMetricsBefore (w : World) (cutoff : Int) : Option String × World :=
  match nextFault w with
  | (some msg, w1) => (some msg, w1)
  | (none, w1) =>
    (none, { w1 with
      resourceMetrics := w1.resourceMetrics.filter (fun m => !decide (m.CreatedAt < cutoff)) })

/-- The statement `Where("created_at < ?", cutoff).Delete(&models.MonitoringLog{})`. -/
def dbDeleteLogsBefore (w : World) (cutoff : Int) : Option String × World :=
  match nextFault w with
  | (some msg, w1) => (some msg, w1)
  | (none, w1) =>
    (none, { w1 with
      monitoringLogs := w1.monitoringLogs.filter (fun l => !decide (l.CreatedAt < cutoff)) })

/-- The value `cutoffDate` of `cleanupOldData`:
`time.Now().AddDate(0, 0, -retentionDays)`. -/
def cutoffDate (fmt : Fmt) (cfg : MonitoringConfig) (w : World) : Int :=
  fmt.addDays w.now (wrapInt64 (-cfg.RetentionDays))

/-- The method `cleanupOldData`. -/
def cleanupOldData (fmt : Fmt) (cfg : MonitoringConfig) (w : World) : Option String × World :=
  match dbDeleteMetricsBefore w (cutoffDate fmt cfg w) with
  | (some err, w1) => (some ("failed to cleanup resource metrics: " ++ err), w1)
  | (none, w1) =>
    match dbDeleteLogsBefore w1 (cutoffDate fmt cfg w) with
    | (some err, w2) => (some ("failed to cleanup monitoring logs: " ++ err), w2)
    | (none, w2) => (none, w2)

/-- The body run on every tick of the loop started by `startDataCleanup`. -/
def dataCleanupTick (fmt : Fmt) (cfg : MonitoringConfig) (w : World) : World :=
  match cleanupOldData fmt cfg w with
  | (some err, w1) => logMonitoringError fmt w1 "data_cleanup" err
  | (none, w1) => w1

/-- A rule used in examples: more than four active connections on the relational
instance `light_admin`. -/
def exampleRule : AlertRule :=
  { ID := "0b6f1c1e-5d0a-4a8e-9f43-2a1c7d9e0001"
    Name := "connections"
    RuleType := "database"
    TargetType := "postgresql"
    TargetName := "light_admin"
    MetricName := "active_connections"
    Operator := ">"
    Threshold := .fin 4 }

/-- A sample used in examples: five active connections on `light_admin`. -/
def exampleMetric : ResourceMetric :=
  { ID := "5a3e9d70-77c2-4f0b-8a55-90c1e2d30001"
    DatabaseType := "postgresql"
    DatabaseName := "light_admin"
    MetricType := "connection"
    MetricName := "active_connections"
    MetricValue := .fin 5
    Unit := "count"
    CollectedAt := 1000
    CreatedAt := 1000 }

/-- A store used in examples: the example rule, the example sample, no log entry
yet, every statement succeeds. -/
def exampleWorld : World :=
  { alertRules := [exampleRule], resourceMetrics := [exampleMetric], now := 1060 }

/-- Containment of one text in another. -/
def Contains (s part : String) : Prop :=
  ∃ a b : String, s = a ++ part ++ b

/-- The decision table of the specification for one operator token. -/
def specTriggered (operator : String) (value threshold : Float64) : Bool :=
  match operator with
  | ">" => value.gt threshold
  | ">=" => value.ge threshold
  | "<" => value.lt threshold
  | "<=" => value.le threshold
  | "=" => value.eq threshold
  | _ => false


/-! ## Arithmetic on `float64` -/

/-- The integer nearest to `n / d`, the even one of two equally near. -/
def roundHalfEven (n d : Nat) : Nat :=
  let q := n / d
  let r := n % d
  if 2 * r < d then q else if d < 2 * r then q + 1 else if q % 2 = 0 then q else q + 1

/-- The number of halvings that bring `n` below two, with a bound on their number. -/
def log2Fuel : Nat → Nat → Nat
  | 0, _ => 0
  | fuel + 1, n => if n < 2 then 0 else log2Fuel fuel (n / 2) + 1

/-- The integer `e` with `2 ^ e ≤ n < 2 ^ (e + 1)`, for positive `n`. -/
def log2 (n : Nat) : Nat := log2Fuel n n

/-- The integer `e` with `2 ^ e ≤ n / d < 2 ^ (e + 1)`, for positive `n` and `d`. -/
def floorLog2 (n d : Nat) : Int :=
  let e : Int := (log2 n : Int) - (log2 d : Int)
  if 0 ≤ e then (if d * 2 ^ e.toNat ≤ n then e else e - 1)
  else (if d ≤ n * 2 ^ (-e).toNat then e else e - 1)

/-- The `float64` nearest to the fraction `n / d`, ties to even: 53 significant bits,
least exponent `-1074`, an infinity from `2 ^ 1024` on. -/
def roundFrac (n : Int) (d : Nat) : Float64 :=
  if n = 0 ∨ d = 0 then .fin 0
  else
    let a := n.natAbs
    let e := floorLog2 a d
    let k := max (e - 52) (-1074)
    let m := if 0 ≤ k then roundHalfEven a (d * 2 ^ k.toNat)
             else roundHalfEven (a * 2 ^ (-k).toNat) d
    if 1024 ≤ (log2 m : Int) + k then (if 0 < n then .posInf else .negInf)
    else
      let s : Int := if 0 < n then (m : Int) else -(m : Int)
      if 0 ≤ k then .fin ((s * ((2 ^ k.toNat : Nat) : Int) : Int) : ℚ)
      else .fin (mkRat s (2 ^ (-k).toNat))

namespace Float64

/-- The conversion `float64(n)` of an integer. -/
def ofInt (n : Int) : Float64 := roundFrac n 1

/-- The Go operator `/` on `float64`; a zero divisor is read as the positive zero. -/
def div : Float64 → Float64 → Float64
  | nan, _ => nan
  | _, nan => nan
  | fin a, fin b =>
    if b = 0 then (if a = 0 then nan else if 0 < a then posInf else negInf)
    else roundFrac (a.num * b.den * (if 0 < b.num then 1 else -1)) (a.den * b.num.natAbs)
  | fin _, posInf => fin 0
  | fin _, negInf => fin 0
  | posInf, fin b => if 0 ≤ b then posInf else negInf
  | negInf, fin b => if 0 ≤ b then negInf else posInf
  | posInf, posInf => nan
  | posInf, negInf => nan
  | negInf, posInf => nan
  | negInf, negInf => nan

/-- The Go operator `*` on `float64`. -/
def mul : Float64 → Float64 → Float64
  | nan, _ => nan
  | _, nan => nan
  | fin a, fin b => roundFrac (a.num * b.num) (a.den * b.den)
  | fin a, posInf => if a = 0 then nan else if 0 < a then posInf else negInf
  | fin a, negInf => if a = 0 then nan else if 0 < a then negInf else posInf
  | posInf, fin b => if b = 0 then nan else if 0 < b then posInf else negInf
  | negInf, fin b => if b = 0 then nan else if 0 < b then negInf else posInf
  | posInf, posInf => posInf
  | posInf, negInf => negInf
  | negInf, posInf => negInf
  | negInf, negInf => posInf

/-- The Go operator `+` on `float64`. -/
def add : Float64 → Float64 → Float64
  | nan, _ => nan
  | _, nan => nan
  | fin a, fin b => roundFrac (a.num * b.den + b.num * a.den) (a.den * b.den)
  | fin _, posInf => posInf
  | fin _, negInf => negInf
  | posInf, fin _ => posInf
  | negInf, fin _ => negInf
  | posInf, posInf => posInf
  | posInf, negInf => nan
  | negInf, posInf => nan
  | negInf, negInf => negInf

end Float64

/-! ## Text functions of the standard library used by the collector -/

/-- The predicate `unicode.IsSpace`. -/
def isSpace (c : Char) : Bool :=
  c = '\t' || c = '\n' || c.val = 0x0B || c.val = 0x0C || c = '\r' || c = ' ' ||
  c.val = 0x85 || c.val = 0xA0 || c.val = 0x1680 || (0x2000 ≤ c.val && c.val ≤ 0x200A) ||
  c.val = 0x2028 || c.val = 0x2029 || c.val = 0x202F || c.val = 0x205F || c.val = 0x3000

/-- The call `strings.Split(s, sep)` for a separator of one character. -/
def splitOn (sep : Char) : List Char → List (List Char)
  | [] => [[]]
  | c :: cs =>
    if c = sep then [] :: splitOn sep cs
    else
      match splitOn sep cs with
      | [] => [[c]]
      | l :: ls => (c :: l) :: ls

/-- The call `strings.Fields(s)`, with the field under construction as accumulator. -/
def fieldsFrom : List Char → List Char → List (List Char)
  | [], cur => if cur = [] then [] else [cur.reverse]
  | c :: cs, cur =>
    if isSpace c then
      (if cur = [] then fieldsFrom cs [] else cur.reverse :: fieldsFrom cs [])
    else fieldsFrom cs (c :: cur)

/-- The call `strings.Fields(s)`. -/
def fields (s : List Char) : List (List Char) := fieldsFrom s []

/-- The value of a run of decimal digits, `none` when a character is no digit. -/
def parseDigits : List Char → Nat → Option Nat
  | [], acc => some acc
  | c :: cs, acc =>
    if '0' ≤ c ∧ c ≤ '9' then parseDigits cs (acc * 10 + (c.toNat - '0'.toNat)) else none

/-- The call `strconv.ParseInt(s, 10, 64)`; `none` stands for an error. -/
def parseInt64 (s : List Char) : Option Int :=
  let (neg, digits) :=
    match s with
    | '+' :: rest => (false, rest)
    | '-' :: rest => (true, rest)
    | _ => (false, s)
  if digits = [] then none
  else
    match parseDigits digits 0 with
    | none => none
    | some n =>
      let v : Int := if neg then -(n : Int) else (n : Int)
      if -(2 : Int) ^ 63 ≤ v ∧ v < (2 : Int) ^ 63 then some v else none

/-- The loop of `extractRedisMetric` over the lines still to be visited. -/
def extractFromLines (metric : List Char) : List (List Char) → Int
  | [] => 0
  | line :: rest =>
    if metric.isPrefixOf line then
      match fields line with
      | _ :: second :: _ =>
        match parseInt64 second with
        | some value => value
        | none => extractFromLines metric rest
      | _ => extractFromLines metric rest
    else extractFromLines metric rest

/-- The method `extractRedisMetric`. -/
def extractRedisMetric (info metric : String) : Int :=
  extractFromLines metric.toList (splitOn '\n' info.toList)

/-- The call `strings.Contains(s, part)`. -/
def containsText (s part : String) : Bool :=
  s.toList.tails.any (fun t => part.toList.isPrefixOf t)

/-- A value stored in a tag map. -/
inductive TagValue where
  | int (n : Int)
  | float (v : Float64)
  | str (s : String)

/-- The verb `%v` on a tag value. -/
def TagValue.render (fmt : Fmt) : TagValue → String
  | .int n => toString n
  | .float v => fmt.float v
  | .str s => s

/-- The loop of `formatTags` over the entries still to be visited. -/
def formatTagsLoop (fmt : Fmt) : List (String × TagValue) → String → Bool → String
  | [], result, _ => result
  | (key, value) :: rest, result, first =>
    let result1 := if !first then result ++ "," else result
    formatTagsLoop fmt rest (result1 ++ ("\"" ++ key ++ "\":\"" ++ value.render fmt ++ "\"")) false

/-- The method `formatTags`, on the entries of the map in the order the `range`
statement yields them. -/
def formatTags (fmt : Fmt) (tags : List (String × TagValue)) : String :=
  formatTagsLoop fmt tags "\x7b" true ++ "\x7d"

/-- The method `getComponentType`. -/
def getComponentType (componentName : String) : String :=
  if componentName = "saas_monitor" ∨ componentName = "light_admin" then "database"
  else if componentName = "redis" then "cache"
  else if containsText componentName "clickhouse" then "database"
  else "unknown"


/-! ## The sources read by the collector -/

/-- The fields of `sql.DBStats` the collector reads, `OpenConnections` and `Idle`,
and the field `InUse` the library reports beside them.  The library counts in
`OpenConnections` the established connections, those in use and those idle. -/
structure PoolStats where
  OpenConnections : Int
  InUse : Int
  Idle : Int

/-- What `sql.DB.Stats` guarantees of the three counts. -/
def PoolStats.Consistent (stats : PoolStats) : Prop :=
  0 ≤ stats.InUse ∧ 0 ≤ stats.Idle ∧ stats.OpenConnections = stats.InUse + stats.Idle

/-- A row scanned by `collectPostgreSQLTableSize`. -/
structure TableStat where
  TableName : String
  Size : Float64
  RowCount : Int

/-- An organization of `light_admin` with the counts the collector reads for it:
the identifier in its text form, the name, the three counts and the number of
usage records of the current month. -/
structure OrgStat where
  ID : String
  Name : String
  userCount : Int
  workspaceCount : Int
  activeSubs : Int
  usageRecords : Nat

/-- What one ClickHouse connection answers during a sweep: the liveness probe, the
row of the size query, the rows of the table query (a row may fail to scan) and
the row of the slow-query statistics. -/
structure ClickHouseConn where
  ping : Option String
  sizeRow : Except String (Int × Int × Int)
  tableRows : Except String (List (Except String (String × Int × Int)))
  slowQueries : Except String (Int × Float64 × Float64)

/-- What the Redis client answers during a sweep. -/
structure RedisClient where
  ping : Option String
  info : Except String String

/-- The collaborators of the collector other than the store: what each of their
calls returns during one sweep.  Both relational handles are set (the
collector dereferences them without a check); `redis` is `none` for a nil
client.  `tagsMaxFirst` tells in which order the `range` over the two-entry tag
map of the connection sample yields its entries, and `elapsedMs` what
`time.Since(start).Milliseconds()` gives after the probe of a component. -/
structure Sources where
  saasMonitorPing : Option String
  lightAdminPing : Option String
  lightAdminPool : Except String PoolStats
  lightAdminMaxOpenConns : Int
  tagsMaxFirst : Bool
  databaseSize : Except String Float64
  tableStats : Except String (List TableStat)
  orgCount : Except String Int
  totalUsers : Int
  activeUsers : Int
  totalSubs : Int
  activeSubs : Int
  monthlyRevenue : Float64
  organizations : Except String (List OrgStat)
  clickHouse : List (String × ClickHouseConn)
  redis : Option RedisClient
  elapsedMs : List (String × Int)

/-! ## Statements of the collector on the store -/

/-- The text of the identifier the database generates for the `n`-th sample row. -/
def genID (n : Nat) : String := "generated-" ++ toString n

/-- The rows of one `INSERT` as stored: the database generates the identifier and
the creation time is filled in with the current time. -/
def stampRows (now : Int) : Nat → List ResourceMetric → List ResourceMetric
  | _, [] => []
  | n, m :: rest => { m with ID := genID n, CreatedAt := now } :: stampRows now (n + 1) rest

/-- The statement `Create` on one sample or on a slice of samples. -/
def dbCreateMetrics (w : World) (ms : List ResourceMetric) : Option String × World :=
  match nextFault w with
  | (some msg, w1) => (some msg, w1)
  | (none, w1) =>
    (none, { w1 with
      resourceMetrics := w1.resourceMetrics ++ stampRows w1.now w1.issued ms
      issued := w1.issued + ms.length })

/-- The statements of a transaction of `CreateInBatches`, one per batch. -/
def insertBatches (batchSize : Nat) : Nat → World → List ResourceMetric → Option String × World
  | 0, w, _ => (none, w)
  | fuel + 1, w, ms =>
    if ms = [] then (none, w)
    else
      match dbCreateMetrics w (ms.take batchSize) with
      | (some e, w1) => (some e, w1)
      | (none, w1) => insertBatches batchSize fuel w1 (ms.drop batchSize)

/-- The call `CreateInBatches(metrics, batchSize)`: one statement when the rows fit
in one batch, otherwise a transaction that is rolled back on the first failure. -/
def dbCreateMetricsInBatches (w : World) (ms : List ResourceMetric) (batchSize : Nat) :
    Option String × World :=
  if ms.length ≤ batchSize then dbCreateMetrics w ms
  else
    match insertBatches batchSize ms.length w ms with
    | (some e, w1) => (some e, { w1 with resourceMetrics := w.resourceMetrics })
    | (none, w1) => (none, w1)

/-- The statement `Exec("SELECT 1")` on the store, its result dropped. -/
def dbExec (w : World) : World := (nextFault w).2

/-- The row that `ORDER BY id LIMIT 1` keeps. -/
def firstByID (rs : List SystemHealth) : Option SystemHealth :=
  rs.foldl
    (fun best r =>
      match best with
      | none => some r
      | some b => if r.ID < b.ID then some r else some b)
    none

/-- The statement `Where("component_name = ?", component).First(&healthRecord)`. -/
def dbFirstHealth (w : World) (component : String) : Except GormError SystemHealth × World :=
  match nextFault w with
  | (some msg, w1) => (.error (.other msg), w1)
  | (none, w1) =>
    match firstByID (w1.systemHealth.filter (fun r => r.ComponentName == component)) with
    | some r => (.ok r, w1)
    | none => (.error .ErrRecordNotFound, w1)

/-- The greatest identifier of a health record in the table. -/
def maxHealthID (rs : List SystemHealth) : Nat :=
  rs.foldl (fun acc r => max acc r.ID) 0

/-- The statement `Create(&healthRecord)`: the unique index on the component name
and the primary key reject a duplicate; a zero identifier is generated and a
zero creation time is filled in. -/
def dbCreateHealth (w : World) (r : SystemHealth) : Option String × World :=
  match nextFault w with
  | (some msg, w1) => (some msg, w1)
  | (none, w1) =>
    if w1.systemHealth.any (fun x => x.ComponentName == r.ComponentName) then
      (some "duplicate key value violates unique constraint", w1)
    else if r.ID ≠ 0 ∧ w1.systemHealth.any (fun x => x.ID == r.ID) then
      (some "duplicate key value violates unique constraint", w1)
    else
      (none, { w1 with
        systemHealth := w1.systemHealth ++
          [{ r with
             ID := if r.ID = 0 then maxHealthID w1.systemHealth + 1 else r.ID
             CreatedAt := if r.CreatedAt = 0 then w1.now else r.CreatedAt }] })

/-- The statement `Save(&healthRecord)`: a record with a zero identifier is created;
otherwise all its fields are written to the row with its identifier, and when
no row has it the record is inserted. -/
def dbSaveHealth (w : World) (r : SystemHealth) : Option String × World :=
  if r.ID = 0 then dbCreateHealth w r
  else
    match nextFault w with
    | (some msg, w1) => (some msg, w1)
    | (none, w1) =>
      if w1.systemHealth.any (fun x => x.ComponentName == r.ComponentName && x.ID != r.ID) then
        (some "duplicate key value violates unique constraint", w1)
      else if w1.systemHealth.any (fun x => x.ID == r.ID) then
        (none, { w1 with
          systemHealth := w1.systemHealth.map (fun x => if x.ID = r.ID then r else x) })
      else dbCreateHealth w1 r

/-! ## The data collector -/

/-- The method `collectPostgreSQLConnections`. -/
def collectPostgreSQLConnections (fmt : Fmt) (src : Sources) (w : World) :
    Option String × World :=
  match src.lightAdminPool with
  | .error e => (some e, w)
  | .ok stats =>
    let tags : List (String × TagValue) :=
      if src.tagsMaxFirst then
        [("max_connections", .int src.lightAdminMaxOpenConns), ("idle_connections", .int stats.Idle)]
      else
        [("idle_connections", .int stats.Idle), ("max_connections", .int src.lightAdminMaxOpenConns)]
    dbCreateMetrics w
      [{ ID := "", DatabaseType := "postgresql", DatabaseName := "light_admin",
         MetricType := "connection", MetricName := "active_connections",
         MetricValue := Float64.ofInt stats.OpenConnections, Unit := "count",
         CollectedAt := w.now, Tags := formatTags fmt tags }]

/-- The method `collectPostgreSQLDatabaseSize`. -/
def collectPostgreSQLDatabaseSize (src : Sources) (w : World) : Option String × World :=
  match src.databaseSize with
  | .error e => (some e, w)
  | .ok dbSize =>
    let dbSizeMB := dbSize.div (.fin (1024 * 1024))
    dbCreateMetrics w
      [{ ID := "", DatabaseType := "postgresql", DatabaseName := "light_admin",
         MetricType := "storage", MetricName := "database_size_mb",
         MetricValue := dbSizeMB, Unit := "MB", CollectedAt := w.now }]

/-- The two samples `collectPostgreSQLTableSize` builds for one table. -/
def tableSizeMetrics (fmt : Fmt) (now : Int) (stat : TableStat) : List ResourceMetric :=
  [{ ID := "", DatabaseType := "postgresql", DatabaseName := "light_admin",
     MetricType := "storage", MetricName := "table_size_" ++ stat.TableName,
     MetricValue := stat.Size, Unit := "MB", CollectedAt := now,
     Tags := formatTags fmt [("table", .str stat.TableName)] },
   { ID := "", DatabaseType := "postgresql", DatabaseName := "light_admin",
     MetricType := "row_count", MetricName := "table_rows_" ++ stat.TableName,
     MetricValue := Float64.ofInt stat.RowCount, Unit := "count", CollectedAt := now,
     Tags := formatTags fmt [("table", .str stat.TableName)] }]

/-- The method `collectPostgreSQLTableSize`; a failed insert is printed and the loop
goes on. -/
def collectPostgreSQLTableSize (fmt : Fmt) (src : Sources) (w : World) : Option String × World :=
  match src.tableStats with
  | .error e => (some e, w)
  | .ok tableStats =>
    (none, tableStats.foldl
      (fun acc stat => (dbCreateMetrics acc (tableSizeMetrics fmt acc.now stat)).2) w)

/-- The method `collectPostgreSQLUserStats`; only the first count is checked. -/
def collectPostgreSQLUserStats (fmt : Fmt) (src : Sources) (w : World) : Option String × World :=
  match src.orgCount with
  | .error e => (some e, w)
  | .ok totalOrgs =>
    dbCreateMetrics w
      [{ ID := "", DatabaseType := "postgresql", DatabaseName := "light_admin",
         MetricType := "organization_count", MetricName := "total_organizations",
         MetricValue := Float64.ofInt totalOrgs, Unit := "count", CollectedAt := w.now },
       { ID := "", DatabaseType := "postgresql", DatabaseName := "light_admin",
         MetricType := "user_count", MetricName := "total_users",
         MetricValue := Float64.ofInt src.totalUsers, Unit := "count", CollectedAt := w.now,
         Tags := formatTags fmt [("active_users", .int src.activeUsers)] },
       { ID := "", DatabaseType := "postgresql", DatabaseName := "light_admin",
         MetricType := "subscription_count", MetricName := "active_subscriptions",
         MetricValue := Float64.ofInt src.activeSubs, Unit := "count", CollectedAt := w.now,
         Tags := formatTags fmt [("monthly_revenue", .float src.monthlyRevenue)] },
       { ID := "", DatabaseType := "postgresql", DatabaseName := "light_admin",
         MetricType := "revenue", MetricName := "monthly_revenue",
         MetricValue := src.monthlyRevenue, Unit := "USD", CollectedAt := w.now }]

/-- The sum `totalUsage` of `collectPostgreSQLOrganizationStats`: `1.0` is added for
every usage record. -/
def usageTotal : Nat → Float64
  | 0 => .fin 0
  | n + 1 => (usageTotal n).add (.fin 1)

/-- The four samples `collectPostgreSQLOrganizationStats` appends for one organization. -/
def organizationMetrics (fmt : Fmt) (now : Int) (org : OrgStat) : List ResourceMetric :=
  [{ ID := "", OrganizationID := some org.ID, DatabaseType := "postgresql",
     DatabaseName := "light_admin", MetricType := "organization_users",
     MetricName := "user_count", MetricValue := Float64.ofInt org.userCount, Unit := "count",
     CollectedAt := now, Tags := formatTags fmt [("organization_name", .str org.Name)] },
   { ID := "", OrganizationID := some org.ID, DatabaseType := "postgresql",
     DatabaseName := "light_admin", MetricType := "organization_workspaces",
     MetricName := "workspace_count", MetricValue := Float64.ofInt org.workspaceCount,
     Unit := "count", CollectedAt := now,
     Tags := formatTags fmt [("organization_name", .str org.Name)] },
   { ID := "", OrganizationID := some org.ID, DatabaseType := "postgresql",
     DatabaseName := "light_admin", MetricType := "organization_subscriptions",
     MetricName := "active_subscriptions", MetricValue := Float64.ofInt org.activeSubs,
     Unit := "count", CollectedAt := now,
     Tags := formatTags fmt [("organization_name", .str org.Name)] },
   { ID := "", OrganizationID := some org.ID, DatabaseType := "postgresql",
     DatabaseName := "light_admin", MetricType := "organization_usage",
     MetricName := "monthly_usage", MetricValue := usageTotal org.usageRecords,
     Unit := "units", CollectedAt := now,
     Tags := formatTags fmt [("organization_name", .str org.Name)] }]

/-- The method `collectPostgreSQLOrganizationStats`. -/
def collectPostgreSQLOrganizationStats (fmt : Fmt) (src : Sources) (w : World) :
    Option String × World :=
  match src.organizations with
  | .error e => (some ("failed to fetch organizations: " ++ e), w)
  | .ok organizations =>
    let metrics := organizations.flatMap (organizationMetrics fmt w.now)
    if 0 < metrics.length then dbCreateMetricsInBatches w metrics 100
    else (none, w)

/-- The method `collectPostgreSQLData`: the first failing step ends it. -/
def collectPostgreSQLData (fmt : Fmt) (src : Sources) (w : World) : Option String × World :=
  match collectPostgreSQLConnections fmt src w with
  | (some err, w1) => (some ("failed to collect PostgreSQL connections: " ++ err), w1)
  | (none, w1) =>
    match collectPostgreSQLDatabaseSize src w1 with
    | (some err, w2) => (some ("failed to collect PostgreSQL database size: " ++ err), w2)
    | (none, w2) =>
      match collectPostgreSQLTableSize fmt src w2 with
      | (some err, w3) => (some ("failed to collect PostgreSQL table size: " ++ err), w3)
      | (none, w3) =>
        match collectPostgreSQLUserStats fmt src w3 with
        | (some err, w4) => (some ("failed to collect PostgreSQL user stats: " ++ err), w4)
        | (none, w4) =>
          match collectPostgreSQLOrganizationStats fmt src w4 with
          | (some err, w5) =>
            (some ("failed to collect PostgreSQL organization stats: " ++ err), w5)
          | (none, w5) => (none, w5)

/-- The method `collectClickHouseDatabaseSize`. -/
def collectClickHouseDatabaseSize (w : World) (dbName : String) (conn : ClickHouseConn) :
    Option String × World :=
  match conn.sizeRow with
  | .error e => (some e, w)
  | .ok (totalBytes, tableCount, rowCount) =>
    let sizeMB := (Float64.ofInt totalBytes).div (.fin (1024 * 1024))
    dbCreateMetrics w
      [{ ID := "", DatabaseType := "clickhouse", DatabaseName := dbName,
         MetricType := "storage", MetricName := "database_size_mb",
         MetricValue := sizeMB, Unit := "MB", CollectedAt := w.now },
       { ID := "", DatabaseType := "clickhouse", DatabaseName := dbName,
         MetricType := "table_count", MetricName := "total_tables",
         MetricValue := Float64.ofInt tableCount, Unit := "count", CollectedAt := w.now },
       { ID := "", DatabaseType := "clickhouse", DatabaseName := dbName,
         MetricType := "row_count", MetricName := "total_rows",
         MetricValue := Float64.ofInt rowCount, Unit := "count", CollectedAt := w.now }]

/-- The two samples `collectClickHouseTableStats` builds for one scanned row. -/
def clickHouseTableMetrics (fmt : Fmt) (now : Int) (dbName tableName : String)
    (totalBytes totalRows : Int) : List ResourceMetric :=
  [{ ID := "", DatabaseType := "clickhouse", DatabaseName := dbName,
     MetricType := "storage", MetricName := "table_size_" ++ tableName,
     MetricValue := (Float64.ofInt totalBytes).div (.fin (1024 * 1024)), Unit := "MB",
     CollectedAt := now, Tags := formatTags fmt [("table", .str tableName)] },
   { ID := "", DatabaseType := "clickhouse", DatabaseName := dbName,
     MetricType := "row_count", MetricName := "table_rows_" ++ tableName,
     MetricValue := Float64.ofInt totalRows, Unit := "count", CollectedAt := now,
     Tags := formatTags fmt [("table", .str tableName)] }]

/-- The method `collectClickHouseTableStats`; a row that fails to scan is skipped and
a failed insert is printed. -/
def collectClickHouseTableStats (fmt : Fmt) (w : World) (dbName : String)
    (conn : ClickHouseConn) : Option String × World :=
  match conn.tableRows with
  | .error e => (some e, w)
  | .ok rows =>
    (none, rows.foldl
      (fun acc row =>
        match row with
        | .error _ => acc
        | .ok (tableName, totalBytes, totalRows) =>
          (dbCreateMetrics acc
            (clickHouseTableMetrics fmt acc.now dbName tableName totalBytes totalRows)).2) w)

/-- The rows of the table query that scan without error, in the order of the result. -/
def scannedRows (rows : List (Except String (String × Int × Int))) :
    List (String × Int × Int) :=
  rows.filterMap (fun row =>
    match row with
    | .ok r => some r
    | .error _ => none)

/-- The method `collectClickHouseQueryStats`; a failing query is not an error. -/
def collectClickHouseQueryStats (w : World) (dbName : String) (conn : ClickHouseConn) :
    Option String × World :=
  match conn.slowQueries with
  | .error _ => (none, w)
  | .ok (count, avgTime, _) =>
    dbCreateMetrics w
      [{ ID := "", DatabaseType := "clickhouse", DatabaseName := dbName,
         MetricType := "query_performance", MetricName := "slow_queries_count_1h",
         MetricValue := Float64.ofInt count, Unit := "count", CollectedAt := w.now },
       { ID := "", DatabaseType := "clickhouse", DatabaseName := dbName,
         MetricType := "query_performance", MetricName := "avg_query_time_1h",
         MetricValue := avgTime, Unit := "ms", CollectedAt := w.now }]

/-- The method `collectClickHouseDatabaseData`: the first failing step ends it. -/
def collectClickHouseDatabaseData (fmt : Fmt) (w : World) (dbName : String)
    (conn : ClickHouseConn) : Option String × World :=
  match collectClickHouseDatabaseSize w dbName conn with
  | (some err, w1) => (some err, w1)
  | (none, w1) =>
    match collectClickHouseTableStats fmt w1 dbName conn with
    | (some err, w2) => (some err, w2)
    | (none, w2) =>
      match collectClickHouseQueryStats w2 dbName conn with
      | (some err, w3) => (some err, w3)
      | (none, w3) => (none, w3)

/-- The method `collectClickHouseData`; the error of an instance is printed and the
loop goes on. -/
def collectClickHouseData (fmt : Fmt) (src : Sources) (w : World) : Option String × World :=
  (none, src.clickHouse.foldl
    (fun acc e => (collectClickHouseDatabaseData fmt acc e.1 e.2).2) w)

/-- The value `hitRate` of `collectRedisData` for the two parsed counters. -/
def hitRatePercent (keyspaceHits keyspaceMisses : Int) : Float64 :=
  let totalRequests := wrapInt64 (keyspaceHits + keyspaceMisses)
  if 0 < totalRequests then
    ((Float64.ofInt keyspaceHits).div (Float64.ofInt totalRequests)).mul (.fin 100)
  else .fin 0

/-- The three samples `collectRedisData` builds from the text of `INFO`. -/
def redisMetrics (now : Int) (redisInfo : String) : List ResourceMetric :=
  let memoryUsed := extractRedisMetric redisInfo "used_memory:"
  let connectedClients := extractRedisMetric redisInfo "connected_clients:"
  let keyspaceHits := extractRedisMetric redisInfo "keyspace_hits:"
  let keyspaceMisses := extractRedisMetric redisInfo "keyspace_misses:"
  [{ ID := "", DatabaseType := "redis", DatabaseName := "default",
     MetricType := "memory", MetricName := "used_memory_bytes",
     MetricValue := Float64.ofInt memoryUsed, Unit := "bytes", CollectedAt := now },
   { ID := "", DatabaseType := "redis", DatabaseName := "default",
     MetricType := "connection", MetricName := "connected_clients",
     MetricValue := Float64.ofInt connectedClients, Unit := "count", CollectedAt := now },
   { ID := "", DatabaseType := "redis", DatabaseName := "default",
     MetricType := "performance", MetricName := "hit_rate_percent",
     MetricValue := hitRatePercent keyspaceHits keyspaceMisses, Unit := "percent",
     CollectedAt := now }]

/-- The method `collectRedisData`. -/
def collectRedisData (src : Sources) (w : World) : Option String × World :=
  match src.redis with
  | none => (some "Redis client not initialized", w)
  | some client =>
    match client.info with
    | .error e => (some e, w)
    | .ok redisInfo => dbCreateMetrics w (redisMetrics w.now redisInfo)

/-- The method `HealthCheck` of the database manager. -/
def HealthCheck (src : Sources) : List (String × Option String) :=
  let s1 := mapSet ([] : List (String × Option String)) "saas_monitor" src.saasMonitorPing
  let s2 := mapSet s1 "light_admin" src.lightAdminPing
  let s3 := src.clickHouse.foldl (fun st e => mapSet st ("clickhouse_" ++ e.1) e.2.ping) s2
  match src.redis with
  | some client => mapSet s3 "redis" client.ping
  | none => s3

/-- One iteration of the loop of `collectSystemHealth`, for the entry
`(component, err)` of the health status. -/
def healthStep (src : Sources) (w : World) (component : String) (err : Option String) : World :=
  let status := if err.isSome then "unhealthy" else "healthy"
  let errorMessage := err.getD ""
  let probed : Int × World :=
    match err with
    | some _ => (0, w)
    | none =>
      ((mapGet src.elapsedMs component).getD 0,
       if component = "saas_monitor" then dbExec w else w)
  let responseTime := probed.1
  match dbFirstHealth probed.2 component with
  | (.error .ErrRecordNotFound, w2) =>
    (dbCreateHealth w2
      { ComponentName := component, ComponentType := getComponentType component,
        Status := status, ResponseTime := some responseTime, ErrorMessage := some errorMessage,
        LastCheckedAt := w2.now, CreatedAt := w2.now, UpdatedAt := w2.now }).2
  | (.error (.other _), w2) =>
    (dbSaveHealth w2
      { ID := 0, ComponentName := "", ComponentType := "", Status := status,
        ResponseTime := some responseTime, ErrorMessage := some errorMessage,
        LastCheckedAt := w2.now, CreatedAt := 0, UpdatedAt := w2.now }).2
  | (.ok healthRecord, w2) =>
    (dbSaveHealth w2
      { healthRecord with
        Status := status, ResponseTime := some responseTime,
        ErrorMessage := some errorMessage, LastCheckedAt := w2.now, UpdatedAt := w2.now }).2

/-- The method `collectSystemHealth`. -/
def collectSystemHealth (src : Sources) (w : World) : Option String × World :=
  (none, (HealthCheck src).foldl (fun acc e => healthStep src acc e.1 e.2) w)

/-- The method `CollectAllData`: the error of a group is printed and the next group
is run. -/
def CollectAllData (fmt : Fmt) (src : Sources) (w : World) : Option String × World :=
  let w1 := (collectPostgreSQLData fmt src w).2
  let w2 := (collectClickHouseData fmt src w1).2
  let w3 := (collectRedisData src w2).2
  let w4 := (collectSystemHealth src w3).2
  (none, w4)

/-- The body run on every tick of the loop started by `startDataCollection`. -/
def dataCollectionTick (fmt : Fmt) (src : Sources) (w : World) : World :=
  match CollectAllData fmt src w with
  | (some err, w1) => logMonitoringError fmt w1 "data_collector" err
  | (none, w1) => w1

/-- Sources used in examples: every collaborator answers. -/
def healthySources : Sources :=
  { saasMonitorPing := none
    lightAdminPing := none
    lightAdminPool := .ok { OpenConnections := 5, InUse := 3, Idle := 2 }
    lightAdminMaxOpenConns := 10
    tagsMaxFirst := true
    databaseSize := .ok (.fin 10485760)
    tableStats := .ok [{ TableName := "public.auth_users", Size := .fin 3, RowCount := 120 }]
    orgCount := .ok 2
    totalUsers := 7
    activeUsers := 4
    totalSubs := 3
    activeSubs := 2
    monthlyRevenue := .fin 99
    organizations := .ok [{ ID := "3c1d2f60-0000-4000-8000-000000000001", Name := "Acme",
                            userCount := 3, workspaceCount := 1, activeSubs := 1,
                            usageRecords := 2 }]
    clickHouse := [("traces",
      { ping := none
        sizeRow := .ok (2097152, 4, 1000)
        tableRows := .ok [.ok ("spans", 1048576, 500)]
        slowQueries := .ok (1, .fin 1500, .fin 2000) })]
    redis := some { ping := none, info := .ok "keyspace_hits: 90\nkeyspace_misses: 10\n" }
    elapsedMs := [("saas_monitor", 3), ("light_admin", 2), ("redis", 1)] }

/-- Sources used in examples: every collaborator fails. -/
def failingSources : Sources :=
  { healthySources with
    saasMonitorPing := some "connection refused"
    lightAdminPing := some "connection refused"
    lightAdminPool := .error "sql: database is closed"
    databaseSize := .error "connection refused"
    tableStats := .error "connection refused"
    orgCount := .error "connection refused"
    organizations := .error "connection refused"
    clickHouse := [("traces",
      { ping := some "connection refused"
        sizeRow := .error "connection refused"
        tableRows := .error "connection refused"
        slowQueries := .error "connection refused" })]
    redis := some { ping := some "connection refused", info := .error "connection refused" } }

/-- The record `errorLog` built by `logMonitoringError`. -/
def monitoringErrorLog (fmt : Fmt) (now : Int) (component errorMessage : String) :
    MonitoringLog :=
  { LogLevel := "error"
    Source := "scheduler"
    Component := component
    Message := "Monitoring task error"
    Details := "\x7b\"error\": \"" ++ errorMessage ++ "\", \"timestamp\": \"" ++
      fmt.rfc3339 now ++ "\"\x7d"
    CreatedAt := now }

/-- A store used in examples of the cleaner: forty days after the origin of time,
with a sample and a log entry created on day five and on day twenty. -/
def retentionWorld : World :=
  { resourceMetrics :=
      [{ exampleMetric with CollectedAt := 5 * (24 * hourNs), CreatedAt := 5 * (24 * hourNs) },
       { exampleMetric with CollectedAt := 20 * (24 * hourNs), CreatedAt := 20 * (24 * hourNs) }]
    monitoringLogs :=
      [{ LogLevel := "info", Source := "scheduler", Message := "old", Details := "",
         CreatedAt := 5 * (24 * hourNs) },
       { LogLevel := "info", Source := "scheduler", Message := "recent", Details := "",
         CreatedAt := 20 * (24 * hourNs) }]
    now := 40 * (24 * hourNs) }

/-- A store used in examples of the health sweep: at time 50 the table holds one
record, of the component "light_admin", written at time 5. -/
def healthWorld : World :=
  { systemHealth :=
      [{ ID := 7, ComponentName := "light_admin", ComponentType := "postgresql",
         Status := "unhealthy", ResponseTime := some 0,
         ErrorMessage := some "connection refused", LastCheckedAt := 5, CreatedAt := 5,
         UpdatedAt := 5 }]
    now := 50 }

/-- A store used in examples of the sample lookup: two samples of the example rule's
target, the later collected one inserted first and created first, and a sample of
another instance collected after both. -/
def historyWorld : World :=
  { alertRules := [exampleRule]
    resourceMetrics :=
      [{ exampleMetric with
         ID := "5a3e9d70-77c2-4f0b-8a55-90c1e2d30002", MetricValue := .fin 9,
         CollectedAt := 3000, CreatedAt := 100 },
       { exampleMetric with
         ID := "5a3e9d70-77c2-4f0b-8a55-90c1e2d30003", MetricValue := .fin 2,
         CollectedAt := 1000, CreatedAt := 5000 },
       { exampleMetric with
         ID := "5a3e9d70-77c2-4f0b-8a55-90c1e2d30004", DatabaseName := "analytics",
         MetricValue := .fin 1, CollectedAt := 9000, CreatedAt := 9000 }]
    now := 9060 }

/-- A ClickHouse connection used in examples of the table statistics: two tables, of
1 MB and of 3 MB, and between them a row that fails to scan. -/
def twoTableConn : ClickHouseConn :=
  { ping := none
    sizeRow := .ok (4194304, 2, 507)
    tableRows := .ok [.ok ("spans", 1048576, 500), .error "converting NULL to uint64",
                      .ok ("logs", 3145728, 7)]
    slowQueries := .error "unknown table system.query_log" }

/-- The configuration used in examples: collection every five minutes, thirty
days of retention. -/
def exampleConfig : MonitoringConfig := { CollectInterval := 5, RetentionDays := 30 }

/-- What the unique index and the primary key guarantee of the health table: no
component name and no identifier occurs twice, and no identifier is zero. -/
structure HealthTableOK (rs : List SystemHealth) : Prop where
  names : (rs.map (fun r => r.ComponentName)).Nodup
  ids : (rs.map (fun r => r.ID)).Nodup
  nonzero : ∀ r ∈ rs, r.ID ≠ 0

/-- The value `status` of the loop of `collectSystemHealth` for a probe result. -/
def probeStatus (err : Option String) : String :=
  if err.isSome then "unhealthy" else "healthy"

/-- The value `responseTime` of the loop of `collectSystemHealth`. -/
def probeResponseTime (src : Sources) (component : String) (err : Option String) : Int :=
  match err with
  | some _ => 0
  | none => (mapGet src.elapsedMs component).getD 0

/-- The record of `component` after a sweep at time `now` that found the table
`old`: the probe result is written; identifier, component type and creation time
are those of the former record of the component, if there was one, and otherwise
the record is new. -/
def Upserted (src : Sources) (now : Int) (old : List SystemHealth) (component : String)
    (err : Option String) (r : SystemHealth) : Prop :=
  r.ComponentName = component ∧ r.Status = probeStatus err ∧
  r.ResponseTime = some (probeResponseTime src component err) ∧
  r.ErrorMessage = some (err.getD "") ∧ r.LastCheckedAt = now ∧ r.UpdatedAt = now ∧
  (∀ r0 ∈ old, r0.ComponentName = component →
    r.ID = r0.ID ∧ r.ComponentType = r0.ComponentType ∧ r.CreatedAt = r0.CreatedAt) ∧
  ((∀ r0 ∈ old, r0.ComponentName ≠ component) →
    r.ComponentType = getComponentType component ∧ r.CreatedAt = now ∧
    ∀ r0 ∈ old, r0.ID ≠ r.ID)

/-! ## The engine: scheduler and store together -/

/-- The scheduler together with the store its tasks act on. -/
structure Engine where
  scheduler : TaskScheduler
  world : World

/-- One firing of the ticker of the task registered under `name`: the loop
launched by the matching `start*` method runs its body, and on an error calls
`logMonitoringError`.  The loop reads `ts.config` and `ts.dbManager` only. -/
def Engine.tick (fmt : Fmt) (src : Sources) (e : Engine) (name : String) : Engine :=
  if name = "data_collection" then
    { e with world := dataCollectionTick fmt src e.world }
  else if name = "alert_checker" then
    { e with world := alertCheckerTick fmt e.world }
  else if name = "data_cleanup" then
    { e with world := dataCleanupTick fmt e.scheduler.config e.world }
  else e

/-! ## Lemmas on maps and object tables -/

theorem mem_mapDelete {V : Type} (m : List (String × V)) (k : String) (e : String × V) :
    e ∈ mapDelete m k ↔ e ∈ m ∧ e.1 ≠ k := by
  simp [mapDelete]

theorem mem_mapSet {V : Type} (m : List (String × V)) (k : String) (v : V) (e : String × V) :
    e ∈ mapSet m k v ↔ (e ∈ m ∧ e.1 ≠ k) ∨ e = (k, v) := by
  simp [mapSet, mem_mapDelete]

theorem mem_mapKeys {V : Type} (m : List (String × V)) (k : String) :
    k ∈ mapKeys m ↔ ∃ v, (k, v) ∈ m := by
  simp [mapKeys]

theorem mapKeys_mapDelete {V : Type} (m : List (String × V)) (k : String) :
    mapKeys (mapDelete m k) = (mapKeys m).filter (fun n => !(n == k)) := by
  induction m with
  | nil => rfl
  | cons e m ih =>
    simp only [mapDelete, mapKeys] at ih ⊢
    by_cases h : e.1 = k <;> simp [List.filter_cons, h, ih]

theorem nodup_mapKeys_mapDelete {V : Type} (m : List (String × V)) (k : String)
    (h : (mapKeys m).Nodup) : (mapKeys (mapDelete m k)).Nodup := by
  rw [mapKeys_mapDelete]
  exact h.filter _

theorem nodup_mapKeys_mapSet {V : Type} (m : List (String × V)) (k : String) (v : V)
    (h : (mapKeys m).Nodup) : (mapKeys (mapSet m k v)).Nodup := by
  have h1 := nodup_mapKeys_mapDelete m k h
  have h2 : k ∉ mapKeys (mapDelete m k) := by
    rw [mapKeys_mapDelete]; simp
  simp only [mapSet, mapKeys, List.map_append, List.map_cons, List.map_nil] at *
  rw [List.nodup_append]
  refine ⟨h1, by simp, ?_⟩
  intro a ha hb
  simp at hb
  subst hb
  exact h2 ha

theorem mapGet_mem {V : Type} (m : List (String × V)) (k : String) (v : V)
    (h : mapGet m k = some v) : (k, v) ∈ m := by
  induction m with
  | nil => simp [mapGet] at h
  | cons e m ih =>
    by_cases hk : e.1 = k
    · simp [mapGet, List.find?_cons, hk] at h
      subst hk; subst h; simp
    · have : mapGet m k = some v := by
        simpa [mapGet, List.find?_cons, hk] using h
      exact List.mem_cons_of_mem _ (ih this)

theorem mapGet_of_mem {V : Type} (m : List (String × V)) (k : String) (v : V)
    (hnd : (mapKeys m).Nodup) (h : (k, v) ∈ m) : mapGet m k = some v := by
  induction m with
  | nil => simp at h
  | cons e m ih =>
    simp only [mapKeys, List.map_cons, List.nodup_cons] at hnd
    rcases List.mem_cons.1 h with h | h
    · subst h; simp [mapGet, List.find?_cons]
    · have hne : e.1 ≠ k := by
        intro hk
        apply hnd.1
        rw [hk]
        exact List.mem_map.2 ⟨(k, v), h, rfl⟩
      have := ih hnd.2 h
      simpa [mapGet, List.find?_cons, hne] using this

theorem mapGet_eq_none {V : Type} (m : List (String × V)) (k : String)
    (h : k ∉ mapKeys m) : mapGet m k = none := by
  induction m with
  | nil => rfl
  | cons e m ih =>
    simp only [mapKeys, List.map_cons, List.mem_cons, not_or] at h
    have hne : e.1 ≠ k := fun hk => h.1 hk.symm
    have := ih h.2
    simpa [mapGet, List.find?_cons, hne] using this

theorem mapDelete_absent {V : Type} (m : List (String × V)) (k : String)
    (h : k ∉ mapKeys m) : mapDelete m k = m := by
  simp only [mapDelete, List.filter_eq_self]
  intro e he
  have : e.1 ≠ k := by
    intro hk; apply h; rw [← hk]; exact List.mem_map.2 ⟨e, he, rfl⟩
  simp [this]

theorem snd_inj_of_nodup {V : Type} (m : List (String × V)) (h : (m.map Prod.snd).Nodup)
    (a b : String × V) (ha : a ∈ m) (hb : b ∈ m) (hab : a.2 = b.2) : a = b :=
  List.inj_on_of_nodup_map h ha hb hab


theorem mapDelete_idem {V : Type} (m : List (String × V)) (k : String) :
    mapDelete (mapDelete m k) k = mapDelete m k := by
  simp [mapDelete, List.filter_filter]

theorem mapDelete_of_mapGet_none {V : Type} (m : List (String × V)) (k : String)
    (h : mapGet m k = none) : mapDelete m k = m := by
  apply mapDelete_absent
  intro hk
  rcases (mem_mapKeys m k).1 hk with ⟨v, hv⟩
  induction m with
  | nil => simp at hv
  | cons e m ih =>
    by_cases he : e.1 = k
    · simp [mapGet, List.find?_cons, he] at h
    · have h2 : mapGet m k = none := by simpa [mapGet, List.find?_cons, he] using h
      rcases List.mem_cons.1 hv with hv | hv
      · exact he (by rw [← hv])
      · exact ih h2 (List.mem_map.2 ⟨(k, v), hv, rfl⟩) hv

theorem nodup_vals_mapSet {V : Type} (m : List (String × V)) (k : String) (v : V)
    (h : (m.map Prod.snd).Nodup) (hv : v ∉ m.map Prod.snd) :
    ((mapSet m k v).map Prod.snd).Nodup := by
  have hsub : ((mapDelete m k).map Prod.snd).Sublist (m.map Prod.snd) :=
    (List.filter_sublist m).map Prod.snd
  simp only [mapSet, List.map_append, List.map_cons, List.map_nil]
  rw [List.nodup_append]
  refine ⟨h.sublist hsub, by simp, ?_⟩
  intro a ha hb
  simp at hb
  subst hb
  exact hv (hsub.subset ha)

theorem getElem?_set_append_old {α : Type} (l : List α) (i j : Nat) (a b x : α)
    (h : l[j]? = some x) (hij : j ≠ i) : (l.set i a ++ [b])[j]? = some x := by
  have hj : j < l.length := by
    rcases Nat.lt_or_ge j l.length with h1 | h1
    · exact h1
    · rw [List.getElem?_eq_none h1] at h; cases h
  rw [List.getElem?_append_left (by simpa using hj)]
  rw [List.getElem?_set_ne (Ne.symm hij)]
  exact h

theorem getElem?_set_append_new {α : Type} (l : List α) (i : Nat) (a b : α) :
    (l.set i a ++ [b])[l.length]? = some b := by
  have : (l.set i a).length = l.length := List.length_set ..
  rw [List.getElem?_append_right (by omega)]
  simp [this]

theorem getElem?_append_old {α : Type} (l : List α) (j : Nat) (b x : α)
    (h : l[j]? = some x) : (l ++ [b])[j]? = some x := by
  have hj : j < l.length := by
    rcases Nat.lt_or_ge j l.length with h1 | h1
    · exact h1
    · rw [List.getElem?_eq_none h1] at h; cases h
  rw [List.getElem?_append_left hj]
  exact h

theorem lt_length_of_getElem? {α : Type} (l : List α) (j : Nat) (x : α)
    (h : l[j]? = some x) : j < l.length := by
  rcases Nat.lt_or_ge j l.length with h1 | h1
  · exact h1
  · rw [List.getElem?_eq_none h1] at h; cases h

theorem startTask_ok (ts : TaskScheduler) (name : String) (d : Int) (hd : 0 < d) :
    startTask ts name d = .ok (none,
      { ts with
        tickers := ts.tickers ++ [{ period := d, stopped := false }]
        chans := ts.chans ++ [false]
        collectors := mapSet ts.collectors name ts.tickers.length
        stopChans := mapSet ts.stopChans name ts.chans.length }) := by
  simp [startTask, newTicker, makeChan, not_le.2 hd]

theorem startTask_fault (ts : TaskScheduler) (name : String) (d : Int) (hd : d ≤ 0) :
    startTask ts name d = .error "non-positive interval for NewTicker" := by
  simp [startTask, newTicker, hd]

theorem Reg.chan_lt {ts : TaskScheduler} (h : Reg ts) (e : String × Nat)
    (he : e ∈ ts.stopChans) : e.2 < ts.chans.length :=
  lt_length_of_getElem? _ _ _ (h.chanOpen e he)

theorem Reg.ticker_lt {ts : TaskScheduler} (h : Reg ts) (e : String × Nat)
    (he : e ∈ ts.collectors) : e.2 < ts.tickers.length :=
  lt_length_of_getElem? _ _ _ (h.tickerLive e he)

theorem Reg.fresh_chan {ts : TaskScheduler} (h : Reg ts) :
    ts.chans.length ∉ ts.stopChans.map Prod.snd := by
  intro hm
  rcases List.mem_map.1 hm with ⟨e, he, hl⟩
  have := h.chan_lt e he
  omega

theorem Reg.fresh_ticker {ts : TaskScheduler} (h : Reg ts) :
    ts.tickers.length ∉ ts.collectors.map Prod.snd := by
  intro hm
  rcases List.mem_map.1 hm with ⟨e, he, hl⟩
  have := h.ticker_lt e he
  omega

/-- Registering a task with its own interval keeps the registry consistent. -/
theorem Reg.register {ts ts1 : TaskScheduler} (name : String) (h : Reg ts)
    (hcfg : ts1.config = ts.config)
    (htick : ts1.tickers = ts.tickers ++
      [{ period := taskInterval ts.config name, stopped := false }])
    (hch : ts1.chans = ts.chans ++ [false])
    (hc : ts1.collectors = mapSet ts.collectors name ts.tickers.length)
    (hs : ts1.stopChans = mapSet ts.stopChans name ts.chans.length) : Reg ts1 := by
  refine ⟨?_, ?_, ?_, ?_, ?_, ?_⟩
  · rw [hc]; exact nodup_mapKeys_mapSet _ _ _ h.keysC
  · rw [hs]; exact nodup_mapKeys_mapSet _ _ _ h.keysS
  · rw [hc]; exact nodup_vals_mapSet _ _ _ h.valsC h.fresh_ticker
  · rw [hs]; exact nodup_vals_mapSet _ _ _ h.valsS h.fresh_chan
  · intro e he
    rw [hs, mem_mapSet] at he
    rw [hch]
    rcases he with ⟨he, _⟩ | he
    · exact getElem?_append_old _ _ _ _ (h.chanOpen e he)
    · subst he; simp
  · intro e he
    rw [hc, mem_mapSet] at he
    rw [htick, hcfg]
    rcases he with ⟨he, _⟩ | he
    · exact getElem?_append_old _ _ _ _ (h.tickerLive e he)
    · subst he; simp

/-- Closing the channel of a task, stopping its ticker and registering the task
again keeps the registry consistent. -/
theorem Reg.reregister {ts ts1 : TaskScheduler} (name : String) (c t : Nat) (k : Ticker)
    (h : Reg ts)
    (hmc : (name, c) ∈ ts.stopChans) (hmt : (name, t) ∈ ts.collectors)
    (hcfg : ts1.config = ts.config)
    (htick : ts1.tickers = ts.tickers.set t k ++
      [{ period := taskInterval ts.config name, stopped := false }])
    (hch : ts1.chans = ts.chans.set c true ++ [false])
    (hc : ts1.collectors = mapSet ts.collectors name ts.tickers.length)
    (hs : ts1.stopChans = mapSet ts.stopChans name ts.chans.length) : Reg ts1 := by
  refine ⟨?_, ?_, ?_, ?_, ?_, ?_⟩
  · rw [hc]; exact nodup_mapKeys_mapSet _ _ _ h.keysC
  · rw [hs]; exact nodup_mapKeys_mapSet _ _ _ h.keysS
  · rw [hc]; exact nodup_vals_mapSet _ _ _ h.valsC h.fresh_ticker
  · rw [hs]; exact nodup_vals_mapSet _ _ _ h.valsS h.fresh_chan
  · intro e he
    rw [hs, mem_mapSet] at he
    rw [hch]
    rcases he with ⟨he, hne⟩ | he
    · have hec : e.2 ≠ c := by
        intro hcc
        have := snd_inj_of_nodup _ h.valsS e (name, c) he hmc hcc
        exact hne (by rw [this])
      exact getElem?_set_append_old _ _ _ _ _ _ (h.chanOpen e he) hec
    · subst he; exact getElem?_set_append_new _ _ _ _
  · intro e he
    rw [hc, mem_mapSet] at he
    rw [htick, hcfg]
    rcases he with ⟨he, hne⟩ | he
    · have hec : e.2 ≠ t := by
        intro hcc
        have := snd_inj_of_nodup _ h.valsC e (name, t) he hmt hcc
        exact hne (by rw [this])
      exact getElem?_set_append_old _ _ _ _ _ _ (h.tickerLive e he) hec
    · subst he; exact getElem?_set_append_new _ _ _ _

theorem taskInterval_pos (cfg : MonitoringConfig) (name : String)
    (h : 0 < dataCollectionInterval cfg) : 0 < taskInterval cfg name := by
  unfold taskInterval
  split_ifs
  · exact h
  · decide
  · decide

/-- What `RestartTask` does for a registered task of a running scheduler. -/
theorem restart_registered (ts : TaskScheduler) (name : String) (c t : Nat)
    (h : Reg ts) (hrun : ts.running = true) (hname : name ∈ taskNames)
    (hpos : 0 < dataCollectionInterval ts.config)
    (hmc : (name, c) ∈ ts.stopChans) (hmt : (name, t) ∈ ts.collectors) :
    RestartTask ts name = .ok (none,
      { ts with
        tickers := ts.tickers.set t { period := taskInterval ts.config name, stopped := true } ++
          [{ period := taskInterval ts.config name, stopped := false }]
        chans := ts.chans.set c true ++ [false]
        collectors := mapSet ts.collectors name ts.tickers.length
        stopChans := mapSet ts.stopChans name ts.chans.length }) := by
  have h1 := mapGet_of_mem _ _ _ h.keysS hmc
  have h2 := mapGet_of_mem _ _ _ h.keysC hmt
  have h3 := h.chanOpen _ hmc
  have h4 := h.tickerLive _ hmt
  simp only at h3 h4
  have hp := taskInterval_pos ts.config name hpos
  simp only [taskNames, List.mem_cons, List.mem_singleton, List.not_mem_nil, or_false] at hname
  rcases hname with rfl | rfl | rfl
  · simp [RestartTask, hrun, h1, h2, closeChan, h3, tickerStop, h4, startDataCollection,
      startTask_ok _ _ _ hpos, mapSet, mapDelete_idem, taskInterval]
  · have hp' : (0:Int) < 1 * minuteNs := by decide
    simp [RestartTask, hrun, h1, h2, closeChan, h3, tickerStop, h4, startAlertChecker,
      startTask_ok _ _ _ hp', startTask_ok _ _ _ (by decide : (0:Int) < minuteNs), mapSet,
      mapDelete_idem, taskInterval]
  · have hp' : (0:Int) < 24 * hourNs := by decide
    simp [RestartTask, hrun, h1, h2, closeChan, h3, tickerStop, h4, startDataCleanup,
      startTask_ok _ _ _ hp', mapSet, mapDelete_idem, taskInterval]

/-- What `RestartTask` does for a name that is not registered. -/
theorem restart_unregistered (ts : TaskScheduler) (name : String)
    (hrun : ts.running = true) (hname : name ∉ taskNames)
    (hc : name ∉ mapKeys ts.collectors) (hs : name ∉ mapKeys ts.stopChans) :
    RestartTask ts name = .ok (some ("unknown task: " ++ name), ts) := by
  have h1 := mapGet_eq_none _ _ hs
  have h2 := mapGet_eq_none _ _ hc
  simp only [taskNames, List.mem_cons, List.mem_singleton, List.not_mem_nil, or_false,
    not_or] at hname
  simp [RestartTask, hrun, h1, h2, hname.1, hname.2.1, hname.2.2]

theorem getElem?_append_add {α : Type} (l l2 : List α) (i : Nat) :
    (l ++ l2)[l.length + i]? = l2[i]? := by
  rw [List.getElem?_append_right (by omega)]
  simp

theorem stopEntry_ok (ts : TaskScheduler) (name : String) (c : Nat)
    (hc : ts.chans[c]? = some false) :
    ∃ ts1, stopEntry ts name c = .ok ts1 ∧ ts1.config = ts.config ∧
      ts1.running = ts.running ∧ ts1.chans = ts.chans.set c true ∧
      ts1.stopChans = mapDelete ts.stopChans name ∧
      ts1.collectors = mapDelete ts.collectors name := by
  cases hg : mapGet ts.collectors name with
  | none =>
    have := mapDelete_of_mapGet_none _ _ hg
    refine ⟨{ ts with chans := ts.chans.set c true,
                      stopChans := mapDelete ts.stopChans name }, ?_, rfl, rfl, rfl, rfl, this.symm⟩
    simp [stopEntry, closeChan, hc, hg]
  | some t =>
    cases ht : ts.tickers[t]? with
    | none =>
      refine ⟨{ ts with chans := ts.chans.set c true,
                        stopChans := mapDelete ts.stopChans name,
                        collectors := mapDelete ts.collectors name }, ?_, rfl, rfl, rfl, rfl, rfl⟩
      simp [stopEntry, closeChan, hc, hg, tickerStop, ht]
    | some k =>
      refine ⟨{ ts with chans := ts.chans.set c true,
                        stopChans := mapDelete ts.stopChans name,
                        collectors := mapDelete ts.collectors name,
                        tickers := ts.tickers.set t { k with stopped := true } },
        ?_, rfl, rfl, rfl, rfl, rfl⟩
      simp [stopEntry, closeChan, hc, hg, tickerStop, ht]

theorem stopLoop_ok (l : List (String × Nat)) :
    ∀ ts : TaskScheduler, (∀ e ∈ l, ts.chans[e.2]? = some false) → (l.map Prod.snd).Nodup →
      ∃ ts1, stopLoop l ts = .ok ts1 ∧ ts1.config = ts.config ∧ ts1.running = ts.running ∧
        (∀ e ∈ ts1.stopChans, e ∈ ts.stopChans ∧ e.1 ∉ mapKeys l) ∧
        (∀ e ∈ ts1.collectors, e ∈ ts.collectors ∧ e.1 ∉ mapKeys l) := by
  induction l with
  | nil =>
    intro ts _ _
    exact ⟨ts, rfl, rfl, rfl, fun e he => ⟨he, by simp [mapKeys]⟩, fun e he => ⟨he, by simp [mapKeys]⟩⟩
  | cons x rest ih =>
    intro ts hopen hnd
    obtain ⟨name, c⟩ := x
    simp only [List.map_cons, List.nodup_cons] at hnd
    obtain ⟨ts1, h1, hcfg, hrun, hch, hs, hcl⟩ :=
      stopEntry_ok ts name c (hopen (name, c) (List.mem_cons_self _ _))
    have hopen1 : ∀ e ∈ rest, ts1.chans[e.2]? = some false := by
      intro e he
      have hne : c ≠ e.2 := by
        intro hce
        exact hnd.1 (hce ▸ List.mem_map.2 ⟨e, he, rfl⟩)
      rw [hch, List.getElem?_set_ne hne]
      exact hopen e (List.mem_cons_of_mem _ he)
    obtain ⟨ts2, h2, hcfg2, hrun2, hs2, hc2⟩ := ih ts1 hopen1 hnd.2
    refine ⟨ts2, by simp [stopLoop, h1, h2], hcfg2.trans hcfg, hrun2.trans hrun, ?_, ?_⟩
    · intro e he
      have := hs2 e he
      rw [hs, mem_mapDelete] at this
      refine ⟨this.1.1, ?_⟩
      simp only [mapKeys, List.map_cons, List.mem_cons, not_or]
      exact ⟨this.1.2, this.2⟩
    · intro e he
      have := hc2 e he
      rw [hcl, mem_mapDelete] at this
      refine ⟨this.1.1, ?_⟩
      simp only [mapKeys, List.map_cons, List.mem_cons, not_or]
      exact ⟨this.1.2, this.2⟩

/-- What `Stop` does in a state satisfying the invariant. -/
theorem stop_of_inv (ts : TaskScheduler) (h : Inv ts) :
    ∃ ts1, Stop ts = .ok ts1 ∧ ts1.config = ts.config ∧ ts1.running = false ∧
      ts1.collectors = [] ∧ ts1.stopChans = [] ∧ (ts.running = false → ts1 = ts) := by
  cases hrun : ts.running with
  | false =>
    obtain ⟨hc, hs⟩ := h.stopped hrun
    exact ⟨ts, by simp [Stop, hrun], rfl, hrun, hc, hs, fun _ => rfl⟩
  | true =>
    obtain ⟨ts1, h1, hcfg, _, hs, hc⟩ := stopLoop_ok ts.stopChans ts h.reg.chanOpen h.reg.valsS
    refine ⟨{ ts1 with running := false }, by simp [Stop, hrun, h1], hcfg, rfl, ?_, ?_, ?_⟩
    · apply List.eq_nil_iff_forall_not_mem.2
      intro e he
      have := hc e he
      apply this.2
      have hk : e.1 ∈ mapKeys ts.collectors := List.mem_map.2 ⟨e, this.1, rfl⟩
      exact (h.runKeysS hrun e.1).2 ((h.runKeysC hrun e.1).1 hk)
    · apply List.eq_nil_iff_forall_not_mem.2
      intro e he
      have := hs e he
      exact this.2 (List.mem_map.2 ⟨e, this.1, rfl⟩)
    · intro hf; cases hf

/-- What `Start` does on a stopped scheduler with an empty registry. -/
theorem start_of_empty (ts : TaskScheduler) (hrun : ts.running = false)
    (hc : ts.collectors = []) (hs : ts.stopChans = [])
    (hpos : 0 < dataCollectionInterval ts.config) :
    Start ts = .ok (none,
      { ts with
        running := true
        tickers := ts.tickers ++
          [{ period := dataCollectionInterval ts.config, stopped := false },
           { period := 1 * minuteNs, stopped := false },
           { period := 24 * hourNs, stopped := false }]
        chans := ts.chans ++ [false, false, false]
        collectors := [("data_collection", ts.tickers.length),
          ("alert_checker", ts.tickers.length + 1), ("data_cleanup", ts.tickers.length + 2)]
        stopChans := [("data_collection", ts.chans.length),
          ("alert_checker", ts.chans.length + 1), ("data_cleanup", ts.chans.length + 2)] }) := by
  have h1 : (0:Int) < minuteNs := by decide
  have h2 : (0:Int) < 24 * hourNs := by decide
  simp [Start, hrun, hc, hs, startDataCollection, startAlertChecker, startDataCleanup,
    startTask_ok _ _ _ hpos, startTask_ok _ _ _ h1, startTask_ok _ _ _ h2, mapSet, mapDelete]

theorem start_fault (ts : TaskScheduler) (hrun : ts.running = false)
    (hpos : dataCollectionInterval ts.config ≤ 0) :
    Start ts = .error "non-positive interval for NewTicker" := by
  simp [Start, hrun, startDataCollection, startTask_fault _ _ _ hpos]

theorem inv_start_state (ts : TaskScheduler)
    (hpos : 0 < dataCollectionInterval ts.config) :
    Inv { ts with
        running := true
        tickers := ts.tickers ++
          [{ period := dataCollectionInterval ts.config, stopped := false },
           { period := 1 * minuteNs, stopped := false },
           { period := 24 * hourNs, stopped := false }]
        chans := ts.chans ++ [false, false, false]
        collectors := [("data_collection", ts.tickers.length),
          ("alert_checker", ts.tickers.length + 1), ("data_cleanup", ts.tickers.length + 2)]
        stopChans := [("data_collection", ts.chans.length),
          ("alert_checker", ts.chans.length + 1), ("data_cleanup", ts.chans.length + 2)] } := by
  refine ⟨⟨?_, ?_, ?_, ?_, ?_, ?_⟩, ?_, ?_, ?_, ?_⟩
  · simp [mapKeys]
  · simp [mapKeys]
  · simp
  · simp
  · intro e he
    simp only [List.mem_cons, List.mem_singleton, List.not_mem_nil, or_false] at he
    rcases he with rfl | rfl | rfl
    · simpa using getElem?_append_add ts.chans [false, false, false] 0
    · simpa using getElem?_append_add ts.chans [false, false, false] 1
    · simpa using getElem?_append_add ts.chans [false, false, false] 2
  · intro e he
    simp only [List.mem_cons, List.mem_singleton, List.not_mem_nil, or_false] at he
    rcases he with rfl | rfl | rfl
    · simpa [taskInterval] using getElem?_append_add ts.tickers
        [{ period := dataCollectionInterval ts.config, stopped := false },
         { period := 1 * minuteNs, stopped := false },
         { period := 24 * hourNs, stopped := false }] 0
    · simpa [taskInterval] using getElem?_append_add ts.tickers
        [{ period := dataCollectionInterval ts.config, stopped := false },
         { period := 1 * minuteNs, stopped := false },
         { period := 24 * hourNs, stopped := false }] 1
    · simpa [taskInterval] using getElem?_append_add ts.tickers
        [{ period := dataCollectionInterval ts.config, stopped := false },
         { period := 1 * minuteNs, stopped := false },
         { period := 24 * hourNs, stopped := false }] 2
  · intro h; cases h
  · intro _ n; simp [mapKeys, taskNames]
  · intro _ n; simp [mapKeys, taskNames]
  · intro _; exact hpos

theorem mem_mapKeys_mapSet {V : Type} (m : List (String × V)) (k : String) (v : V)
    (n : String) : n ∈ mapKeys (mapSet m k v) ↔ n ∈ mapKeys m ∨ n = k := by
  simp only [mapSet, mapKeys, List.map_append, List.mem_append, List.map_cons, List.map_nil,
    List.mem_singleton]
  have := mapKeys_mapDelete m k
  simp only [mapKeys] at this
  rw [this]
  simp only [List.mem_filter, Bool.not_eq_true', beq_eq_false_iff_ne, ne_eq]
  constructor
  · rintro (⟨h, _⟩ | h)
    · exact Or.inl h
    · exact Or.inr h
  · rintro (h | h)
    · by_cases hk : n = k
      · exact Or.inr hk
      · exact Or.inl ⟨h, hk⟩
    · exact Or.inr h

theorem inv_of_empty (ts : TaskScheduler) (hrun : ts.running = false)
    (hc : ts.collectors = []) (hs : ts.stopChans = []) : Inv ts := by
  refine ⟨⟨?_, ?_, ?_, ?_, ?_, ?_⟩, fun _ => ⟨hc, hs⟩, ?_, ?_, ?_⟩
  · simp [hc, mapKeys]
  · simp [hs, mapKeys]
  · simp [hc]
  · simp [hs]
  · intro e he; rw [hs] at he; cases he
  · intro e he; rw [hc] at he; cases he
  · intro h; rw [hrun] at h; cases h
  · intro h; rw [hrun] at h; cases h
  · intro h; rw [hrun] at h; cases h

/-- The registered handles of a task of a running scheduler. -/
theorem Inv.registered {ts : TaskScheduler} (h : Inv ts) (hrun : ts.running = true)
    (name : String) (hname : name ∈ taskNames) :
    ∃ c t, (name, c) ∈ ts.stopChans ∧ (name, t) ∈ ts.collectors := by
  obtain ⟨c, hc⟩ := (mem_mapKeys _ _).1 ((h.runKeysS hrun name).2 hname)
  obtain ⟨t, ht⟩ := (mem_mapKeys _ _).1 ((h.runKeysC hrun name).2 hname)
  exact ⟨c, t, hc, ht⟩

theorem inv_restart_state (ts : TaskScheduler) (name : String) (c t : Nat)
    (h : Inv ts) (hrun : ts.running = true) (hname : name ∈ taskNames)
    (hmc : (name, c) ∈ ts.stopChans) (hmt : (name, t) ∈ ts.collectors) :
    Inv { ts with
        tickers := ts.tickers.set t { period := taskInterval ts.config name, stopped := true } ++
          [{ period := taskInterval ts.config name, stopped := false }]
        chans := ts.chans.set c true ++ [false]
        collectors := mapSet ts.collectors name ts.tickers.length
        stopChans := mapSet ts.stopChans name ts.chans.length } := by
  refine ⟨Reg.reregister name c t _ h.reg hmc hmt rfl rfl rfl rfl rfl, ?_, ?_, ?_, ?_⟩
  · intro hf
    simp only at hf
    rw [hrun] at hf; cases hf
  · intro _ n
    simp only [mem_mapKeys_mapSet]
    rw [h.runKeysC hrun n]
    constructor
    · rintro (h1 | h1)
      · exact h1
      · rw [h1]; exact hname
    · exact Or.inl
  · intro _ n
    simp only [mem_mapKeys_mapSet]
    rw [h.runKeysS hrun n]
    constructor
    · rintro (h1 | h1)
      · exact h1
      · rw [h1]; exact hname
    · exact Or.inl
  · intro _; exact h.runPeriod hrun

/-- Every reachable state satisfies the invariant. -/
theorem inv_of_reachable {ts : TaskScheduler} (h : Reachable ts) : Inv ts := by
  induction h with
  | new cfg => exact inv_of_empty _ rfl rfl rfl
  | @start ts ts1 err _ hs ih =>
    cases hrun : ts.running with
    | true =>
      simp [Start, hrun] at hs
      rw [← hs.2]; exact ih
    | false =>
      obtain ⟨hc, hsc⟩ := ih.stopped hrun
      rcases le_or_lt (dataCollectionInterval ts.config) 0 with hp | hp
      · rw [start_fault ts hrun hp] at hs; cases hs
      · rw [start_of_empty ts hrun hc hsc hp] at hs
        simp only [Except.ok.injEq, Prod.mk.injEq] at hs
        rw [← hs.2]
        exact inv_start_state ts hp
  | @stop ts ts1 _ hs ih =>
    obtain ⟨ts2, h2, _, hrun, hc, hsc, _⟩ := stop_of_inv ts ih
    rw [h2] at hs
    simp only [Except.ok.injEq] at hs
    rw [← hs]
    exact inv_of_empty _ hrun hc hsc
  | @restart ts ts1 err name _ hs ih =>
    cases hrun : ts.running with
    | false =>
      simp [RestartTask, hrun] at hs
      rw [← hs.2]; exact ih
    | true =>
      by_cases hname : name ∈ taskNames
      · obtain ⟨c, t, hmc, hmt⟩ := ih.registered hrun name hname
        rw [restart_registered ts name c t ih.reg hrun hname (ih.runPeriod hrun) hmc hmt] at hs
        simp only [Except.ok.injEq, Prod.mk.injEq] at hs
        rw [← hs.2]
        exact inv_restart_state ts name c t ih hrun hname hmc hmt
      · have hc : name ∉ mapKeys ts.collectors := fun hk => hname ((ih.runKeysC hrun name).1 hk)
        have hsc : name ∉ mapKeys ts.stopChans := fun hk => hname ((ih.runKeysS hrun name).1 hk)
        rw [restart_unregistered ts name hrun hname hc hsc] at hs
        simp only [Except.ok.injEq, Prod.mk.injEq] at hs
        rw [← hs.2]; exact ih

theorem statusFold_keys (l : List (String × Nat)) (n : String) :
    ∀ acc : List (String × String),
      n ∈ mapKeys (l.foldl (fun status e => mapSet status e.1 "running") acc) ↔
        n ∈ mapKeys acc ∨ n ∈ mapKeys l := by
  induction l with
  | nil => intro acc; simp [mapKeys]
  | cons x rest ih =>
    intro acc
    rw [List.foldl_cons, ih, mem_mapKeys_mapSet]
    simp only [mapKeys, List.map_cons, List.mem_cons]
    tauto

theorem statusFold_vals (l : List (String × Nat)) :
    ∀ acc : List (String × String), (∀ e ∈ acc, e.2 = "running") →
      ∀ e ∈ l.foldl (fun status e => mapSet status e.1 "running") acc, e.2 = "running" := by
  induction l with
  | nil => intro acc h e he; exact h e he
  | cons x rest ih =>
    intro acc h
    rw [List.foldl_cons]
    apply ih
    intro e he
    rw [mem_mapSet] at he
    rcases he with ⟨he, _⟩ | he
    · exact h e he
    · rw [he]

theorem stop_stop (s : TaskScheduler) : (Stop s >>= Stop) = Stop s := by
  cases hrun : s.running with
  | false =>
    have : Stop s = .ok s := by simp [Stop, hrun]
    rw [this]
    show Stop s = Except.ok s
    exact this
  | true =>
    cases hl : stopLoop s.stopChans s with
    | error e =>
      have : Stop s = .error e := by simp [Stop, hrun, hl]
      rw [this]; rfl
    | ok ts1 =>
      have : Stop s = .ok { ts1 with running := false } := by simp [Stop, hrun, hl]
      rw [this]
      show Stop { ts1 with running := false } = _
      simp [Stop]

/-- C1: while the scheduler is running, `Start` returns the "already running" error and
leaves the whole state (running flag, ticker map, stop-channel map) as it was; hence on a
fresh scheduler whose first `Start` returns, the second `Start` is rejected and exactly
the three tasks stay registered, once each. -/
theorem start_while_running_rejected (ts : TaskScheduler) (cfg : MonitoringConfig)
    (hrun : ts.running = true) (hcfg : 0 < dataCollectionInterval cfg) :
    Start ts = .ok (some "scheduler is already running", ts) ∧
    (∃ ts1, Start (NewTaskScheduler cfg) = .ok (none, ts1) ∧
      Start ts1 = .ok (some "scheduler is already running", ts1) ∧
      mapKeys ts1.collectors = taskNames ∧ mapKeys ts1.stopChans = taskNames) ∧
    (∀ (cfg1 : MonitoringConfig) (e1 : Option String) (ts1 : TaskScheduler),
      Start (NewTaskScheduler cfg1) = .ok (e1, ts1) →
        e1 = none ∧ Start ts1 = .ok (some "scheduler is already running", ts1) ∧
        mapKeys ts1.collectors = taskNames ∧ mapKeys ts1.stopChans = taskNames) := by
  refine ⟨by simp [Start, hrun], ?_, ?_⟩
  · refine ⟨_, start_of_empty (NewTaskScheduler cfg) rfl rfl rfl hcfg, ?_, rfl, rfl⟩
    simp [Start]
  · intro cfg1 e1 ts1 h1
    rcases le_or_lt (dataCollectionInterval cfg1) 0 with hp | hp
    · rw [start_fault (NewTaskScheduler cfg1) rfl hp] at h1; cases h1
    · rw [start_of_empty (NewTaskScheduler cfg1) rfl rfl rfl hp] at h1
      simp only [Except.ok.injEq, Prod.mk.injEq] at h1
      obtain ⟨h1, h2⟩ := h1
      subst h2
      exact ⟨h1.symm, by simp [Start], rfl, rfl⟩

theorem start_while_running_rejected_witness :
    (∃ ts1, Start (NewTaskScheduler ⟨5, 30⟩) = .ok (none, ts1) ∧
      Start ts1 = .ok (some "scheduler is already running", ts1) ∧
      mapKeys ts1.collectors = taskNames ∧ mapKeys ts1.stopChans = taskNames) :=
  (start_while_running_rejected
    { config := ⟨5, 30⟩, collectors := [], stopChans := [], running := true,
      tickers := [], chans := [] } ⟨5, 30⟩ rfl (by decide)).2.1

/-- C2: `Stop` is idempotent on every state, changes nothing on a stopped scheduler, and
on every reachable state returns a state with `running = false` and both maps empty, so
that `IsRunning` is false and `GetTaskStatus` is the empty map. -/
theorem stop_idempotent (ts : TaskScheduler) (h : Reachable ts) :
    (∀ s : TaskScheduler, (Stop s >>= Stop) = Stop s) ∧
    (∀ s : TaskScheduler, s.running = false → Stop s = .ok s) ∧
    ∃ ts1, Stop ts = .ok ts1 ∧ Stop ts1 = .ok ts1 ∧
      ts1.running = false ∧ ts1.collectors = [] ∧ ts1.stopChans = [] ∧
      IsRunning ts1 = false ∧ GetTaskStatus ts1 = [] := by
  refine ⟨stop_stop, fun s hs => by simp [Stop, hs], ?_⟩
  obtain ⟨ts1, h1, _, hrun, hc, hs, _⟩ := stop_of_inv ts (inv_of_reachable h)
  exact ⟨ts1, h1, by simp [Stop, hrun], hrun, hc, hs, hrun, by simp [GetTaskStatus, hc]⟩

theorem runningExample_reachable : Reachable runningExample :=
  Reachable.start (Reachable.new { CollectInterval := 5, RetentionDays := 30 })
    (by decide : Start (NewTaskScheduler { CollectInterval := 5, RetentionDays := 30 }) =
      .ok (none, runningExample))

theorem stop_idempotent_witness :
    ∃ ts1, Stop runningExample = .ok ts1 ∧ Stop ts1 = .ok ts1 ∧
      ts1.running = false ∧ ts1.collectors = [] ∧ ts1.stopChans = [] ∧
      IsRunning ts1 = false ∧ GetTaskStatus ts1 = [] :=
  (stop_idempotent runningExample runningExample_reachable).2.2

/-- C3 (as stated, refuted): a stopped scheduler whose configured collection interval is
zero does not return from `Start` without error; the call faults in `time.NewTicker` and
registers nothing. -/
theorem start_stopped_zero_interval_faults :
    (NewTaskScheduler { CollectInterval := 0, RetentionDays := 30 }).running = false ∧
    Start (NewTaskScheduler { CollectInterval := 0, RetentionDays := 30 }) =
      .error "non-positive interval for NewTicker" ∧
    ¬ ∃ ts1, Start (NewTaskScheduler { CollectInterval := 0, RetentionDays := 30 }) =
      .ok (none, ts1) := by
  refine ⟨rfl, by decide, ?_⟩
  rintro ⟨ts1, h⟩
  have : Start (NewTaskScheduler { CollectInterval := 0, RetentionDays := 30 }) =
      .error "non-positive interval for NewTicker" := by decide
  rw [this] at h
  cases h

/-- C3 (amended): on a stopped scheduler whose collection interval is a positive duration,
`Start` returns no error, sets `running`, and registers exactly `data_collection`,
`alert_checker` and `data_cleanup`; `GetTaskStatus` then maps exactly these three names to
"running"; and in every state `GetTaskStatus` has the keys of the ticker map and no other,
each with the value "running". -/
theorem start_stopped_registers_three (ts : TaskScheduler) (h : Reachable ts)
    (hrun : ts.running = false) (hpos : 0 < dataCollectionInterval ts.config) :
    (∃ ts1, Start ts = .ok (none, ts1) ∧ ts1.running = true ∧
      mapKeys ts1.collectors = taskNames ∧ mapKeys ts1.stopChans = taskNames ∧
      GetTaskStatus ts1 = [("data_collection", "running"), ("alert_checker", "running"),
        ("data_cleanup", "running")]) ∧
    (∀ (s : TaskScheduler) (n : String),
      n ∈ mapKeys (GetTaskStatus s) ↔ n ∈ mapKeys s.collectors) ∧
    (∀ (s : TaskScheduler) (e : String × String), e ∈ GetTaskStatus s → e.2 = "running") := by
  obtain ⟨hc, hs⟩ := (inv_of_reachable h).stopped hrun
  refine ⟨⟨_, start_of_empty ts hrun hc hs hpos, rfl, rfl, rfl, ?_⟩, ?_, ?_⟩
  · simp [GetTaskStatus, mapSet, mapDelete]
  · intro s n
    rw [GetTaskStatus, statusFold_keys]
    simp [mapKeys]
  · intro s e he
    exact statusFold_vals s.collectors [] (fun _ h => by cases h) e he

theorem start_stopped_registers_three_witness :
    ∃ ts1, Start (NewTaskScheduler { CollectInterval := 5, RetentionDays := 30 }) =
        .ok (none, ts1) ∧ ts1.running = true ∧
      mapKeys ts1.collectors = taskNames ∧ mapKeys ts1.stopChans = taskNames ∧
      GetTaskStatus ts1 = [("data_collection", "running"), ("alert_checker", "running"),
        ("data_cleanup", "running")] :=
  (start_stopped_registers_three (NewTaskScheduler { CollectInterval := 5, RetentionDays := 30 })
    (Reachable.new _) rfl (by decide)).1

/-- C4: `RestartTask` returns the "not running" error for every name while the scheduler is
stopped, and the "unknown task" error while it is running and the name is none of the three
task names; in both cases the state (running flag and registry) is returned unchanged. -/
theorem restart_rejected (ts : TaskScheduler) (name : String) (h : Reachable ts) :
    (ts.running = false →
      RestartTask ts name = .ok (some "scheduler is not running", ts)) ∧
    (ts.running = true → name ∉ taskNames →
      RestartTask ts name = .ok (some ("unknown task: " ++ name), ts)) := by
  have hi := inv_of_reachable h
  refine ⟨fun hrun => by simp [RestartTask, hrun], fun hrun hname => ?_⟩
  exact restart_unregistered ts name hrun hname
    (fun hk => hname ((hi.runKeysC hrun name).1 hk))
    (fun hk => hname ((hi.runKeysS hrun name).1 hk))

theorem restart_rejected_witness :
    RestartTask runningExample "metrics" = .ok (some "unknown task: metrics", runningExample) :=
  (restart_rejected runningExample "metrics" runningExample_reachable).2 rfl (by decide)

/-- C5: on a running scheduler, `RestartTask` of one of the three tasks returns no error,
closes the channel that was registered for it, registers under the same name a channel and a
ticker that did not exist before, the channel open and the ticker live with the period of
the old ticker, and leaves the channel and ticker handles of the other two tasks in place,
their channels open and their tickers live. -/
theorem restart_task_frame (ts : TaskScheduler) (name : String) (h : Reachable ts)
    (hrun : ts.running = true) (hname : name ∈ taskNames) :
    ∃ (ts1 : TaskScheduler) (c t c1 t1 : Nat) (p : Int),
      RestartTask ts name = .ok (none, ts1) ∧ ts1.running = true ∧
      mapGet ts.stopChans name = some c ∧ ts.chans[c]? = some false ∧
      ts1.chans[c]? = some true ∧
      mapGet ts1.stopChans name = some c1 ∧ ts.chans[c1]? = none ∧
      ts1.chans[c1]? = some false ∧
      mapGet ts.collectors name = some t ∧
      ts.tickers[t]? = some { period := p, stopped := false } ∧
      mapGet ts1.collectors name = some t1 ∧ ts.tickers[t1]? = none ∧
      ts1.tickers[t1]? = some { period := p, stopped := false } ∧
      ∀ n ∈ taskNames, n ≠ name → ∃ (c2 t2 : Nat) (p2 : Int),
        mapGet ts.stopChans n = some c2 ∧ mapGet ts1.stopChans n = some c2 ∧
        ts.chans[c2]? = some false ∧ ts1.chans[c2]? = some false ∧
        mapGet ts.collectors n = some t2 ∧ mapGet ts1.collectors n = some t2 ∧
        ts.tickers[t2]? = some { period := p2, stopped := false } ∧
        ts1.tickers[t2]? = some { period := p2, stopped := false } := by
  have hi := inv_of_reachable h
  obtain ⟨c, t, hmc, hmt⟩ := hi.registered hrun name hname
  have hres := restart_registered ts name c t hi.reg hrun hname (hi.runPeriod hrun) hmc hmt
  have hi1 := inv_restart_state ts name c t hi hrun hname hmc hmt
  have hnewc : (name, ts.chans.length) ∈ mapSet ts.stopChans name ts.chans.length :=
    (mem_mapSet _ _ _ _).2 (Or.inr rfl)
  have hnewt : (name, ts.tickers.length) ∈ mapSet ts.collectors name ts.tickers.length :=
    (mem_mapSet _ _ _ _).2 (Or.inr rfl)
  refine ⟨_, c, t, ts.chans.length, ts.tickers.length, taskInterval ts.config name, hres, hrun,
    mapGet_of_mem _ _ _ hi.reg.keysS hmc, hi.reg.chanOpen _ hmc, ?_,
    mapGet_of_mem _ _ _ hi1.reg.keysS hnewc, List.getElem?_eq_none (le_refl _),
    hi1.reg.chanOpen _ hnewc,
    mapGet_of_mem _ _ _ hi.reg.keysC hmt, hi.reg.tickerLive _ hmt,
    mapGet_of_mem _ _ _ hi1.reg.keysC hnewt, List.getElem?_eq_none (le_refl _),
    hi1.reg.tickerLive _ hnewt, ?_⟩
  · have hlt := hi.reg.chan_lt _ hmc
    simp only at hlt ⊢
    rw [List.getElem?_append_left (by simpa using hlt)]
    simp [hlt]
  · intro n hn hne
    obtain ⟨c2, t2, hmc2, hmt2⟩ := hi.registered hrun n hn
    have hc2 : (n, c2) ∈ mapSet ts.stopChans name ts.chans.length :=
      (mem_mapSet _ _ _ _).2 (Or.inl ⟨hmc2, hne⟩)
    have ht2 : (n, t2) ∈ mapSet ts.collectors name ts.tickers.length :=
      (mem_mapSet _ _ _ _).2 (Or.inl ⟨hmt2, hne⟩)
    exact ⟨c2, t2, taskInterval ts.config n,
      mapGet_of_mem _ _ _ hi.reg.keysS hmc2, mapGet_of_mem _ _ _ hi1.reg.keysS hc2,
      hi.reg.chanOpen _ hmc2, hi1.reg.chanOpen _ hc2,
      mapGet_of_mem _ _ _ hi.reg.keysC hmt2, mapGet_of_mem _ _ _ hi1.reg.keysC ht2,
      hi.reg.tickerLive _ hmt2, hi1.reg.tickerLive _ ht2⟩

theorem restart_task_frame_witness :
    ∃ (ts1 : TaskScheduler) (c t c1 t1 : Nat) (p : Int),
      RestartTask runningExample "alert_checker" = .ok (none, ts1) ∧ ts1.running = true ∧
      mapGet runningExample.stopChans "alert_checker" = some c ∧
      runningExample.chans[c]? = some false ∧
      ts1.chans[c]? = some true ∧
      mapGet ts1.stopChans "alert_checker" = some c1 ∧ runningExample.chans[c1]? = none ∧
      ts1.chans[c1]? = some false ∧
      mapGet runningExample.collectors "alert_checker" = some t ∧
      runningExample.tickers[t]? = some { period := p, stopped := false } ∧
      mapGet ts1.collectors "alert_checker" = some t1 ∧ runningExample.tickers[t1]? = none ∧
      ts1.tickers[t1]? = some { period := p, stopped := false } ∧
      ∀ n ∈ taskNames, n ≠ "alert_checker" → ∃ (c2 t2 : Nat) (p2 : Int),
        mapGet runningExample.stopChans n = some c2 ∧ mapGet ts1.stopChans n = some c2 ∧
        runningExample.chans[c2]? = some false ∧ ts1.chans[c2]? = some false ∧
        mapGet runningExample.collectors n = some t2 ∧ mapGet ts1.collectors n = some t2 ∧
        runningExample.tickers[t2]? = some { period := p2, stopped := false } ∧
        ts1.tickers[t2]? = some { period := p2, stopped := false } :=
  restart_task_frame runningExample "alert_checker" runningExample_reachable rfl (by decide)

/-! ## Lemmas on the store and the alert evaluator -/

theorem nextFault_nil (w : World) (h : w.faults = []) : nextFault w = (none, w) := by
  simp [nextFault, h]

theorem latestFold_some (l : List ResourceMetric) :
    ∀ b : ResourceMetric, ∃ m, l.foldl
      (fun best m =>
        match best with
        | none => some m
        | some b =>
          if b.CollectedAt < m.CollectedAt ∨ (b.CollectedAt = m.CollectedAt ∧ m.ID < b.ID)
          then some m else some b) (some b) = some m ∧ (m = b ∨ m ∈ l) := by
  induction l with
  | nil => intro b; exact ⟨b, rfl, Or.inl rfl⟩
  | cons x rest ih =>
    intro b
    rw [List.foldl_cons]
    simp only
    split_ifs with hc
    · obtain ⟨m, hm, hmem⟩ := ih x
      refine ⟨m, hm, Or.inr ?_⟩
      rcases hmem with h | h
      · rw [h]; exact List.mem_cons_self _ _
      · exact List.mem_cons_of_mem _ h
    · obtain ⟨m, hm, hmem⟩ := ih b
      refine ⟨m, hm, ?_⟩
      rcases hmem with h | h
      · exact Or.inl h
      · exact Or.inr (List.mem_cons_of_mem _ h)

theorem latestMetric_nil : latestMetric [] = none := rfl

theorem latestMetric_cons (x : ResourceMetric) (rest : List ResourceMetric) :
    ∃ m, latestMetric (x :: rest) = some m ∧ m ∈ x :: rest := by
  obtain ⟨m, hm, hmem⟩ := latestFold_some rest x
  refine ⟨m, ?_, ?_⟩
  · simpa [latestMetric] using hm
  · rcases hmem with h | h
    · rw [h]; exact List.mem_cons_self _ _
    · exact List.mem_cons_of_mem _ h

theorem latestMetric_mem (l : List ResourceMetric) (m : ResourceMetric)
    (h : latestMetric l = some m) : m ∈ l := by
  cases l with
  | nil => cases h
  | cons x rest =>
    obtain ⟨m1, h1, hmem⟩ := latestMetric_cons x rest
    rw [h1] at h
    cases h
    exact hmem

theorem latestMetric_eq_none (l : List ResourceMetric) :
    latestMetric l = none ↔ l = [] := by
  cases l with
  | nil => simp [latestMetric_nil]
  | cons x rest =>
    obtain ⟨m1, h1, _⟩ := latestMetric_cons x rest
    simp [h1]

example (l : List Nat) (f : Nat → List Nat) : l.flatMap f = l.flatMap f := rfl

theorem dbFirstMetric_healthy (w : World) (a b c : String) (h : w.faults = []) :
    dbFirstMetric w a b c =
      (match latestMetric (matchingMetrics w a b c) with
        | some m => .ok m
        | none => .error .ErrRecordNotFound, w) := by
  unfold dbFirstMetric
  rw [nextFault_nil w h]
  simp only
  cases hl : latestMetric (matchingMetrics w a b c) <;> rfl

theorem dbCreateLog_healthy (w : World) (l : MonitoringLog) (h : w.faults = []) :
    dbCreateLog w l = (none, { w with monitoringLogs := w.monitoringLogs ++ [l] }) := by
  unfold dbCreateLog
  rw [nextFault_nil w h]

theorem World.logs_self (w : World) : { w with monitoringLogs := w.monitoringLogs } = w := by
  cases w; rfl

/-- One rule evaluated on a store whose statements all succeed. -/
theorem evaluateAlertRule_healthy (fmt : Fmt) (w : World) (rule : AlertRule)
    (h : w.faults = []) :
    (evaluateAlertRule fmt w rule).2 =
      { w with monitoringLogs := w.monitoringLogs ++ alertEntries fmt w rule } := by
  unfold evaluateAlertRule alertEntries
  rw [dbFirstMetric_healthy w _ _ _ h]
  cases latestMetric (matchingMetrics w rule.TargetType rule.TargetName rule.MetricName) with
  | none => simp [World.logs_self]
  | some m =>
    cases ht : triggered rule.Operator m.MetricValue rule.Threshold with
    | false => simp [ht, World.logs_self]
    | true =>
      simp only [sendAlertNotification, logAlertTriggered, ht, if_true]
      rw [dbCreateLog_healthy w _ h]
      simp only
      rw [dbCreateLog_healthy
        { w with monitoringLogs := w.monitoringLogs ++ [notificationLog fmt rule m w.now] } _ h]
      simp

theorem alertEntries_congr (fmt : Fmt) (w w1 : World) (rule : AlertRule)
    (hm : w1.resourceMetrics = w.resourceMetrics) (hn : w1.now = w.now) :
    alertEntries fmt w1 rule = alertEntries fmt w rule := by
  simp [alertEntries, matchingMetrics, hm, hn]

theorem checkFold_healthy (fmt : Fmt) (w : World) (rules : List AlertRule) :
    ∀ acc : World, acc.faults = [] → acc.resourceMetrics = w.resourceMetrics →
      acc.now = w.now →
      rules.foldl (fun acc rule => (evaluateAlertRule fmt acc rule).2) acc =
        { acc with monitoringLogs :=
            acc.monitoringLogs ++ rules.flatMap (alertEntries fmt w) } := by
  induction rules with
  | nil => intro acc _ _ _; simp
  | cons r rest ih =>
    intro acc hf hm hn
    rw [List.foldl_cons, evaluateAlertRule_healthy fmt acc r hf,
      alertEntries_congr fmt w acc r hm hn]
    have := ih { acc with monitoringLogs := acc.monitoringLogs ++ alertEntries fmt w r } hf hm hn
    simp only at this
    rw [this]
    simp [List.flatMap_cons, List.append_assoc]

/-- One call of `checkAlerts` on a store whose statements all succeed. -/
theorem checkAlerts_healthy (fmt : Fmt) (w : World) (h : w.faults = []) :
    checkAlerts fmt w = (none,
      { w with monitoringLogs := w.monitoringLogs ++
          (w.alertRules.filter (fun r => r.Enabled)).flatMap (alertEntries fmt w) }) := by
  simp [checkAlerts, dbFindEnabledRules, nextFault, h, checkFold_healthy fmt w _ w h rfl rfl]

theorem nextFault_rules (w : World) (rules : List AlertRule) :
    nextFault { w with alertRules := rules } =
      ((nextFault w).1, { (nextFault w).2 with alertRules := rules }) := by
  obtain ⟨a, b, c, f, n, sh, iss⟩ := w
  cases f <;> rfl

theorem dbCreateLog_rules (w : World) (rules : List AlertRule) (l : MonitoringLog) :
    dbCreateLog { w with alertRules := rules } l =
      ((dbCreateLog w l).1, { (dbCreateLog w l).2 with alertRules := rules }) := by
  unfold dbCreateLog
  rw [nextFault_rules]
  rcases hn : nextFault w with ⟨_ | msg, w1⟩ <;> rfl

theorem dbFirstMetric_rules (w : World) (rules : List AlertRule) (a b c : String) :
    dbFirstMetric { w with alertRules := rules } a b c =
      ((dbFirstMetric w a b c).1, { (dbFirstMetric w a b c).2 with alertRules := rules }) := by
  unfold dbFirstMetric
  rw [nextFault_rules]
  rcases hn : nextFault w with ⟨_ | msg, w1⟩
  · simp only
    have : matchingMetrics { w1 with alertRules := rules } a b c = matchingMetrics w1 a b c := rfl
    rw [this]
    cases latestMetric (matchingMetrics w1 a b c) <;> rfl
  · rfl

theorem nextFault_now (w : World) : (nextFault w).2.now = w.now := by
  obtain ⟨a, b, c, f, n, sh, iss⟩ := w
  cases f <;> rfl

theorem dbCreateLog_now (w : World) (l : MonitoringLog) : (dbCreateLog w l).2.now = w.now := by
  unfold dbCreateLog
  have := nextFault_now w
  rcases hn : nextFault w with ⟨_ | msg, w1⟩ <;> simp_all

/-- The rule table is not read by the evaluation of a rule. -/
theorem evaluateAlertRule_rules (fmt : Fmt) (w : World) (rules : List AlertRule)
    (rule : AlertRule) :
    evaluateAlertRule fmt { w with alertRules := rules } rule =
      ((evaluateAlertRule fmt w rule).1,
       { (evaluateAlertRule fmt w rule).2 with alertRules := rules }) := by
  unfold evaluateAlertRule
  rw [dbFirstMetric_rules]
  rcases hq : dbFirstMetric w rule.TargetType rule.TargetName rule.MetricName with
    ⟨(_ | msg) | m, w1⟩
  · rfl
  · rfl
  · simp only
    split_ifs
    · simp only [sendAlertNotification, logAlertTriggered, dbCreateLog_rules]
    · rfl

theorem checkFold_rules (fmt : Fmt) (rules : List AlertRule) (l : List AlertRule) :
    ∀ acc : World,
      l.foldl (fun acc rule => (evaluateAlertRule fmt acc rule).2) { acc with alertRules := rules } =
        { l.foldl (fun acc rule => (evaluateAlertRule fmt acc rule).2) acc with
          alertRules := rules } := by
  induction l with
  | nil => intro acc; rfl
  | cons r rest ih =>
    intro acc
    rw [List.foldl_cons, List.foldl_cons, evaluateAlertRule_rules]
    exact ih _

theorem nextFault_frame (w : World) :
    (nextFault w).2.alertRules = w.alertRules ∧
    (nextFault w).2.resourceMetrics = w.resourceMetrics ∧
    (nextFault w).2.monitoringLogs = w.monitoringLogs := by
  obtain ⟨a, b, c, f, n, sh, iss⟩ := w
  cases f <;> exact ⟨rfl, rfl, rfl⟩

theorem dbCreateLog_logs (w : World) (l : MonitoringLog) :
    (dbCreateLog w l).2.monitoringLogs = w.monitoringLogs ∨
    (dbCreateLog w l).2.monitoringLogs = w.monitoringLogs ++ [l] := by
  unfold dbCreateLog
  have := (nextFault_frame w).2.2
  rcases hn : nextFault w with ⟨_ | msg, w1⟩
  · right; simp_all
  · left; simp_all

theorem dbCreateLog_metrics (w : World) (l : MonitoringLog) :
    (dbCreateLog w l).2.resourceMetrics = w.resourceMetrics := by
  unfold dbCreateLog
  have := (nextFault_frame w).2.1
  rcases hn : nextFault w with ⟨_ | msg, w1⟩ <;> simp_all

theorem dbFirstMetric_frame (w : World) (a b c : String) :
    (dbFirstMetric w a b c).2.resourceMetrics = w.resourceMetrics ∧
    (dbFirstMetric w a b c).2.monitoringLogs = w.monitoringLogs ∧
    (dbFirstMetric w a b c).2.now = w.now := by
  unfold dbFirstMetric
  have h1 := nextFault_frame w
  have h2 := nextFault_now w
  rcases hn : nextFault w with ⟨_ | msg, w1⟩
  · simp only
    rw [hn] at h1 h2
    cases latestMetric (matchingMetrics w1 a b c) <;> exact ⟨h1.2.1, h1.2.2, h2⟩
  · rw [hn] at h1 h2
    exact ⟨h1.2.1, h1.2.2, h2⟩

theorem mem_matchingMetrics (w : World) (a b c : String) (m : ResourceMetric) :
    m ∈ matchingMetrics w a b c ↔
      m ∈ w.resourceMetrics ∧ m.DatabaseType = a ∧ m.DatabaseName = b ∧ m.MetricName = c := by
  simp [matchingMetrics, and_assoc]

theorem dbFirstMetric_ok (w : World) (a b c : String) (m : ResourceMetric)
    (h : (dbFirstMetric w a b c).1 = .ok m) :
    m ∈ w.resourceMetrics ∧ m.DatabaseType = a ∧ m.DatabaseName = b ∧ m.MetricName = c := by
  unfold dbFirstMetric at h
  have h1 := nextFault_frame w
  rcases hn : nextFault w with ⟨_ | msg, w1⟩
  · rw [hn] at h h1
    simp only at h h1
    cases hl : latestMetric (matchingMetrics w1 a b c) with
    | none => rw [hl] at h; cases h
    | some m1 =>
      rw [hl] at h
      simp only [Except.ok.injEq] at h
      subst h
      have := (mem_matchingMetrics w1 a b c m1).1 (latestMetric_mem _ _ hl)
      rw [h1.2.1] at this
      exact this
  · rw [hn] at h; cases h

/-- The log entries one evaluation writes, whatever statements fail. -/
theorem evaluateAlertRule_entries (fmt : Fmt) (w : World) (rule : AlertRule) :
    ∃ new, (evaluateAlertRule fmt w rule).2.monitoringLogs = w.monitoringLogs ++ new ∧
      ∀ l ∈ new, ∃ metric,
        (dbFirstMetric w rule.TargetType rule.TargetName rule.MetricName).1 = .ok metric ∧
        triggered rule.Operator metric.MetricValue rule.Threshold = true ∧
        (l = notificationLog fmt rule metric w.now ∨ l = triggeredLog fmt rule metric w.now) := by
  unfold evaluateAlertRule
  have hfr := dbFirstMetric_frame w rule.TargetType rule.TargetName rule.MetricName
  rcases hq : dbFirstMetric w rule.TargetType rule.TargetName rule.MetricName with
    ⟨(_ | msg) | m, w1⟩
  · rw [hq] at hfr
    have h2 : w1.monitoringLogs = w.monitoringLogs := hfr.2.1
    exact ⟨[], by simp [h2], fun l hl => by cases hl⟩
  · rw [hq] at hfr
    have h2 : w1.monitoringLogs = w.monitoringLogs := hfr.2.1
    exact ⟨[], by simp [h2], fun l hl => by cases hl⟩
  · rw [hq] at hfr
    simp only at hfr ⊢
    split_ifs with ht
    · simp only [sendAlertNotification, logAlertTriggered]
      have hnow := dbCreateLog_now w1 (notificationLog fmt rule m w1.now)
      rw [hnow, hfr.2.2]
      rcases dbCreateLog_logs w1 (notificationLog fmt rule m w.now) with h1 | h1 <;>
      rcases dbCreateLog_logs (dbCreateLog w1 (notificationLog fmt rule m w.now)).2
        (triggeredLog fmt rule m w.now) with h2 | h2
      · refine ⟨[], ?_, fun l hl => by cases hl⟩
        rw [hfr.2.2] at *
        rw [h2, h1, hfr.2.1]; simp
      · refine ⟨[triggeredLog fmt rule m w.now], ?_, ?_⟩
        · rw [hfr.2.2] at *
          rw [h2, h1, hfr.2.1]
        · intro l hl
          simp only [List.mem_singleton] at hl
          exact ⟨m, rfl, ht, Or.inr hl⟩
      · refine ⟨[notificationLog fmt rule m w.now], ?_, ?_⟩
        · rw [hfr.2.2] at *
          rw [h2, h1, hfr.2.1]
        · intro l hl
          simp only [List.mem_singleton] at hl
          exact ⟨m, rfl, ht, Or.inl hl⟩
      · refine ⟨[notificationLog fmt rule m w.now, triggeredLog fmt rule m w.now], ?_, ?_⟩
        · rw [hfr.2.2] at *
          rw [h2, h1, hfr.2.1]; simp
        · intro l hl
          simp only [List.mem_cons, List.mem_singleton, List.not_mem_nil, or_false] at hl
          exact ⟨m, rfl, ht, hl⟩
    · exact ⟨[], by simp [hfr.2.1], fun l hl => by cases hl⟩

theorem triggered_eq_spec (operator : String) (value threshold : Float64) :
    triggered operator value threshold = specTriggered operator value threshold := by
  unfold specTriggered
  split
  · simp [triggered]
  · simp [triggered]
  · simp [triggered]
  · simp [triggered]
  · simp [triggered]
  · simp_all [triggered]

theorem evaluateAlertRule_found (fmt : Fmt) (w w1 : World) (rule : AlertRule)
    (metric : ResourceMetric)
    (h : dbFirstMetric w rule.TargetType rule.TargetName rule.MetricName = (.ok metric, w1)) :
    evaluateAlertRule fmt w rule =
      (none,
        if triggered rule.Operator metric.MetricValue rule.Threshold then
          logAlertTriggered fmt (sendAlertNotification fmt w1 rule metric).2 rule metric
        else w1) := by
  unfold evaluateAlertRule
  rw [h]
  simp only
  split_ifs <;> rfl

/-- C6: the trigger decision taken by `evaluateAlertRule` is the decision table of the
specification: `>`, `>=`, `<`, `<=` and `=` compare the sample value with the threshold,
every other operator string gives `false`; with such an operator an evaluation that found
a sample returns no error and leaves the log table as it was.  On finite values the five
comparisons are those of the rational numbers, so `(">", 81, 80)` triggers, `(">", 80, 80)`
does not and `(">=", 80, 80)` triggers. -/
theorem trigger_decision_table (operator : String) (value threshold : Float64) :
    triggered operator value threshold = specTriggered operator value threshold ∧
    (operator = ">" → triggered operator value threshold = value.gt threshold) ∧
    (operator = ">=" → triggered operator value threshold = value.ge threshold) ∧
    (operator = "<" → triggered operator value threshold = value.lt threshold) ∧
    (operator = "<=" → triggered operator value threshold = value.le threshold) ∧
    (operator = "=" → triggered operator value threshold = value.eq threshold) ∧
    (operator ∉ [">", ">=", "<", "<=", "="] → triggered operator value threshold = false) ∧
    (∀ (fmt : Fmt) (w w1 : World) (rule : AlertRule) (metric : ResourceMetric),
      dbFirstMetric w rule.TargetType rule.TargetName rule.MetricName = (.ok metric, w1) →
        evaluateAlertRule fmt w rule =
          (none,
            if specTriggered rule.Operator metric.MetricValue rule.Threshold then
              logAlertTriggered fmt (sendAlertNotification fmt w1 rule metric).2 rule metric
            else w1) ∧
        (rule.Operator ∉ [">", ">=", "<", "<=", "="] →
          (evaluateAlertRule fmt w rule).1 = none ∧
          (evaluateAlertRule fmt w rule).2.monitoringLogs = w.monitoringLogs)) ∧
    (∀ a b : ℚ,
      (triggered ">" (.fin a) (.fin b) = true ↔ a > b) ∧
      (triggered ">=" (.fin a) (.fin b) = true ↔ a ≥ b) ∧
      (triggered "<" (.fin a) (.fin b) = true ↔ a < b) ∧
      (triggered "<=" (.fin a) (.fin b) = true ↔ a ≤ b) ∧
      (triggered "=" (.fin a) (.fin b) = true ↔ a = b)) ∧
    triggered ">" (.fin 81) (.fin 80) = true ∧
    triggered ">" (.fin 80) (.fin 80) = false ∧
    triggered ">=" (.fin 80) (.fin 80) = true := by
  refine ⟨triggered_eq_spec _ _ _, ?_, ?_, ?_, ?_, ?_, ?_, ?_, ?_, by decide, by decide,
    by decide⟩
  · intro h; subst h; simp [triggered]
  · intro h; subst h; simp [triggered]
  · intro h; subst h; simp [triggered]
  · intro h; subst h; simp [triggered]
  · intro h; subst h; simp [triggered]
  · intro h
    simp only [List.mem_cons, List.mem_singleton, List.not_mem_nil, or_false, not_or] at h
    simp [triggered, h.1, h.2.1, h.2.2.1, h.2.2.2.1, h.2.2.2.2]
  · intro fmt w w1 rule metric hq
    have he := evaluateAlertRule_found fmt w w1 rule metric hq
    refine ⟨by rw [← triggered_eq_spec]; exact he, fun h => ?_⟩
    simp only [List.mem_cons, List.mem_singleton, List.not_mem_nil, or_false, not_or] at h
    have ht : triggered rule.Operator metric.MetricValue rule.Threshold = false := by
      simp [triggered, h.1, h.2.1, h.2.2.1, h.2.2.2.1, h.2.2.2.2]
    have hfr := dbFirstMetric_frame w rule.TargetType rule.TargetName rule.MetricName
    rw [hq] at hfr
    rw [he, ht]
    exact ⟨rfl, hfr.2.1⟩
  · intro a b
    refine ⟨?_, ?_, ?_, ?_, ?_⟩
    · simp [triggered, Float64.gt, Float64.lt]
    · simp only [triggered, Float64.ge, Float64.le, Float64.lt, Float64.eq]
      simp
      rw [le_iff_lt_or_eq]
    · simp [triggered, Float64.lt]
    · simp only [triggered, Float64.le, Float64.lt, Float64.eq]
      simp
      rw [le_iff_lt_or_eq]
    · simp [triggered, Float64.eq]

theorem trigger_decision_table_witness :
    triggered "!=" (.fin 81) (.fin 80) = false :=
  (trigger_decision_table "!=" (.fin 81) (.fin 80)).2.2.2.2.2.2.1 (by decide)

/-- C7 (as stated, refuted): for the enabled rule `active_connections > 4` and the latest
matching sample of value 5, one evaluation tick on a store whose statements all succeed
adds two log entries, not one. -/
theorem tick_adds_two_entries_not_one :
    exampleRule ∈ exampleWorld.alertRules ∧ exampleRule.Enabled = true ∧
    latestMetric (matchingMetrics exampleWorld exampleRule.TargetType exampleRule.TargetName
      exampleRule.MetricName) = some exampleMetric ∧
    triggered exampleRule.Operator exampleMetric.MetricValue exampleRule.Threshold = true ∧
    exampleWorld.monitoringLogs = [] ∧
    (checkAlerts plainFmt exampleWorld).2.monitoringLogs.length = 2 ∧
    (alertCheckerTick plainFmt exampleWorld).monitoringLogs.length = 2 ∧
    ¬ ∃ l, (checkAlerts plainFmt exampleWorld).2.monitoringLogs =
      exampleWorld.monitoringLogs ++ [l] := by
  refine ⟨by decide, by decide, by decide, by decide, by decide, by decide, by decide, ?_⟩
  rintro ⟨l, hl⟩
  have h2 : (checkAlerts plainFmt exampleWorld).2.monitoringLogs.length = 2 := by decide
  rw [hl] at h2
  simp [exampleWorld] at h2

/-- C7 (amended): on a store whose statements all succeed, one evaluation tick returns no
error and appends, for every enabled rule in turn, the entries of that rule; a rule whose
latest matching sample satisfies its comparison contributes exactly two entries, the one of
`sendAlertNotification` followed by the one of `logAlertTriggered`, both of level
"warning" and source "alert_system". -/
theorem tick_adds_two_entries (fmt : Fmt) (w : World) (rule : AlertRule)
    (metric : ResourceMetric) (hf : w.faults = [])
    (hlatest : latestMetric (matchingMetrics w rule.TargetType rule.TargetName
      rule.MetricName) = some metric)
    (htrig : triggered rule.Operator metric.MetricValue rule.Threshold = true) :
    checkAlerts fmt w = (none,
      { w with monitoringLogs := w.monitoringLogs ++
          (w.alertRules.filter (fun r => r.Enabled)).flatMap (alertEntries fmt w) }) ∧
    alertCheckerTick fmt w =
      { w with monitoringLogs := w.monitoringLogs ++
          (w.alertRules.filter (fun r => r.Enabled)).flatMap (alertEntries fmt w) } ∧
    alertEntries fmt w rule =
      [notificationLog fmt rule metric w.now, triggeredLog fmt rule metric w.now] ∧
    (evaluateAlertRule fmt w rule).2.monitoringLogs =
      w.monitoringLogs ++
        [notificationLog fmt rule metric w.now, triggeredLog fmt rule metric w.now] ∧
    (notificationLog fmt rule metric w.now).LogLevel = "warning" ∧
    (notificationLog fmt rule metric w.now).Source = "alert_system" ∧
    (triggeredLog fmt rule metric w.now).LogLevel = "warning" ∧
    (triggeredLog fmt rule metric w.now).Source = "alert_system" := by
  have hc := checkAlerts_healthy fmt w hf
  have he : alertEntries fmt w rule =
      [notificationLog fmt rule metric w.now, triggeredLog fmt rule metric w.now] := by
    simp [alertEntries, hlatest, htrig]
  refine ⟨hc, ?_, he, ?_, rfl, rfl, rfl, rfl⟩
  · simp [alertCheckerTick, hc]
  · rw [evaluateAlertRule_healthy fmt w rule hf, he]

theorem tick_adds_two_entries_witness :
    (evaluateAlertRule plainFmt exampleWorld exampleRule).2.monitoringLogs =
      exampleWorld.monitoringLogs ++
        [notificationLog plainFmt exampleRule exampleMetric exampleWorld.now,
         triggeredLog plainFmt exampleRule exampleMetric exampleWorld.now] :=
  (tick_adds_two_entries plainFmt exampleWorld exampleRule exampleMetric rfl
    (by decide) (by decide)).2.2.2.1

/-- C8 (as stated, refuted): of the two entries written when the example rule triggers, the
first has an empty component instead of `postgresql_light_admin` and its details payload
is without metric name, threshold and operator; the second has a message that names the
rule only. -/
theorem triggered_entries_differ_from_claim :
    (checkAlerts plainFmt exampleWorld).2.monitoringLogs =
      [notificationLog plainFmt exampleRule exampleMetric 1060,
       triggeredLog plainFmt exampleRule exampleMetric 1060] ∧
    (notificationLog plainFmt exampleRule exampleMetric 1060).Component = "" ∧
    (notificationLog plainFmt exampleRule exampleMetric 1060).Component ≠
      exampleRule.TargetType ++ "_" ++ exampleRule.TargetName ∧
    (notificationLog plainFmt exampleRule exampleMetric 1060).Details =
      "\x7b\"rule_id\": \"0b6f1c1e-5d0a-4a8e-9f43-2a1c7d9e0001\", \"severity\": \"warning\", \"metric_value\": 5\x7d" ∧
    (triggeredLog plainFmt exampleRule exampleMetric 1060).Message =
      "Alert rule 'connections' triggered" := by
  refine ⟨by decide, by decide, by decide, by decide, by decide⟩

/-- C8 (amended): every entry written by the evaluation of a rule is the record of
`sendAlertNotification` or the record of `logAlertTriggered` for a sample that triggers
the rule.  Both have level "warning" and source "alert_system".  The first has an empty
component, a message containing rule name, metric name, operator, threshold and actual
value, and details containing rule id, severity and actual value.  The second has the
component `target_type_target_name`, a message containing the rule name, and details
containing rule id, metric name, threshold, actual value, operator and severity. -/
theorem triggered_entries_shape (fmt : Fmt) (w : World) (rule : AlertRule) :
    (∃ new, (evaluateAlertRule fmt w rule).2.monitoringLogs = w.monitoringLogs ++ new ∧
      ∀ l ∈ new, ∃ metric,
        (dbFirstMetric w rule.TargetType rule.TargetName rule.MetricName).1 = .ok metric ∧
        triggered rule.Operator metric.MetricValue rule.Threshold = true ∧
        (l = notificationLog fmt rule metric w.now ∨ l = triggeredLog fmt rule metric w.now)) ∧
    (∀ (metric : ResourceMetric) (now : Int),
      (notificationLog fmt rule metric now).LogLevel = "warning" ∧
      (notificationLog fmt rule metric now).Source = "alert_system" ∧
      (notificationLog fmt rule metric now).Component = "" ∧
      Contains (notificationLog fmt rule metric now).Message rule.Name ∧
      Contains (notificationLog fmt rule metric now).Message rule.MetricName ∧
      Contains (notificationLog fmt rule metric now).Message rule.Operator ∧
      Contains (notificationLog fmt rule metric now).Message (fmt.float rule.Threshold) ∧
      Contains (notificationLog fmt rule metric now).Message (fmt.float metric.MetricValue) ∧
      Contains (notificationLog fmt rule metric now).Details rule.ID ∧
      Contains (notificationLog fmt rule metric now).Details rule.Severity ∧
      Contains (notificationLog fmt rule metric now).Details (fmt.float metric.MetricValue)) ∧
    (∀ (metric : ResourceMetric) (now : Int),
      (triggeredLog fmt rule metric now).LogLevel = "warning" ∧
      (triggeredLog fmt rule metric now).Source = "alert_system" ∧
      (triggeredLog fmt rule metric now).Component =
        rule.TargetType ++ "_" ++ rule.TargetName ∧
      Contains (triggeredLog fmt rule metric now).Message rule.Name ∧
      Contains (triggeredLog fmt rule metric now).Details rule.ID ∧
      Contains (triggeredLog fmt rule metric now).Details rule.MetricName ∧
      Contains (triggeredLog fmt rule metric now).Details (fmt.float rule.Threshold) ∧
      Contains (triggeredLog fmt rule metric now).Details (fmt.float metric.MetricValue) ∧
      Contains (triggeredLog fmt rule metric now).Details rule.Operator ∧
      Contains (triggeredLog fmt rule metric now).Details rule.Severity) := by
  refine ⟨evaluateAlertRule_entries fmt w rule, ?_, ?_⟩
  · intro metric now
    refine ⟨rfl, rfl, rfl, ?_, ?_, ?_, ?_, ?_, ?_, ?_, ?_⟩
    · exact ⟨"Alert triggered: ", " - " ++ rule.MetricName ++ " " ++ rule.Operator ++ " " ++
        fmt.float rule.Threshold ++ " (actual: " ++ fmt.float metric.MetricValue ++ " " ++
        metric.Unit ++ ")", by simp [notificationLog, String.append_assoc]⟩
    · exact ⟨"Alert triggered: " ++ rule.Name ++ " - ", " " ++ rule.Operator ++ " " ++
        fmt.float rule.Threshold ++ " (actual: " ++ fmt.float metric.MetricValue ++ " " ++
        metric.Unit ++ ")", by simp [notificationLog, String.append_assoc]⟩
    · exact ⟨"Alert triggered: " ++ rule.Name ++ " - " ++ rule.MetricName ++ " ", " " ++
        fmt.float rule.Threshold ++ " (actual: " ++ fmt.float metric.MetricValue ++ " " ++
        metric.Unit ++ ")", by simp [notificationLog, String.append_assoc]⟩
    · exact ⟨"Alert triggered: " ++ rule.Name ++ " - " ++ rule.MetricName ++ " " ++
        rule.Operator ++ " ", " (actual: " ++ fmt.float metric.MetricValue ++ " " ++
        metric.Unit ++ ")", by simp [notificationLog, String.append_assoc]⟩
    · exact ⟨"Alert triggered: " ++ rule.Name ++ " - " ++ rule.MetricName ++ " " ++
        rule.Operator ++ " " ++ fmt.float rule.Threshold ++ " (actual: ", " " ++
        metric.Unit ++ ")", by simp [notificationLog, String.append_assoc]⟩
    · exact ⟨"\x7b\"rule_id\": \"", "\", \"severity\": \"" ++ rule.Severity ++
        "\", \"metric_value\": " ++ fmt.float metric.MetricValue ++ "\x7d",
        by simp [notificationLog, String.append_assoc]⟩
    · exact ⟨"\x7b\"rule_id\": \"" ++ rule.ID ++ "\", \"severity\": \"",
        "\", \"metric_value\": " ++ fmt.float metric.MetricValue ++ "\x7d",
        by simp [notificationLog, String.append_assoc]⟩
    · exact ⟨"\x7b\"rule_id\": \"" ++ rule.ID ++ "\", \"severity\": \"" ++ rule.Severity ++
        "\", \"metric_value\": ", "\x7d", by simp [notificationLog, String.append_assoc]⟩
  · intro metric now
    refine ⟨rfl, rfl, rfl, ?_, ?_, ?_, ?_, ?_, ?_, ?_⟩
    · exact ⟨"Alert rule '", "' triggered", by simp [triggeredLog, String.append_assoc]⟩
    · exact ⟨"\x7b\"rule_id\": \"", "\", \"metric_name\": \"" ++ rule.MetricName ++
        "\", \"threshold\": " ++ fmt.float rule.Threshold ++ ", \"actual\": " ++
        fmt.float metric.MetricValue ++ ", \"operator\": \"" ++ rule.Operator ++
        "\", \"severity\": \"" ++ rule.Severity ++ "\"\x7d",
        by simp [triggeredLog, String.append_assoc]⟩
    · exact ⟨"\x7b\"rule_id\": \"" ++ rule.ID ++ "\", \"metric_name\": \"",
        "\", \"threshold\": " ++ fmt.float rule.Threshold ++ ", \"actual\": " ++
        fmt.float metric.MetricValue ++ ", \"operator\": \"" ++ rule.Operator ++
        "\", \"severity\": \"" ++ rule.Severity ++ "\"\x7d",
        by simp [triggeredLog, String.append_assoc]⟩
    · exact ⟨"\x7b\"rule_id\": \"" ++ rule.ID ++ "\", \"metric_name\": \"" ++ rule.MetricName ++
        "\", \"threshold\": ", ", \"actual\": " ++
        fmt.float metric.MetricValue ++ ", \"operator\": \"" ++ rule.Operator ++
        "\", \"severity\": \"" ++ rule.Severity ++ "\"\x7d",
        by simp [triggeredLog, String.append_assoc]⟩
    · exact ⟨"\x7b\"rule_id\": \"" ++ rule.ID ++ "\", \"metric_name\": \"" ++ rule.MetricName ++
        "\", \"threshold\": " ++ fmt.float rule.Threshold ++ ", \"actual\": ",
        ", \"operator\": \"" ++ rule.Operator ++
        "\", \"severity\": \"" ++ rule.Severity ++ "\"\x7d",
        by simp [triggeredLog, String.append_assoc]⟩
    · exact ⟨"\x7b\"rule_id\": \"" ++ rule.ID ++ "\", \"metric_name\": \"" ++ rule.MetricName ++
        "\", \"threshold\": " ++ fmt.float rule.Threshold ++ ", \"actual\": " ++
        fmt.float metric.MetricValue ++ ", \"operator\": \"",
        "\", \"severity\": \"" ++ rule.Severity ++ "\"\x7d",
        by simp [triggeredLog, String.append_assoc]⟩
    · exact ⟨"\x7b\"rule_id\": \"" ++ rule.ID ++ "\", \"metric_name\": \"" ++ rule.MetricName ++
        "\", \"threshold\": " ++ fmt.float rule.Threshold ++ ", \"actual\": " ++
        fmt.float metric.MetricValue ++ ", \"operator\": \"" ++ rule.Operator ++
        "\", \"severity\": \"", "\"\x7d", by simp [triggeredLog, String.append_assoc]⟩

/-- C9: the log table after an evaluation tick depends on the enabled rules only: two rule
tables with the same enabled rules give the same log table, whatever the disabled rules and
the samples matching them are and whichever statements fail; and when every rule is
disabled the tick leaves the log table unchanged. -/
theorem disabled_rules_write_nothing (fmt : Fmt) (w : World) (rules : List AlertRule)
    (h : rules.filter (fun r => r.Enabled) = w.alertRules.filter (fun r => r.Enabled)) :
    (checkAlerts fmt { w with alertRules := rules }).2.monitoringLogs =
      (checkAlerts fmt w).2.monitoringLogs ∧
    ((∀ r ∈ w.alertRules, r.Enabled = false) →
      (checkAlerts fmt w).2.monitoringLogs = w.monitoringLogs) := by
  have hfr := nextFault_frame w
  constructor
  · unfold checkAlerts dbFindEnabledRules
    rw [nextFault_rules]
    rcases hn : nextFault w with ⟨_ | msg, w1⟩
    · rw [hn] at hfr
      simp only at hfr ⊢
      rw [h, hfr.1, checkFold_rules]
    · rfl
  · intro hall
    have hnil : w.alertRules.filter (fun r => r.Enabled) = [] := by
      rw [List.filter_eq_nil_iff]
      intro r hr
      simp [hall r hr]
    unfold checkAlerts dbFindEnabledRules
    rcases hn : nextFault w with ⟨_ | msg, w1⟩
    · rw [hn] at hfr
      simp only at hfr ⊢
      rw [hfr.1, hnil]
      exact hfr.2.2
    · rw [hn] at hfr
      exact hfr.2.2

theorem disabled_rules_write_nothing_witness :
    (checkAlerts plainFmt
      { exampleWorld with alertRules := [{ exampleRule with Enabled := false }] }).2.monitoringLogs =
      (checkAlerts plainFmt { exampleWorld with alertRules := [] }).2.monitoringLogs :=
  (disabled_rules_write_nothing plainFmt { exampleWorld with alertRules := [] }
    [{ exampleRule with Enabled := false }] (by decide)).1

/-- C10 (as stated, refuted): a rule with an empty target instance name does not match the
sample of instance `light_admin` with the rule's kind and metric name, although its value 5
exceeds the threshold 4: the evaluation ends with "no metric found" and writes nothing. -/
theorem empty_target_name_matches_no_named_instance :
    ({ exampleRule with TargetName := "" } : AlertRule).Enabled = true ∧
    exampleMetric ∈ exampleWorld.resourceMetrics ∧
    exampleMetric.DatabaseType = ({ exampleRule with TargetName := "" } : AlertRule).TargetType ∧
    exampleMetric.MetricName = ({ exampleRule with TargetName := "" } : AlertRule).MetricName ∧
    exampleMetric.DatabaseName = "light_admin" ∧
    triggered ">" exampleMetric.MetricValue (.fin 4) = true ∧
    evaluateAlertRule plainFmt exampleWorld { exampleRule with TargetName := "" } =
      (some "no metric found for rule connections", exampleWorld) ∧
    (checkAlerts plainFmt
      { exampleWorld with alertRules := [{ exampleRule with TargetName := "" }] }).2.monitoringLogs
      = [] := by
  refine ⟨by decide, by decide, by decide, by decide, by decide, by decide, by decide, by decide⟩

/-- C10 (amended): for a rule whose target instance name is empty, the sample compared with
the threshold has the rule's kind and metric name and an empty instance name; when the store
holds no such sample, whatever it holds for named instances, the evaluation ends with the
"no metric found" error and writes no log entry. -/
theorem empty_target_name_matches_empty_instance (fmt : Fmt) (w : World) (rule : AlertRule)
    (hname : rule.TargetName = "") (hf : w.faults = []) :
    (∀ m, (dbFirstMetric w rule.TargetType rule.TargetName rule.MetricName).1 = .ok m →
      m ∈ w.resourceMetrics ∧ m.DatabaseType = rule.TargetType ∧ m.DatabaseName = "" ∧
      m.MetricName = rule.MetricName) ∧
    ((∀ m ∈ w.resourceMetrics, m.DatabaseType = rule.TargetType →
        m.MetricName = rule.MetricName → m.DatabaseName ≠ "") →
      evaluateAlertRule fmt w rule = (some ("no metric found for rule " ++ rule.Name), w)) ∧
    (∀ m ∈ w.resourceMetrics, m.DatabaseType = rule.TargetType →
        m.MetricName = rule.MetricName → m.DatabaseName = "" →
      ∃ m1, (dbFirstMetric w rule.TargetType rule.TargetName rule.MetricName).1 = .ok m1) := by
  refine ⟨?_, ?_, ?_⟩
  · intro m hm
    have := dbFirstMetric_ok w _ _ _ m hm
    rw [hname] at this
    exact this
  · intro hall
    have hnil : matchingMetrics w rule.TargetType rule.TargetName rule.MetricName = [] := by
      apply List.eq_nil_iff_forall_not_mem.2
      intro m hm
      rw [mem_matchingMetrics, hname] at hm
      exact hall m hm.1 hm.2.1 hm.2.2.2 hm.2.2.1
    unfold evaluateAlertRule
    rw [dbFirstMetric_healthy w _ _ _ hf, hnil, latestMetric_nil]
  · intro m hm ht hn hd
    have hmem : m ∈ matchingMetrics w rule.TargetType rule.TargetName rule.MetricName := by
      rw [mem_matchingMetrics, hname]
      exact ⟨hm, ht, hd, hn⟩
    rw [dbFirstMetric_healthy w _ _ _ hf]
    cases hl : latestMetric (matchingMetrics w rule.TargetType rule.TargetName rule.MetricName) with
    | none =>
      rw [(latestMetric_eq_none _).1 hl] at hmem
      cases hmem
    | some m1 => exact ⟨m1, rfl⟩

theorem empty_target_name_matches_empty_instance_witness :
    evaluateAlertRule plainFmt exampleWorld { exampleRule with TargetName := "" } =
      (some ("no metric found for rule " ++
        ({ exampleRule with TargetName := "" } : AlertRule).Name), exampleWorld) :=
  (empty_target_name_matches_empty_instance plainFmt exampleWorld
    { exampleRule with TargetName := "" } rfl rfl).2.1 (by decide)


/-! ## The evaluation tick and the retention cleaner under failures -/

theorem nextFault_cons (w : World) (f : Option String) (rest : List (Option String))
    (h : w.faults = f :: rest) : nextFault w = (f, { w with faults := rest }) := by
  simp [nextFault, h]

theorem evaluateAlertRule_no_sample (fmt : Fmt) (w : World) (rule : AlertRule)
    (hf : w.faults = [])
    (hnone : matchingMetrics w rule.TargetType rule.TargetName rule.MetricName = []) :
    evaluateAlertRule fmt w rule = (some ("no metric found for rule " ++ rule.Name), w) := by
  unfold evaluateAlertRule
  rw [dbFirstMetric_healthy w _ _ _ hf, hnone, latestMetric_nil]

theorem alertEntries_no_sample (fmt : Fmt) (w : World) (rule : AlertRule)
    (hnone : matchingMetrics w rule.TargetType rule.TargetName rule.MetricName = []) :
    alertEntries fmt w rule = [] := by
  simp [alertEntries, hnone, latestMetric_nil]

theorem checkAlerts_loaded (fmt : Fmt) (w : World) (h : (nextFault w).1 = none) :
    checkAlerts fmt w = (none,
      ((nextFault w).2.alertRules.filter (fun r => r.Enabled)).foldl
        (fun acc rule => (evaluateAlertRule fmt acc rule).2) (nextFault w).2) := by
  unfold checkAlerts dbFindEnabledRules
  rcases hn : nextFault w with ⟨_ | msg, w1⟩
  · rfl
  · rw [hn] at h; cases h

/-- C11: when the rule list was loaded, `checkAlerts` returns no error whatever the single
rules do, and the rules before and after a given rule are folded over in order, each once,
the evaluation of the given rule in between.  On a store whose statements succeed, a rule
without matching sample ends with the "no metric found" error, changes nothing, and the log
table after the tick is the old one followed by the entries of every other enabled rule,
those after the skipped rule included. -/
theorem missing_sample_rule_is_skipped (fmt : Fmt) (w : World) (pre post : List AlertRule)
    (rule : AlertRule) (hf : w.faults = [])
    (hrules : w.alertRules.filter (fun r => r.Enabled) = pre ++ rule :: post)
    (hnone : matchingMetrics w rule.TargetType rule.TargetName rule.MetricName = []) :
    evaluateAlertRule fmt w rule = (some ("no metric found for rule " ++ rule.Name), w) ∧
    alertEntries fmt w rule = [] ∧
    checkAlerts fmt w = (none,
      { w with monitoringLogs := w.monitoringLogs ++
          (pre.flatMap (alertEntries fmt w) ++ post.flatMap (alertEntries fmt w)) }) ∧
    (∀ w1 : World, (nextFault w1).1 = none → (checkAlerts fmt w1).1 = none) ∧
    (∀ (w1 : World) (pre1 post1 : List AlertRule) (rule1 : AlertRule),
      (nextFault w1).1 = none →
      (nextFault w1).2.alertRules.filter (fun r => r.Enabled) = pre1 ++ rule1 :: post1 →
      (checkAlerts fmt w1).2 =
        post1.foldl (fun acc r => (evaluateAlertRule fmt acc r).2)
          (evaluateAlertRule fmt
            (pre1.foldl (fun acc r => (evaluateAlertRule fmt acc r).2) (nextFault w1).2)
            rule1).2) := by
  have he := alertEntries_no_sample fmt w rule hnone
  refine ⟨evaluateAlertRule_no_sample fmt w rule hf hnone, he, ?_, ?_, ?_⟩
  · rw [checkAlerts_healthy fmt w hf, hrules]
    simp [List.flatMap_append, List.flatMap_cons, he]
  · intro w1 h1
    rw [checkAlerts_loaded fmt w1 h1]
  · intro w1 pre1 post1 rule1 h1 h2
    rw [checkAlerts_loaded fmt w1 h1, h2, List.foldl_append, List.foldl_cons]

theorem missing_sample_rule_is_skipped_witness :
    checkAlerts plainFmt
      { exampleWorld with
        alertRules := [{ exampleRule with MetricName := "cpu_usage" }, exampleRule] } =
      (none,
        { exampleWorld with
          alertRules := [{ exampleRule with MetricName := "cpu_usage" }, exampleRule]
          monitoringLogs := [] ++
            (([] : List AlertRule).flatMap (alertEntries plainFmt
              { exampleWorld with
                alertRules := [{ exampleRule with MetricName := "cpu_usage" }, exampleRule] }) ++
             [exampleRule].flatMap (alertEntries plainFmt
              { exampleWorld with
                alertRules := [{ exampleRule with MetricName := "cpu_usage" }, exampleRule] })) }) :=
  (missing_sample_rule_is_skipped plainFmt
    { exampleWorld with
      alertRules := [{ exampleRule with MetricName := "cpu_usage" }, exampleRule] }
    [] [exampleRule] { exampleRule with MetricName := "cpu_usage" } rfl (by decide)
    (by decide)).2.2.1

/-- C12 (as stated, refuted): an enabled rule without matching sample makes its evaluation
end with an error, yet the evaluation tick leaves the log table empty: no entry records the
error. -/
theorem rule_error_leaves_no_log_entry :
    exampleRule.Enabled = true ∧
    (evaluateAlertRule plainFmt { exampleWorld with resourceMetrics := [] } exampleRule).1 =
      some "no metric found for rule connections" ∧
    (checkAlerts plainFmt { exampleWorld with resourceMetrics := [] }).1 = none ∧
    (alertCheckerTick plainFmt { exampleWorld with resourceMetrics := [] }).monitoringLogs = [] := by
  refine ⟨by decide, by decide, by decide, by decide⟩

/-- C12 (amended): on a store whose statements succeed, an enabled rule without matching
sample adds no log entry in an evaluation tick, and a tick in which no enabled rule has a
matching sample leaves the store as it was; the error the tick does record is the failure
to load the rule list, written by the scheduler with level "error", source "scheduler"
and component "alert_checker". -/
theorem rule_error_not_recorded (fmt : Fmt) (w : World) (rule : AlertRule)
    (hf : w.faults = [])
    (hnone : matchingMetrics w rule.TargetType rule.TargetName rule.MetricName = []) :
    (evaluateAlertRule fmt w rule).1 = some ("no metric found for rule " ++ rule.Name) ∧
    alertEntries fmt w rule = [] ∧
    alertCheckerTick fmt w =
      { w with monitoringLogs := w.monitoringLogs ++
          (w.alertRules.filter (fun r => r.Enabled)).flatMap (alertEntries fmt w) } ∧
    ((∀ r ∈ w.alertRules, r.Enabled = true →
        matchingMetrics w r.TargetType r.TargetName r.MetricName = []) →
      alertCheckerTick fmt w = w) ∧
    (∀ (w1 : World) (msg : String) (rest : List (Option String)),
      w1.faults = some msg :: none :: rest →
      alertCheckerTick fmt w1 =
        { w1 with
          faults := rest
          monitoringLogs := w1.monitoringLogs ++
            [{ LogLevel := "error", Source := "scheduler", Component := "alert_checker",
               Message := "Monitoring task error",
               Details := "\x7b\"error\": \"" ++ ("failed to fetch alert rules: " ++ msg) ++
                 "\", \"timestamp\": \"" ++ fmt.rfc3339 w1.now ++ "\"\x7d",
               CreatedAt := w1.now }] }) := by
  have htick : alertCheckerTick fmt w =
      { w with monitoringLogs := w.monitoringLogs ++
          (w.alertRules.filter (fun r => r.Enabled)).flatMap (alertEntries fmt w) } := by
    simp [alertCheckerTick, checkAlerts_healthy fmt w hf]
  refine ⟨by rw [evaluateAlertRule_no_sample fmt w rule hf hnone],
    alertEntries_no_sample fmt w rule hnone, htick, ?_, ?_⟩
  · intro hall
    rw [htick]
    have : (w.alertRules.filter (fun r => r.Enabled)).flatMap (alertEntries fmt w) = [] := by
      rw [List.flatMap_eq_nil_iff]
      intro r hr
      rw [List.mem_filter] at hr
      exact alertEntries_no_sample fmt w r (hall r hr.1 hr.2)
    rw [this, List.append_nil]
  · intro w1 msg rest hw
    unfold alertCheckerTick checkAlerts dbFindEnabledRules
    rw [nextFault_cons w1 _ _ hw]
    simp only [logMonitoringError, dbCreateLog]
    rw [nextFault_cons { w1 with faults := none :: rest } none rest rfl]

theorem rule_error_not_recorded_witness :
    alertCheckerTick plainFmt { exampleWorld with resourceMetrics := [] } =
      { exampleWorld with resourceMetrics := [] } :=
  (rule_error_not_recorded plainFmt { exampleWorld with resourceMetrics := [] } exampleRule
    rfl (by decide)).2.2.2.1 (by decide)

theorem dbDeleteMetricsBefore_ok (w : World) (cutoff : Int) (rest : List (Option String))
    (h : w.faults = none :: rest ∨ (w.faults = [] ∧ rest = [])) :
    dbDeleteMetricsBefore w cutoff =
      (none, { w with
        faults := rest
        resourceMetrics := w.resourceMetrics.filter (fun m => !decide (m.CreatedAt < cutoff)) }) := by
  unfold dbDeleteMetricsBefore
  rcases h with h | ⟨h, hr⟩
  · rw [nextFault_cons w _ _ h]
  · subst hr
    rw [nextFault_nil w h]
    simp only [← h]

theorem dbDeleteLogsBefore_ok (w : World) (cutoff : Int) (rest : List (Option String))
    (h : w.faults = none :: rest ∨ (w.faults = [] ∧ rest = [])) :
    dbDeleteLogsBefore w cutoff =
      (none, { w with
        faults := rest
        monitoringLogs := w.monitoringLogs.filter (fun l => !decide (l.CreatedAt < cutoff)) }) := by
  unfold dbDeleteLogsBefore
  rcases h with h | ⟨h, hr⟩
  · rw [nextFault_cons w _ _ h]
  · subst hr
    rw [nextFault_nil w h]
    simp only [← h]

theorem dbDeleteMetricsBefore_fail (w : World) (cutoff : Int) (msg : String)
    (rest : List (Option String)) (h : w.faults = some msg :: rest) :
    dbDeleteMetricsBefore w cutoff = (some msg, { w with faults := rest }) := by
  unfold dbDeleteMetricsBefore
  rw [nextFault_cons w _ _ h]

theorem dbDeleteLogsBefore_fail (w : World) (cutoff : Int) (msg : String)
    (rest : List (Option String)) (h : w.faults = some msg :: rest) :
    dbDeleteLogsBefore w cutoff = (some msg, { w with faults := rest }) := by
  unfold dbDeleteLogsBefore
  rw [nextFault_cons w _ _ h]

/-- The outcome of the first statement of a store, by cases on the fault script. -/
theorem nextFault_cases (w : World) :
    (nextFault w = (none, w) ∧ w.faults = []) ∨
    (∃ f rest, w.faults = f :: rest ∧ nextFault w = (f, { w with faults := rest })) := by
  cases h : w.faults with
  | nil => exact Or.inl ⟨nextFault_nil w h, rfl⟩
  | cons f rest => exact Or.inr ⟨f, rest, rfl, nextFault_cons w f rest h⟩

/-- A cleanup sweep that returns no error: what it leaves in the two tables. -/
theorem cleanupOldData_ok (fmt : Fmt) (cfg : MonitoringConfig) (w w1 : World)
    (h : cleanupOldData fmt cfg w = (none, w1)) :
    w1.resourceMetrics =
      w.resourceMetrics.filter (fun m => !decide (m.CreatedAt < cutoffDate fmt cfg w)) ∧
    w1.monitoringLogs =
      w.monitoringLogs.filter (fun l => !decide (l.CreatedAt < cutoffDate fmt cfg w)) ∧
    w1.alertRules = w.alertRules ∧ w1.systemHealth = w.systemHealth := by
  unfold cleanupOldData at h
  rcases nextFault_cases w with ⟨_, hf⟩ | ⟨f, rest, hf, _⟩
  · rw [dbDeleteMetricsBefore_ok w _ [] (Or.inr ⟨hf, rfl⟩)] at h
    simp only at h
    rw [dbDeleteLogsBefore_ok _ _ [] (Or.inr ⟨rfl, rfl⟩)] at h
    simp only [Prod.mk.injEq, true_and] at h
    subst h
    exact ⟨rfl, rfl, rfl, rfl⟩
  · cases f with
    | some msg =>
      rw [dbDeleteMetricsBefore_fail w _ msg rest hf] at h
      simp at h
    | none =>
      rw [dbDeleteMetricsBefore_ok w _ rest (Or.inl hf)] at h
      simp only at h
      cases rest with
      | nil =>
        rw [dbDeleteLogsBefore_ok _ _ [] (Or.inr ⟨rfl, rfl⟩)] at h
        simp only [Prod.mk.injEq, true_and] at h
        subst h
        exact ⟨rfl, rfl, rfl, rfl⟩
      | cons g rest2 =>
        cases g with
        | some msg =>
          rw [dbDeleteLogsBefore_fail _ _ msg rest2 rfl] at h
          simp at h
        | none =>
          rw [dbDeleteLogsBefore_ok _ _ rest2 (Or.inl rfl)] at h
          simp only [Prod.mk.injEq, true_and] at h
          subst h
          exact ⟨rfl, rfl, rfl, rfl⟩

theorem wrapInt64_of_range (x : Int) (h0 : -(2 : Int) ^ 63 ≤ x) (h1 : x < (2 : Int) ^ 63) :
    wrapInt64 x = x := by
  unfold wrapInt64
  have h2 : (x + 2 ^ 63) % 2 ^ 64 = x + 2 ^ 63 := by
    apply Int.emod_eq_of_lt <;> omega
  omega

/-- C18: after a cleanup sweep that returns no error, with `cutoff` the instant
`Now().AddDate(0, 0, -retentionDays)`, the sample table and the log table hold exactly
their former rows whose creation time is not before `cutoff`, unchanged and in their order:
a row created before `cutoff` is gone, a row created at or after `cutoff` is still there.
For a retention whose negation is a 64-bit integer the day count handed to `AddDate` is
`-retention_days`, so that `cutoff` is now minus `retention_days` days; where a day has
twenty-four hours it is the instant `now - retention_days * 24h`.  On a store whose
statements succeed the sweep does return no error. -/
theorem cleanup_removes_expired (fmt : Fmt) (cfg : MonitoringConfig) (w w1 : World)
    (h : cleanupOldData fmt cfg w = (none, w1)) :
    w1.resourceMetrics =
      w.resourceMetrics.filter
        (fun m => decide (fmt.addDays w.now (wrapInt64 (-cfg.RetentionDays)) ≤ m.CreatedAt)) ∧
    w1.monitoringLogs =
      w.monitoringLogs.filter
        (fun l => decide (fmt.addDays w.now (wrapInt64 (-cfg.RetentionDays)) ≤ l.CreatedAt)) ∧
    (-(2 : Int) ^ 63 < cfg.RetentionDays → cfg.RetentionDays < (2 : Int) ^ 63 →
      (∀ m, m ∈ w1.resourceMetrics ↔
        m ∈ w.resourceMetrics ∧ ¬ m.CreatedAt < fmt.addDays w.now (-cfg.RetentionDays)) ∧
      (∀ l, l ∈ w1.monitoringLogs ↔
        l ∈ w.monitoringLogs ∧ ¬ l.CreatedAt < fmt.addDays w.now (-cfg.RetentionDays)) ∧
      ((∀ t d, fmt.addDays t d = t + d * (24 * hourNs)) →
        (∀ m, m ∈ w1.resourceMetrics ↔
          m ∈ w.resourceMetrics ∧ w.now - cfg.RetentionDays * (24 * hourNs) ≤ m.CreatedAt) ∧
        (∀ l, l ∈ w1.monitoringLogs ↔
          l ∈ w.monitoringLogs ∧ w.now - cfg.RetentionDays * (24 * hourNs) ≤ l.CreatedAt))) ∧
    (∀ w0 : World, w0.faults = [] → (cleanupOldData fmt cfg w0).1 = none) := by
  obtain ⟨hm, hl, _, _⟩ := cleanupOldData_ok fmt cfg w w1 h
  unfold cutoffDate at hm hl
  have hm2 : w1.resourceMetrics =
      w.resourceMetrics.filter
        (fun m => decide (fmt.addDays w.now (wrapInt64 (-cfg.RetentionDays)) ≤ m.CreatedAt)) := by
    rw [hm]; congr 1; funext m
    by_cases hc : m.CreatedAt < fmt.addDays w.now (wrapInt64 (-cfg.RetentionDays))
    · simp [hc, not_le.2 hc]
    · simp [hc, not_lt.1 hc]
  have hl2 : w1.monitoringLogs =
      w.monitoringLogs.filter
        (fun l => decide (fmt.addDays w.now (wrapInt64 (-cfg.RetentionDays)) ≤ l.CreatedAt)) := by
    rw [hl]; congr 1; funext l
    by_cases hc : l.CreatedAt < fmt.addDays w.now (wrapInt64 (-cfg.RetentionDays))
    · simp [hc, not_le.2 hc]
    · simp [hc, not_lt.1 hc]
  refine ⟨hm2, hl2, ?_, ?_⟩
  · intro h0 h1
    have hwrap : wrapInt64 (-cfg.RetentionDays) = -cfg.RetentionDays := by
      apply wrapInt64_of_range <;> omega
    rw [hwrap] at hm2 hl2
    refine ⟨?_, ?_, ?_⟩
    · intro m; rw [hm2]; simp
    · intro l; rw [hl2]; simp
    · intro hday
      rw [hday] at hm2 hl2
      have hc : w.now + -cfg.RetentionDays * (24 * hourNs) =
          w.now - cfg.RetentionDays * (24 * hourNs) := by ring
      rw [hc] at hm2 hl2
      constructor
      · intro m; rw [hm2]; simp
      · intro l; rw [hl2]; simp
  · intro w0 h0
    unfold cleanupOldData
    rw [dbDeleteMetricsBefore_ok w0 _ [] (Or.inr ⟨h0, rfl⟩)]
    simp only
    rw [dbDeleteLogsBefore_ok _ _ [] (Or.inr ⟨rfl, rfl⟩)]

/-- C19: when the deletion of samples succeeds and the deletion of log entries fails, the
sweep returns an error, the expired samples are gone and the log table is as it was; and a
sweep whose first deletion fails returns an error as well, so that a sweep returning no
error has had no failing deletion. -/
theorem cleanup_deletes_independent (fmt : Fmt) (cfg : MonitoringConfig) (w : World)
    (msg : String) (rest : List (Option String)) (hf : w.faults = none :: some msg :: rest) :
    cleanupOldData fmt cfg w =
      (some ("failed to cleanup monitoring logs: " ++ msg),
        { w with
          faults := rest
          resourceMetrics :=
            w.resourceMetrics.filter (fun m => !decide (m.CreatedAt < cutoffDate fmt cfg w)) }) ∧
    (∀ (w0 : World) (msg0 : String) (rest0 : List (Option String)),
      w0.faults = some msg0 :: rest0 →
      cleanupOldData fmt cfg w0 =
        (some ("failed to cleanup resource metrics: " ++ msg0), { w0 with faults := rest0 })) ∧
    (∀ w0 : World, (cleanupOldData fmt cfg w0).1 = none →
      (dbDeleteMetricsBefore w0 (cutoffDate fmt cfg w0)).1 = none ∧
      (dbDeleteLogsBefore (dbDeleteMetricsBefore w0 (cutoffDate fmt cfg w0)).2
        (cutoffDate fmt cfg w0)).1 = none) := by
  refine ⟨?_, ?_, ?_⟩
  · unfold cleanupOldData
    rw [dbDeleteMetricsBefore_ok w _ _ (Or.inl hf)]
    simp only
    rw [dbDeleteLogsBefore_fail _ _ msg rest rfl]
  · intro w0 msg0 rest0 h0
    unfold cleanupOldData
    rw [dbDeleteMetricsBefore_fail w0 _ msg0 rest0 h0]
  · intro w0 h0
    unfold cleanupOldData at h0
    rcases h1 : dbDeleteMetricsBefore w0 (cutoffDate fmt cfg w0) with ⟨_ | e1, w1⟩
    · rw [h1] at h0
      simp only at h0 ⊢
      rcases h2 : dbDeleteLogsBefore w1 (cutoffDate fmt cfg w0) with ⟨_ | e2, w2⟩
      · exact ⟨trivial, rfl⟩
      · rw [h2] at h0; simp at h0
    · rw [h1] at h0; simp at h0

/-! ## The collector leaves the log table alone -/

theorem foldl_logs {α : Type} (f : World → α → World) (l : List α)
    (hf : ∀ acc x, (f acc x).monitoringLogs = acc.monitoringLogs) :
    ∀ w : World, (l.foldl f w).monitoringLogs = w.monitoringLogs := by
  induction l with
  | nil => intro w; rfl
  | cons x rest ih => intro w; rw [List.foldl_cons, ih, hf]

theorem dbCreateMetrics_logs (w : World) (ms : List ResourceMetric) :
    (dbCreateMetrics w ms).2.monitoringLogs = w.monitoringLogs := by
  unfold dbCreateMetrics
  have := (nextFault_frame w).2.2
  rcases hn : nextFault w with ⟨_ | msg, w1⟩ <;> simp_all

theorem insertBatches_logs (batchSize : Nat) (fuel : Nat) :
    ∀ (w : World) (ms : List ResourceMetric),
      (insertBatches batchSize fuel w ms).2.monitoringLogs = w.monitoringLogs := by
  induction fuel with
  | zero => intro w ms; rfl
  | succ n ih =>
    intro w ms
    unfold insertBatches
    split_ifs with h
    · rfl
    · have h1 := dbCreateMetrics_logs w (ms.take batchSize)
      rcases hc : dbCreateMetrics w (List.take batchSize ms) with ⟨_ | e, w1⟩
      · rw [hc] at h1
        simp only
        rw [ih]
        exact h1
      · rw [hc] at h1
        exact h1

theorem dbCreateMetricsInBatches_logs (w : World) (ms : List ResourceMetric) (batchSize : Nat) :
    (dbCreateMetricsInBatches w ms batchSize).2.monitoringLogs = w.monitoringLogs := by
  unfold dbCreateMetricsInBatches
  split_ifs
  · exact dbCreateMetrics_logs w ms
  · have h1 := insertBatches_logs batchSize ms.length w ms
    rcases hc : insertBatches batchSize ms.length w ms with ⟨_ | e, w1⟩
    · rw [hc] at h1; exact h1
    · rw [hc] at h1; exact h1

theorem dbExec_logs (w : World) : (dbExec w).monitoringLogs = w.monitoringLogs :=
  (nextFault_frame w).2.2

theorem dbFirstHealth_logs (w : World) (c : String) :
    (dbFirstHealth w c).2.monitoringLogs = w.monitoringLogs := by
  unfold dbFirstHealth
  have := (nextFault_frame w).2.2
  rcases hn : nextFault w with ⟨_ | msg, w1⟩
  · rw [hn] at this
    simp only
    split <;> exact this
  · rw [hn] at this; exact this

theorem dbCreateHealth_logs (w : World) (r : SystemHealth) :
    (dbCreateHealth w r).2.monitoringLogs = w.monitoringLogs := by
  unfold dbCreateHealth
  have := (nextFault_frame w).2.2
  rcases hn : nextFault w with ⟨_ | msg, w1⟩
  · rw [hn] at this
    simp only
    split_ifs <;> exact this
  · rw [hn] at this; exact this

theorem dbSaveHealth_logs (w : World) (r : SystemHealth) :
    (dbSaveHealth w r).2.monitoringLogs = w.monitoringLogs := by
  unfold dbSaveHealth
  split_ifs with h0
  · exact dbCreateHealth_logs w r
  · have := (nextFault_frame w).2.2
    rcases hn : nextFault w with ⟨_ | msg, w1⟩
    · rw [hn] at this
      simp only
      split_ifs
      · exact this
      · exact this
      · rw [dbCreateHealth_logs]; exact this
    · rw [hn] at this; exact this

theorem collectPostgreSQLData_logs (fmt : Fmt) (src : Sources) (w : World) :
    (collectPostgreSQLData fmt src w).2.monitoringLogs = w.monitoringLogs := by
  have h1 : ∀ w, (collectPostgreSQLConnections fmt src w).2.monitoringLogs = w.monitoringLogs := by
    intro w
    unfold collectPostgreSQLConnections
    split
    · rfl
    · exact dbCreateMetrics_logs _ _
  have h2 : ∀ w, (collectPostgreSQLDatabaseSize src w).2.monitoringLogs = w.monitoringLogs := by
    intro w
    unfold collectPostgreSQLDatabaseSize
    split
    · rfl
    · exact dbCreateMetrics_logs _ _
  have h3 : ∀ w, (collectPostgreSQLTableSize fmt src w).2.monitoringLogs = w.monitoringLogs := by
    intro w
    unfold collectPostgreSQLTableSize
    split
    · rfl
    · exact foldl_logs _ _ (fun acc x => dbCreateMetrics_logs _ _) w
  have h4 : ∀ w, (collectPostgreSQLUserStats fmt src w).2.monitoringLogs = w.monitoringLogs := by
    intro w
    unfold collectPostgreSQLUserStats
    split
    · rfl
    · exact dbCreateMetrics_logs _ _
  have h5 : ∀ w, (collectPostgreSQLOrganizationStats fmt src w).2.monitoringLogs =
      w.monitoringLogs := by
    intro w
    unfold collectPostgreSQLOrganizationStats
    split
    · rfl
    · simp only
      split_ifs
      · exact dbCreateMetricsInBatches_logs _ _ _
      · rfl
  unfold collectPostgreSQLData
  have a1 := h1 w
  rcases hc1 : collectPostgreSQLConnections fmt src w with ⟨_ | e1, w1⟩
  · rw [hc1] at a1
    simp only at a1 ⊢
    have a2 := h2 w1
    rcases hc2 : collectPostgreSQLDatabaseSize src w1 with ⟨_ | e2, w2⟩
    · rw [hc2] at a2
      simp only at a2 ⊢
      have a3 := h3 w2
      rcases hc3 : collectPostgreSQLTableSize fmt src w2 with ⟨_ | e3, w3⟩
      · rw [hc3] at a3
        simp only at a3 ⊢
        have a4 := h4 w3
        rcases hc4 : collectPostgreSQLUserStats fmt src w3 with ⟨_ | e4, w4⟩
        · rw [hc4] at a4
          simp only at a4 ⊢
          have a5 := h5 w4
          rcases hc5 : collectPostgreSQLOrganizationStats fmt src w4 with ⟨_ | e5, w5⟩
          · rw [hc5] at a5
            exact a5.trans (a4.trans (a3.trans (a2.trans a1)))
          · rw [hc5] at a5
            exact a5.trans (a4.trans (a3.trans (a2.trans a1)))
        · rw [hc4] at a4
          exact a4.trans (a3.trans (a2.trans a1))
      · rw [hc3] at a3
        exact a3.trans (a2.trans a1)
    · rw [hc2] at a2
      exact a2.trans a1
  · rw [hc1] at a1
    exact a1

theorem collectClickHouseDatabaseData_logs (fmt : Fmt) (w : World) (dbName : String)
    (conn : ClickHouseConn) :
    (collectClickHouseDatabaseData fmt w dbName conn).2.monitoringLogs = w.monitoringLogs := by
  have h1 : ∀ w, (collectClickHouseDatabaseSize w dbName conn).2.monitoringLogs =
      w.monitoringLogs := by
    intro w
    unfold collectClickHouseDatabaseSize
    split
    · rfl
    · exact dbCreateMetrics_logs _ _
  have h2 : ∀ w, (collectClickHouseTableStats fmt w dbName conn).2.monitoringLogs =
      w.monitoringLogs := by
    intro w
    unfold collectClickHouseTableStats
    split
    · rfl
    · apply foldl_logs
      intro acc row
      split
      · rfl
      · exact dbCreateMetrics_logs _ _
  have h3 : ∀ w, (collectClickHouseQueryStats w dbName conn).2.monitoringLogs =
      w.monitoringLogs := by
    intro w
    unfold collectClickHouseQueryStats
    split
    · rfl
    · exact dbCreateMetrics_logs _ _
  unfold collectClickHouseDatabaseData
  have a1 := h1 w
  rcases hc1 : collectClickHouseDatabaseSize w dbName conn with ⟨_ | e1, w1⟩
  · rw [hc1] at a1
    simp only at a1 ⊢
    have a2 := h2 w1
    rcases hc2 : collectClickHouseTableStats fmt w1 dbName conn with ⟨_ | e2, w2⟩
    · rw [hc2] at a2
      simp only at a2 ⊢
      have a3 := h3 w2
      rcases hc3 : collectClickHouseQueryStats w2 dbName conn with ⟨_ | e3, w3⟩
      · rw [hc3] at a3
        exact a3.trans (a2.trans a1)
      · rw [hc3] at a3
        exact a3.trans (a2.trans a1)
    · rw [hc2] at a2
      exact a2.trans a1
  · rw [hc1] at a1
    exact a1

theorem collectClickHouseData_logs (fmt : Fmt) (src : Sources) (w : World) :
    (collectClickHouseData fmt src w).2.monitoringLogs = w.monitoringLogs := by
  unfold collectClickHouseData
  exact foldl_logs _ _
    (fun acc (e : String × ClickHouseConn) =>
      collectClickHouseDatabaseData_logs fmt acc e.1 e.2) w

theorem collectRedisData_logs (src : Sources) (w : World) :
    (collectRedisData src w).2.monitoringLogs = w.monitoringLogs := by
  unfold collectRedisData
  split
  · rfl
  · split
    · rfl
    · exact dbCreateMetrics_logs _ _

theorem healthStep_logs (src : Sources) (w : World) (c : String) (err : Option String) :
    (healthStep src w c err).monitoringLogs = w.monitoringLogs := by
  unfold healthStep
  simp only
  have hp : (match err with
      | some _ => ((0 : Int), w)
      | none => ((mapGet src.elapsedMs c).getD 0,
          if c = "saas_monitor" then dbExec w else w)).2.monitoringLogs = w.monitoringLogs := by
    cases err with
    | some e => rfl
    | none =>
      simp only
      split_ifs
      · exact dbExec_logs w
      · rfl
  have hq := dbFirstHealth_logs (match err with
      | some _ => ((0 : Int), w)
      | none => ((mapGet src.elapsedMs c).getD 0,
          if c = "saas_monitor" then dbExec w else w)).2 c
  rw [hp] at hq
  rcases hx : dbFirstHealth _ c with ⟨(_ | msg) | r, w2⟩
  · rw [hx] at hq
    simp only
    rw [dbCreateHealth_logs]; exact hq
  · rw [hx] at hq
    simp only
    rw [dbSaveHealth_logs]; exact hq
  · rw [hx] at hq
    simp only
    rw [dbSaveHealth_logs]; exact hq

theorem collectSystemHealth_logs (src : Sources) (w : World) :
    (collectSystemHealth src w).2.monitoringLogs = w.monitoringLogs := by
  unfold collectSystemHealth
  exact foldl_logs _ _
    (fun acc (e : String × Option String) => healthStep_logs src acc e.1 e.2) w

theorem CollectAllData_logs (fmt : Fmt) (src : Sources) (w : World) :
    (CollectAllData fmt src w).2.monitoringLogs = w.monitoringLogs := by
  unfold CollectAllData
  simp only
  rw [collectSystemHealth_logs, collectRedisData_logs, collectClickHouseData_logs,
    collectPostgreSQLData_logs]

theorem logMonitoringError_eq (fmt : Fmt) (w : World) (component errorMessage : String) :
    logMonitoringError fmt w component errorMessage =
      (dbCreateLog w (monitoringErrorLog fmt w.now component errorMessage)).2 := rfl

theorem checkAlerts_error_logs (fmt : Fmt) (w w1 : World) (err : String)
    (h : checkAlerts fmt w = (some err, w1)) : w1.monitoringLogs = w.monitoringLogs ∧
      w1.now = w.now := by
  unfold checkAlerts dbFindEnabledRules at h
  have hfr := nextFault_frame w
  have hnow := nextFault_now w
  rcases hn : nextFault w with ⟨_ | msg, w2⟩
  · rw [hn] at h; simp at h
  · rw [hn] at h hfr hnow
    simp only [Prod.mk.injEq] at h
    rw [← h.2]
    exact ⟨hfr.2.2, hnow⟩

theorem dbDelete_frames (w : World) (cutoff : Int) :
    ((dbDeleteMetricsBefore w cutoff).2.monitoringLogs = w.monitoringLogs ∧
      (dbDeleteMetricsBefore w cutoff).2.now = w.now) ∧
    ((dbDeleteLogsBefore w cutoff).1 ≠ none →
      (dbDeleteLogsBefore w cutoff).2.monitoringLogs = w.monitoringLogs) ∧
    (dbDeleteLogsBefore w cutoff).2.now = w.now := by
  have hfr := nextFault_frame w
  have hnow := nextFault_now w
  unfold dbDeleteMetricsBefore dbDeleteLogsBefore
  rcases hn : nextFault w with ⟨_ | msg, w2⟩
  · rw [hn] at hfr hnow
    exact ⟨⟨hfr.2.2, hnow⟩, fun h => absurd rfl h, hnow⟩
  · rw [hn] at hfr hnow
    exact ⟨⟨hfr.2.2, hnow⟩, fun _ => hfr.2.2, hnow⟩

theorem cleanupOldData_error_logs (fmt : Fmt) (cfg : MonitoringConfig) (w w1 : World)
    (err : String) (h : cleanupOldData fmt cfg w = (some err, w1)) :
    w1.monitoringLogs = w.monitoringLogs ∧ w1.now = w.now := by
  unfold cleanupOldData at h
  have h1 := (dbDelete_frames w (cutoffDate fmt cfg w)).1
  rcases hd : dbDeleteMetricsBefore w (cutoffDate fmt cfg w) with ⟨_ | e1, w2⟩
  · rw [hd] at h h1
    simp only at h h1
    have h2 := dbDelete_frames w2 (cutoffDate fmt cfg w)
    rcases hl : dbDeleteLogsBefore w2 (cutoffDate fmt cfg w) with ⟨_ | e2, w3⟩
    · rw [hl] at h; simp at h
    · rw [hl] at h h2
      simp only [Prod.mk.injEq] at h
      rw [← h.2]
      exact ⟨(h2.2.1 (by simp)).trans h1.1, h2.2.2.trans h1.2⟩
  · rw [hd] at h h1
    simp only [Prod.mk.injEq] at h
    rw [← h.2]
    exact h1

theorem dbCreateLog_cases (w : World) (l : MonitoringLog) :
    ((nextFault w).1 = none →
      (dbCreateLog w l).2.monitoringLogs = w.monitoringLogs ++ [l]) ∧
    ((nextFault w).1 ≠ none → (dbCreateLog w l).2.monitoringLogs = w.monitoringLogs) := by
  have hfr := (nextFault_frame w).2.2
  unfold dbCreateLog
  rcases hn : nextFault w with ⟨_ | msg, w2⟩
  · rw [hn] at hfr
    exact ⟨fun _ => by simp_all, fun h => absurd rfl h⟩
  · rw [hn] at hfr
    exact ⟨fun h => by simp at h, fun _ => hfr⟩

/-- C13 (as stated, refuted): a cleanup tick whose body returns an error while the insert
of the error entry fails too writes no log entry at all, not exactly one. -/
theorem failed_tick_may_write_no_entry :
    (cleanupOldData plainFmt exampleConfig
      { retentionWorld with faults := [some "connection refused", some "connection refused"] }).1 =
      some "failed to cleanup resource metrics: connection refused" ∧
    (dataCleanupTick plainFmt exampleConfig
      { retentionWorld with faults := [some "connection refused", some "connection refused"] }
      ).monitoringLogs = retentionWorld.monitoringLogs ∧
    (Engine.tick plainFmt healthySources
      { scheduler := runningExample,
        world := { retentionWorld with
          faults := [some "connection refused", some "connection refused"] } }
      "data_cleanup").world.monitoringLogs = retentionWorld.monitoringLogs := by
  refine ⟨by decide, by decide, by decide⟩

/-- C13 (amended): a tick never changes the scheduler (running flag, registry, objects).
When the body of the `alert_checker` or of the `data_cleanup` task returns an error and
the insert of the error entry succeeds, exactly one entry is appended, with level "error",
source "scheduler" and the task's registered name as component; when that insert fails
nothing is appended.  The body of the `data_collection` task never returns an error, so its
tick appends no entry. -/
theorem failed_tick_logged (fmt : Fmt) (src : Sources) (e : Engine) (name : String) :
    (Engine.tick fmt src e name).scheduler = e.scheduler ∧
    (∀ (err : String) (w1 : World), checkAlerts fmt e.world = (some err, w1) →
      ((nextFault w1).1 = none →
        (Engine.tick fmt src e "alert_checker").world.monitoringLogs =
          e.world.monitoringLogs ++
            [monitoringErrorLog fmt e.world.now "alert_checker" err]) ∧
      ((nextFault w1).1 ≠ none →
        (Engine.tick fmt src e "alert_checker").world.monitoringLogs =
          e.world.monitoringLogs)) ∧
    (∀ (err : String) (w1 : World),
      cleanupOldData fmt e.scheduler.config e.world = (some err, w1) →
      ((nextFault w1).1 = none →
        (Engine.tick fmt src e "data_cleanup").world.monitoringLogs =
          e.world.monitoringLogs ++
            [monitoringErrorLog fmt e.world.now "data_cleanup" err]) ∧
      ((nextFault w1).1 ≠ none →
        (Engine.tick fmt src e "data_cleanup").world.monitoringLogs =
          e.world.monitoringLogs)) ∧
    (CollectAllData fmt src e.world).1 = none ∧
    (Engine.tick fmt src e "data_collection").world.monitoringLogs = e.world.monitoringLogs ∧
    (∀ (now : Int) (component err : String),
      (monitoringErrorLog fmt now component err).LogLevel = "error" ∧
      (monitoringErrorLog fmt now component err).Source = "scheduler" ∧
      (monitoringErrorLog fmt now component err).Component = component) := by
  refine ⟨?_, ?_, ?_, rfl, ?_, fun _ _ _ => ⟨rfl, rfl, rfl⟩⟩
  · unfold Engine.tick
    split_ifs <;> rfl
  · intro err w1 h
    have hfr := checkAlerts_error_logs fmt e.world w1 err h
    have hc := dbCreateLog_cases w1 (monitoringErrorLog fmt w1.now "alert_checker" err)
    have ht : (Engine.tick fmt src e "alert_checker").world =
        logMonitoringError fmt w1 "alert_checker" err := by
      simp [Engine.tick, alertCheckerTick, h]
    rw [ht, logMonitoringError_eq, hfr.2]
    rw [hfr.1, hfr.2] at hc
    exact hc
  · intro err w1 h
    have hfr := cleanupOldData_error_logs fmt e.scheduler.config e.world w1 err h
    have hc := dbCreateLog_cases w1 (monitoringErrorLog fmt w1.now "data_cleanup" err)
    have ht : (Engine.tick fmt src e "data_cleanup").world =
        logMonitoringError fmt w1 "data_cleanup" err := by
      simp [Engine.tick, dataCleanupTick, h]
    rw [ht, logMonitoringError_eq, hfr.2]
    rw [hfr.1, hfr.2] at hc
    exact hc
  · have ht : (Engine.tick fmt src e "data_collection").world =
        (CollectAllData fmt src e.world).2 := by
      simp [Engine.tick, dataCollectionTick, CollectAllData]
    rw [ht, CollectAllData_logs]

/-- C14: `CollectAllData` returns no error for all sources and every store, whichever of
its steps fail; with the sources that all fail, the relational step and the cache step
return errors and the sweep still returns none. -/
theorem collect_all_returns_no_error (fmt : Fmt) (src : Sources) (w : World) :
    (CollectAllData fmt src w).1 = none ∧
    (collectClickHouseData fmt src w).1 = none ∧
    (collectSystemHealth src w).1 = none ∧
    (collectPostgreSQLData plainFmt failingSources {}).1 =
      some "failed to collect PostgreSQL connections: sql: database is closed" ∧
    (collectClickHouseDatabaseData plainFmt {} "traces"
      { ping := some "connection refused", sizeRow := .error "connection refused",
        tableRows := .error "connection refused",
        slowQueries := .error "connection refused" }).1 = some "connection refused" ∧
    (collectRedisData failingSources {}).1 = some "connection refused" ∧
    (CollectAllData plainFmt failingSources {}).1 = none := by
  refine ⟨rfl, rfl, rfl, by decide, by decide, by decide, rfl⟩

/-- C15 (as stated, refuted): in a sweep in which the relational step and the cache step
fail, no log entry is written, neither by the collector nor by the data-collection tick of
the scheduler. -/
theorem failed_sources_leave_no_log_entry :
    (collectPostgreSQLData plainFmt failingSources {}).1 ≠ none ∧
    (collectRedisData failingSources {}).1 ≠ none ∧
    (CollectAllData plainFmt failingSources {}).2.monitoringLogs = [] ∧
    (dataCollectionTick plainFmt failingSources {}).monitoringLogs = [] := by
  refine ⟨by decide, by decide, by decide, by decide⟩

/-- C15 (amended): a collection sweep leaves the log table as it was, whichever sources
and statements fail, and so does the data-collection tick of the scheduler, whose sweep
never returns an error. -/
theorem sweep_leaves_log_table (fmt : Fmt) (src : Sources) (w : World) :
    (CollectAllData fmt src w).2.monitoringLogs = w.monitoringLogs ∧
    (dataCollectionTick fmt src w).monitoringLogs = w.monitoringLogs := by
  refine ⟨CollectAllData_logs fmt src w, ?_⟩
  have ht : dataCollectionTick fmt src w = (CollectAllData fmt src w).2 := by
    simp [dataCollectionTick, CollectAllData]
  rw [ht, CollectAllData_logs]

theorem failed_tick_logged_witness :
    (Engine.tick plainFmt healthySources
      { scheduler := runningExample,
        world := { exampleWorld with faults := [some "connection refused"] } }
      "alert_checker").world.monitoringLogs =
      exampleWorld.monitoringLogs ++
        [monitoringErrorLog plainFmt exampleWorld.now "alert_checker"
          "failed to fetch alert rules: connection refused"] :=
  ((failed_tick_logged plainFmt healthySources
      { scheduler := runningExample,
        world := { exampleWorld with faults := [some "connection refused"] } }
      "alert_checker").2.1 "failed to fetch alert rules: connection refused"
      { exampleWorld with faults := [] } (by decide)).1 (by decide)

/-- C16 (as stated, refuted): when the connection statistics of the relational instance
fail, `collectPostgreSQLData` ends with that error and writes no sample, although the size,
table, count and organization sources all answer and the size step run alone writes one;
and when the size query of a columnar instance fails, `collectClickHouseDatabaseData` ends
with that error and writes no table sample, although the table step run alone writes two. -/
theorem failed_step_ends_its_group :
    collectPostgreSQLData plainFmt
      { healthySources with lightAdminPool := .error "sql: database is closed" } {} =
      (some "failed to collect PostgreSQL connections: sql: database is closed", {}) ∧
    (collectPostgreSQLDatabaseSize
      { healthySources with lightAdminPool := .error "sql: database is closed" }
      {}).2.resourceMetrics.length = 1 ∧
    collectClickHouseDatabaseData plainFmt {} "traces"
      { ping := none, sizeRow := .error "code: 241, memory limit exceeded",
        tableRows := .ok [.ok ("spans", 1048576, 500)],
        slowQueries := .ok (1, .fin 1500, .fin 2000) } =
      (some "code: 241, memory limit exceeded", {}) ∧
    (collectClickHouseTableStats plainFmt {} "traces"
      { ping := none, sizeRow := .error "code: 241, memory limit exceeded",
        tableRows := .ok [.ok ("spans", 1048576, 500)],
        slowQueries := .ok (1, .fin 1500, .fin 2000) }).2.resourceMetrics.length = 2 := by
  refine ⟨by decide, by decide, by decide, by decide⟩

/-- C16 (amended): the four groups of a sweep are isolated from one another, and so are
the columnar instances: each is run on the store the previous one left, whatever the
previous one returned.  Inside the relational group and inside one columnar instance the
steps run in order and the first step that returns an error ends the group, its error
returned and the store left as that step left it. -/
theorem groups_isolated_steps_sequential (fmt : Fmt) (src : Sources) (w : World) :
    CollectAllData fmt src w =
      (none, (collectSystemHealth src (collectRedisData src
        (collectClickHouseData fmt src (collectPostgreSQLData fmt src w).2).2).2).2) ∧
    (collectClickHouseData fmt src w).2 =
      src.clickHouse.foldl
        (fun acc e => (collectClickHouseDatabaseData fmt acc e.1 e.2).2) w ∧
    (∀ err w1, collectPostgreSQLConnections fmt src w = (some err, w1) →
      collectPostgreSQLData fmt src w =
        (some ("failed to collect PostgreSQL connections: " ++ err), w1)) ∧
    (∀ err w1 w2, collectPostgreSQLConnections fmt src w = (none, w1) →
      collectPostgreSQLDatabaseSize src w1 = (some err, w2) →
      collectPostgreSQLData fmt src w =
        (some ("failed to collect PostgreSQL database size: " ++ err), w2)) ∧
    (∀ err w1 w2 w3, collectPostgreSQLConnections fmt src w = (none, w1) →
      collectPostgreSQLDatabaseSize src w1 = (none, w2) →
      collectPostgreSQLTableSize fmt src w2 = (some err, w3) →
      collectPostgreSQLData fmt src w =
        (some ("failed to collect PostgreSQL table size: " ++ err), w3)) ∧
    (∀ err w1 w2 w3 w4, collectPostgreSQLConnections fmt src w = (none, w1) →
      collectPostgreSQLDatabaseSize src w1 = (none, w2) →
      collectPostgreSQLTableSize fmt src w2 = (none, w3) →
      collectPostgreSQLUserStats fmt src w3 = (some err, w4) →
      collectPostgreSQLData fmt src w =
        (some ("failed to collect PostgreSQL user stats: " ++ err), w4)) ∧
    (∀ w1 w2 w3 w4, collectPostgreSQLConnections fmt src w = (none, w1) →
      collectPostgreSQLDatabaseSize src w1 = (none, w2) →
      collectPostgreSQLTableSize fmt src w2 = (none, w3) →
      collectPostgreSQLUserStats fmt src w3 = (none, w4) →
      collectPostgreSQLData fmt src w =
        (((collectPostgreSQLOrganizationStats fmt src w4).1.map
            (fun err => "failed to collect PostgreSQL organization stats: " ++ err)),
         (collectPostgreSQLOrganizationStats fmt src w4).2)) ∧
    (∀ (dbName : String) (conn : ClickHouseConn) err w1,
      collectClickHouseDatabaseSize w dbName conn = (some err, w1) →
      collectClickHouseDatabaseData fmt w dbName conn = (some err, w1)) ∧
    (∀ (dbName : String) (conn : ClickHouseConn) err w1 w2,
      collectClickHouseDatabaseSize w dbName conn = (none, w1) →
      collectClickHouseTableStats fmt w1 dbName conn = (some err, w2) →
      collectClickHouseDatabaseData fmt w dbName conn = (some err, w2)) ∧
    (∀ (dbName : String) (conn : ClickHouseConn) w1 w2,
      collectClickHouseDatabaseSize w dbName conn = (none, w1) →
      collectClickHouseTableStats fmt w1 dbName conn = (none, w2) →
      collectClickHouseDatabaseData fmt w dbName conn =
        collectClickHouseQueryStats w2 dbName conn) := by
  refine ⟨rfl, rfl, ?_, ?_, ?_, ?_, ?_, ?_, ?_, ?_⟩
  · intro err w1 h1
    simp [collectPostgreSQLData, h1]
  · intro err w1 w2 h1 h2
    simp [collectPostgreSQLData, h1, h2]
  · intro err w1 w2 w3 h1 h2 h3
    simp [collectPostgreSQLData, h1, h2, h3]
  · intro err w1 w2 w3 w4 h1 h2 h3 h4
    simp [collectPostgreSQLData, h1, h2, h3, h4]
  · intro w1 w2 w3 w4 h1 h2 h3 h4
    simp only [collectPostgreSQLData, h1, h2, h3, h4]
    rcases collectPostgreSQLOrganizationStats fmt src w4 with ⟨_ | e, w5⟩ <;> rfl
  · intro dbName conn err w1 h1
    simp [collectClickHouseDatabaseData, h1]
  · intro dbName conn err w1 w2 h1 h2
    simp [collectClickHouseDatabaseData, h1, h2]
  · intro dbName conn w1 w2 h1 h2
    simp only [collectClickHouseDatabaseData, h1, h2]
    rcases collectClickHouseQueryStats w2 dbName conn with ⟨_ | e, w3⟩ <;> rfl

theorem groups_isolated_steps_sequential_witness :
    collectPostgreSQLData plainFmt failingSources {} =
      (some ("failed to collect PostgreSQL connections: " ++ "sql: database is closed"), {}) :=
  (groups_isolated_steps_sequential plainFmt failingSources {}).2.2.1
    "sql: database is closed" {} (by decide)

/-- C17 (as stated, refuted): for `hits = misses = 2 ^ 62`, two counters `ParseInt` accepts,
the 64-bit sum wraps to a negative number, the guard `totalRequests > 0` fails and the
emitted hit rate is `0`, although `hits + misses > 0` and the quotient is 50. -/
theorem hit_rate_zero_on_overflow :
    parseInt64 "4611686018427387904".toList = some (2 ^ 62) ∧
    (0 : Int) ≤ 2 ^ 62 ∧ (0 : Int) < 2 ^ 62 + 2 ^ 62 ∧
    hitRatePercent (2 ^ 62) (2 ^ 62) = .fin 0 ∧
    ((Float64.ofInt (2 ^ 62)).div (Float64.ofInt (2 ^ 62 + 2 ^ 62))).mul (.fin 100) = .fin 50 ∧
    (redisMetrics 0
      "keyspace_hits: 4611686018427387904\nkeyspace_misses: 4611686018427387904\n").map
      (fun m => (m.MetricName, m.MetricValue)) =
      [("used_memory_bytes", .fin 0), ("connected_clients", .fin 0),
       ("hit_rate_percent", .fin 0)] := by
  refine ⟨by decide, by decide, by decide, by decide, by decide, by decide⟩

/-- C17 (amended): for counters `hits ≥ 0` and `misses ≥ 0` whose sum is below `2 ^ 63`, the
emitted hit rate is the `float64` value of `float64(hits) / float64(hits + misses) * 100`
when `hits + misses > 0`, and exactly `0` when both are zero, no division taking place; for
`hits = 90` and `misses = 10` it is `90`.  The third sample of the cache step carries this
value under the name `hit_rate_percent`. -/
theorem hit_rate_value (hits misses : Int) (h0 : 0 ≤ hits) (h1 : 0 ≤ misses)
    (hsum : hits + misses < 2 ^ 63) :
    (0 < hits + misses →
      hitRatePercent hits misses =
        ((Float64.ofInt hits).div (Float64.ofInt (hits + misses))).mul (.fin 100)) ∧
    (hits = 0 → misses = 0 → hitRatePercent hits misses = .fin 0) ∧
    hitRatePercent 0 0 = .fin 0 ∧
    hitRatePercent 90 10 = .fin 90 ∧
    (∀ (now : Int) (info : String),
      ((redisMetrics now info).map (fun m => (m.MetricName, m.MetricValue)))[2]? =
        some ("hit_rate_percent",
          hitRatePercent (extractRedisMetric info "keyspace_hits:")
            (extractRedisMetric info "keyspace_misses:"))) := by
  have hw : wrapInt64 (hits + misses) = hits + misses :=
    wrapInt64_of_range _ (by omega) hsum
  refine ⟨?_, ?_, by decide, by decide, fun _ _ => rfl⟩
  · intro hpos
    simp [hitRatePercent, hw, hpos]
  · intro ha hb
    subst ha; subst hb
    decide

theorem hit_rate_value_witness :
    hitRatePercent 90 10 =
      ((Float64.ofInt 90).div (Float64.ofInt (90 + 10))).mul (.fin 100) :=
  (hit_rate_value 90 10 (by decide) (by decide) (by decide)).1 (by decide)

theorem cleanup_removes_expired_witness :
    -(2 : Int) ^ 63 < exampleConfig.RetentionDays ∧ exampleConfig.RetentionDays < (2 : Int) ^ 63 ∧
    cleanupOldData plainFmt exampleConfig retentionWorld =
      (none,
        { retentionWorld with
          resourceMetrics := [{ exampleMetric with CollectedAt := 20 * (24 * hourNs),
                                                    CreatedAt := 20 * (24 * hourNs) }]
          monitoringLogs := [{ LogLevel := "info", Source := "scheduler", Message := "recent",
                               Details := "", CreatedAt := 20 * (24 * hourNs) }] }) ∧
    retentionWorld.now - exampleConfig.RetentionDays * (24 * hourNs) = 10 * (24 * hourNs) ∧
    ∀ m, m ∈ [{ exampleMetric with CollectedAt := 20 * (24 * hourNs),
                                    CreatedAt := 20 * (24 * hourNs) }] ↔
      m ∈ retentionWorld.resourceMetrics ∧
        retentionWorld.now - exampleConfig.RetentionDays * (24 * hourNs) ≤ m.CreatedAt :=
  ⟨by decide, by decide, by decide, by decide,
    (((cleanup_removes_expired plainFmt exampleConfig retentionWorld
      { retentionWorld with
          resourceMetrics := [{ exampleMetric with CollectedAt := 20 * (24 * hourNs),
                                                    CreatedAt := 20 * (24 * hourNs) }]
          monitoringLogs := [{ LogLevel := "info", Source := "scheduler", Message := "recent",
                               Details := "", CreatedAt := 20 * (24 * hourNs) }] }
      (by decide)).2.2.1 (by decide) (by decide)).2.2 (fun _ _ => rfl)).1⟩

theorem cleanup_deletes_independent_witness :
    cleanupOldData plainFmt exampleConfig
      { retentionWorld with faults := [none, some "deadlock detected"] } =
      (some ("failed to cleanup monitoring logs: " ++ "deadlock detected"),
        { retentionWorld with
          faults := []
          resourceMetrics :=
            ({ retentionWorld with faults := [none, some "deadlock detected"] } :
              World).resourceMetrics.filter
              (fun m => !decide (m.CreatedAt < cutoffDate plainFmt exampleConfig
                { retentionWorld with faults := [none, some "deadlock detected"] })) }) :=
  (cleanup_deletes_independent plainFmt exampleConfig
    { retentionWorld with faults := [none, some "deadlock detected"] }
    "deadlock detected" [] rfl).1


/-! ## The health sweep -/

theorem firstByFold_some (l : List SystemHealth) :
    ∀ b : SystemHealth, ∃ r, l.foldl
      (fun best r =>
        match best with
        | none => some r
        | some b => if r.ID < b.ID then some r else some b) (some b) = some r ∧
      (r = b ∨ r ∈ l) := by
  induction l with
  | nil => intro b; exact ⟨b, rfl, Or.inl rfl⟩
  | cons x rest ih =>
    intro b
    rw [List.foldl_cons]
    simp only
    split_ifs with hc
    · obtain ⟨m, hm, hmem⟩ := ih x
      refine ⟨m, hm, Or.inr ?_⟩
      rcases hmem with h | h
      · rw [h]; exact List.mem_cons_self _ _
      · exact List.mem_cons_of_mem _ h
    · obtain ⟨m, hm, hmem⟩ := ih b
      refine ⟨m, hm, ?_⟩
      rcases hmem with h | h
      · exact Or.inl h
      · exact Or.inr (List.mem_cons_of_mem _ h)

theorem firstByID_singleton (r : SystemHealth) : firstByID [r] = some r := rfl

theorem firstByID_nil : firstByID [] = none := rfl

theorem firstByID_mem (l : List SystemHealth) (r : SystemHealth)
    (h : firstByID l = some r) : r ∈ l := by
  cases l with
  | nil => cases h
  | cons x rest =>
    obtain ⟨m, hm, hmem⟩ := firstByFold_some rest x
    have : firstByID (x :: rest) = some m := by simpa [firstByID] using hm
    rw [this] at h
    cases h
    rcases hmem with h | h
    · rw [h]; exact List.mem_cons_self _ _
    · exact List.mem_cons_of_mem _ h

theorem firstByID_ne_none (l : List SystemHealth) (h : l ≠ []) : firstByID l ≠ none := by
  cases l with
  | nil => exact absurd rfl h
  | cons x rest =>
    obtain ⟨m, hm, _⟩ := firstByFold_some rest x
    have : firstByID (x :: rest) = some m := by simpa [firstByID] using hm
    rw [this]; simp

theorem filter_name_of_nodup (rs : List SystemHealth) (c : String) (r0 : SystemHealth)
    (hnd : (rs.map (fun r => r.ComponentName)).Nodup) (hmem : r0 ∈ rs)
    (hn : r0.ComponentName = c) :
    rs.filter (fun r => r.ComponentName == c) = [r0] := by
  induction rs with
  | nil => cases hmem
  | cons x t ih =>
    simp only [List.map_cons, List.nodup_cons] at hnd
    rcases List.mem_cons.1 hmem with h | h
    · subst h
      have ht : t.filter (fun r => r.ComponentName == c) = [] := by
        rw [List.filter_eq_nil_iff]
        intro y hy
        simp only [beq_iff_eq]
        intro hyc
        apply hnd.1
        rw [hn, ← hyc]
        exact List.mem_map.2 ⟨y, hy, rfl⟩
      simp [List.filter_cons, hn, ht]
    · have hx : x.ComponentName ≠ c := by
        intro hxc
        apply hnd.1
        rw [hxc, ← hn]
        exact List.mem_map.2 ⟨r0, h, rfl⟩
      simp [List.filter_cons, hx, ih hnd.2 h]

theorem le_maxHealthFold (l : List SystemHealth) :
    ∀ acc : Nat, acc ≤ l.foldl (fun acc r => max acc r.ID) acc ∧
      ∀ r ∈ l, r.ID ≤ l.foldl (fun acc r => max acc r.ID) acc := by
  induction l with
  | nil => intro acc; exact ⟨le_refl _, fun r hr => by cases hr⟩
  | cons x rest ih =>
    intro acc
    rw [List.foldl_cons]
    obtain ⟨h1, h2⟩ := ih (max acc x.ID)
    refine ⟨le_trans (le_max_left _ _) h1, ?_⟩
    intro r hr
    rcases List.mem_cons.1 hr with h | h
    · rw [h]; exact le_trans (le_max_right _ _) h1
    · exact h2 r h

theorem le_maxHealthID (rs : List SystemHealth) (r : SystemHealth) (h : r ∈ rs) :
    r.ID ≤ maxHealthID rs :=
  (le_maxHealthFold rs 0).2 r h

theorem healthTableOK_nil : HealthTableOK [] :=
  ⟨List.nodup_nil, List.nodup_nil, fun r hr => by cases hr⟩

/-- Appending a record with a new name and a new, non-zero identifier. -/
theorem HealthTableOK.append {rs : List SystemHealth} (h : HealthTableOK rs) (r : SystemHealth)
    (hname : ∀ x ∈ rs, x.ComponentName ≠ r.ComponentName) (hid : ∀ x ∈ rs, x.ID ≠ r.ID)
    (h0 : r.ID ≠ 0) : HealthTableOK (rs ++ [r]) := by
  refine ⟨?_, ?_, ?_⟩
  · rw [List.map_append, List.nodup_append]
    refine ⟨h.names, by simp, ?_⟩
    intro a ha hb
    simp only [List.map_cons, List.map_nil, List.mem_singleton] at hb
    rcases List.mem_map.1 ha with ⟨x, hx, hxa⟩
    exact hname x hx (by rw [hxa, hb])
  · rw [List.map_append, List.nodup_append]
    refine ⟨h.ids, by simp, ?_⟩
    intro a ha hb
    simp only [List.map_cons, List.map_nil, List.mem_singleton] at hb
    rcases List.mem_map.1 ha with ⟨x, hx, hxa⟩
    exact hid x hx (by rw [hxa, hb])
  · intro x hx
    rcases List.mem_append.1 hx with hx | hx
    · exact h.nonzero x hx
    · simp only [List.mem_singleton] at hx
      rw [hx]; exact h0

/-- Writing a record over the row that has its identifier, when no other row has its
name. -/
theorem HealthTableOK.replace {rs : List SystemHealth} (h : HealthTableOK rs) (r : SystemHealth)
    (hname : ∀ x ∈ rs, x.ComponentName = r.ComponentName → x.ID = r.ID)
    (h0 : r.ID ≠ 0) :
    HealthTableOK (rs.map (fun x => if x.ID = r.ID then r else x)) := by
  have hids : (rs.map (fun x => if x.ID = r.ID then r else x)).map (fun x => x.ID) =
      rs.map (fun x => x.ID) := by
    rw [List.map_map]
    apply List.map_congr_left
    intro x _
    simp only [Function.comp]
    split_ifs with hx
    · exact hx.symm
    · rfl
  refine ⟨?_, by rw [hids]; exact h.ids, ?_⟩
  · rw [List.map_map]
    apply (List.nodup_map_iff_inj_on h.ids.of_map).2
    intro x hx y hy hxy
    simp only [Function.comp] at hxy
    have hinj := List.inj_on_of_nodup_map h.ids
    have hinjn := List.inj_on_of_nodup_map h.names
    by_cases h1 : x.ID = r.ID <;> by_cases h2 : y.ID = r.ID
    · exact hinj hx hy (h1.trans h2.symm)
    · simp only [h1, h2, if_true, if_false] at hxy
      exact absurd (hname y hy hxy.symm) h2
    · simp only [h1, h2, if_true, if_false] at hxy
      exact absurd (hname x hx hxy) h1
    · simp only [h1, h2, if_false] at hxy
      exact hinjn hx hy hxy
  · intro x hx
    rcases List.mem_map.1 hx with ⟨y, hy, hyx⟩
    rw [← hyx]
    split_ifs
    · exact h0
    · exact h.nonzero y hy

theorem nextFault_health (w : World) :
    (nextFault w).2.systemHealth = w.systemHealth ∧ (nextFault w).2.now = w.now := by
  obtain ⟨a, b, c, f, n, sh, iss⟩ := w
  cases f <;> exact ⟨rfl, rfl⟩

theorem dbExec_health (w : World) :
    (dbExec w).systemHealth = w.systemHealth ∧ (dbExec w).now = w.now :=
  nextFault_health w

theorem dbFirstHealth_health (w : World) (c : String) :
    (dbFirstHealth w c).2.systemHealth = w.systemHealth := by
  unfold dbFirstHealth
  have := (nextFault_health w).1
  rcases hn : nextFault w with ⟨_ | msg, w1⟩
  · rw [hn] at this
    simp only
    split <;> exact this
  · rw [hn] at this; exact this

/-- A health record read from the store has the name asked for and is in the table. -/
theorem dbFirstHealth_found (w w2 : World) (c : String) (r : SystemHealth)
    (h : dbFirstHealth w c = (.ok r, w2)) :
    r ∈ w2.systemHealth ∧ r.ComponentName = c := by
  unfold dbFirstHealth at h
  rcases hn : nextFault w with ⟨_ | msg, w1⟩
  · rw [hn] at h
    simp only at h
    split at h
    · rename_i r1 hr1
      simp only [Prod.mk.injEq, Except.ok.injEq] at h
      obtain ⟨h1, h2⟩ := h
      subst h1; subst h2
      have := firstByID_mem _ _ hr1
      rw [List.mem_filter] at this
      exact ⟨this.1, by simpa using this.2⟩
    · simp at h
  · rw [hn] at h
    simp at h

theorem dbCreateHealth_ok (w : World) (r : SystemHealth) (h : HealthTableOK w.systemHealth) :
    HealthTableOK (dbCreateHealth w r).2.systemHealth := by
  unfold dbCreateHealth
  have := (nextFault_health w).1
  rcases hn : nextFault w with ⟨_ | msg, w1⟩
  · rw [hn] at this
    simp only at this ⊢
    rw [← this] at h
    by_cases h1 : (w1.systemHealth.any fun x => x.ComponentName == r.ComponentName) = true
    · rw [if_pos h1]; exact h
    · rw [if_neg h1]
      by_cases h2 : r.ID ≠ 0 ∧ (w1.systemHealth.any fun x => x.ID == r.ID) = true
      · rw [if_pos h2]; exact h
      · rw [if_neg h2]
        have hname : ∀ x ∈ w1.systemHealth, x.ComponentName ≠ r.ComponentName := by
          intro x hx hxe
          apply h1
          rw [List.any_eq_true]
          exact ⟨x, hx, by simpa using hxe⟩
        refine HealthTableOK.append h _ hname ?_ ?_
        · intro x hx
          simp only
          split_ifs with h0
          · have := le_maxHealthID _ x hx
            omega
          · intro hxe
            apply h2
            refine ⟨h0, ?_⟩
            rw [List.any_eq_true]
            exact ⟨x, hx, by simpa using hxe⟩
        · simp only
          split_ifs with h0
          · omega
          · exact h0
  · rw [hn] at this
    simp only
    rw [this]; exact h

theorem dbSaveHealth_ok (w : World) (r : SystemHealth) (h : HealthTableOK w.systemHealth) :
    HealthTableOK (dbSaveHealth w r).2.systemHealth := by
  unfold dbSaveHealth
  split_ifs with h0
  · exact dbCreateHealth_ok w r h
  · have := (nextFault_health w).1
    rcases hn : nextFault w with ⟨_ | msg, w1⟩
    · rw [hn] at this
      simp only at this ⊢
      rw [← this] at h
      split_ifs with h1 h2
      · exact h
      · simp only
        apply HealthTableOK.replace h r _ h0
        intro x hx hxn
        by_contra hne
        apply h1
        rw [List.any_eq_true]
        exact ⟨x, hx, by simp [hxn, hne]⟩
      · exact dbCreateHealth_ok w1 r h
    · rw [hn] at this
      simp only
      rw [this]; exact h

/-- One iteration of the health loop keeps the table well formed, whatever
statements fail. -/
theorem healthStep_ok (src : Sources) (w : World) (c : String) (err : Option String)
    (h : HealthTableOK w.systemHealth) :
    HealthTableOK (healthStep src w c err).systemHealth := by
  unfold healthStep
  simp only
  have hp : (match err with
      | some _ => ((0 : Int), w)
      | none => ((mapGet src.elapsedMs c).getD 0,
          if c = "saas_monitor" then dbExec w else w)).2.systemHealth = w.systemHealth := by
    cases err with
    | some e => rfl
    | none =>
      simp only
      split_ifs
      · exact (dbExec_health w).1
      · rfl
  have hq := dbFirstHealth_health (match err with
      | some _ => ((0 : Int), w)
      | none => ((mapGet src.elapsedMs c).getD 0,
          if c = "saas_monitor" then dbExec w else w)).2 c
  rw [hp] at hq
  rcases hx : dbFirstHealth _ c with ⟨(_ | msg) | r, w2⟩
  · rw [hx] at hq
    simp only at hq ⊢
    rw [← hq] at h
    exact dbCreateHealth_ok _ _ h
  · rw [hx] at hq
    simp only at hq ⊢
    rw [← hq] at h
    exact dbSaveHealth_ok _ _ h
  · rw [hx] at hq
    simp only at hq ⊢
    rw [← hq] at h
    exact dbSaveHealth_ok _ _ h

theorem healthFold_ok (src : Sources) (comps : List (String × Option String)) :
    ∀ w : World, HealthTableOK w.systemHealth →
      HealthTableOK
        (comps.foldl (fun acc (e : String × Option String) => healthStep src acc e.1 e.2)
          w).systemHealth := by
  induction comps with
  | nil => intro w h; exact h
  | cons e rest ih =>
    intro w h
    rw [List.foldl_cons]
    exact ih _ (healthStep_ok src w e.1 e.2 h)

theorem dbExec_healthy (w : World) (hf : w.faults = []) : dbExec w = w := by
  unfold dbExec
  rw [nextFault_nil w hf]

/-- The loop body on a store whose statements succeed, for a component without a
record: one record is appended. -/
theorem healthStep_unknown (src : Sources) (w : World) (c : String) (err : Option String)
    (hf : w.faults = []) (hun : ∀ r0 ∈ w.systemHealth, r0.ComponentName ≠ c) :
    healthStep src w c err =
      { w with
        systemHealth := w.systemHealth ++
          [{ ID := maxHealthID w.systemHealth + 1, ComponentName := c,
             ComponentType := getComponentType c, Status := probeStatus err,
             ResponseTime := some (probeResponseTime src c err),
             ErrorMessage := some (err.getD ""), LastCheckedAt := w.now,
             CreatedAt := w.now, UpdatedAt := w.now }] } := by
  have hnf := nextFault_nil w hf
  have hprob : (match err with
      | some _ => ((0 : Int), w)
      | none => ((mapGet src.elapsedMs c).getD 0,
          if c = "saas_monitor" then dbExec w else w)) = (probeResponseTime src c err, w) := by
    cases err with
    | some e => rfl
    | none => simp [probeResponseTime, dbExec_healthy w hf]
  have hfil : w.systemHealth.filter (fun r => r.ComponentName == c) = [] := by
    rw [List.filter_eq_nil_iff]
    intro x hx
    simpa using hun x hx
  have hany : (w.systemHealth.any fun x => x.ComponentName == c) = false := by
    rw [List.any_eq_false]
    intro x hx
    simpa using hun x hx
  unfold healthStep
  simp only
  rw [hprob]
  simp only
  unfold dbFirstHealth
  rw [hnf]
  simp only
  rw [hfil, firstByID_nil]
  simp only
  unfold dbCreateHealth
  rw [hnf]
  simp only [hany, Bool.false_eq_true, if_false, ne_eq, not_true_eq_false, false_and, if_true,
    ite_self, probeStatus]

/-- The loop body on a store whose statements succeed, for a component that has a
record: the record is overwritten in place. -/
theorem healthStep_known (src : Sources) (w : World) (c : String) (err : Option String)
    (hf : w.faults = []) (hok : HealthTableOK w.systemHealth) (r0 : SystemHealth)
    (hr0 : r0 ∈ w.systemHealth) (hn0 : r0.ComponentName = c) :
    healthStep src w c err =
      { w with
        systemHealth := w.systemHealth.map (fun x =>
          if x.ID = r0.ID then
            { r0 with
              Status := probeStatus err, ResponseTime := some (probeResponseTime src c err),
              ErrorMessage := some (err.getD ""), LastCheckedAt := w.now, UpdatedAt := w.now }
          else x) } := by
  have hnf := nextFault_nil w hf
  have hprob : (match err with
      | some _ => ((0 : Int), w)
      | none => ((mapGet src.elapsedMs c).getD 0,
          if c = "saas_monitor" then dbExec w else w)) = (probeResponseTime src c err, w) := by
    cases err with
    | some e => rfl
    | none => simp [probeResponseTime, dbExec_healthy w hf]
  have hany1 : (w.systemHealth.any
      fun x => x.ComponentName == r0.ComponentName && x.ID != r0.ID) = false := by
    rw [List.any_eq_false]
    intro x hx
    simp only [Bool.and_eq_true, beq_iff_eq, bne_iff_ne, ne_eq, not_and, not_not]
    intro hxn
    rw [List.inj_on_of_nodup_map hok.names hx hr0 hxn]
  have hany2 : (w.systemHealth.any fun x => x.ID == r0.ID) = true := by
    rw [List.any_eq_true]
    exact ⟨r0, hr0, by simp⟩
  unfold healthStep
  simp only
  rw [hprob]
  simp only
  unfold dbFirstHealth
  rw [hnf]
  simp only
  rw [filter_name_of_nodup _ c r0 hok.names hr0 hn0, firstByID_singleton]
  simp only
  unfold dbSaveHealth
  simp only [hok.nonzero r0 hr0, if_false, hnf, hany1, hany2, Bool.false_eq_true, if_true,
    probeStatus]

/-- One iteration of the health loop on a store whose statements succeed. -/
theorem healthStep_spec (src : Sources) (w : World) (c : String) (err : Option String)
    (hf : w.faults = []) (hok : HealthTableOK w.systemHealth) :
    (healthStep src w c err).faults = [] ∧ (healthStep src w c err).now = w.now ∧
    (∀ x : SystemHealth, x.ComponentName ≠ c →
      (x ∈ (healthStep src w c err).systemHealth ↔ x ∈ w.systemHealth)) ∧
    (∀ r0 ∈ w.systemHealth, ∃ r1 ∈ (healthStep src w c err).systemHealth, r1.ID = r0.ID) ∧
    (∃ r ∈ (healthStep src w c err).systemHealth, Upserted src w.now w.systemHealth c err r) := by
  by_cases hk : ∃ r0 ∈ w.systemHealth, r0.ComponentName = c
  · obtain ⟨r0, hr0, hn0⟩ := hk
    rw [healthStep_known src w c err hf hok r0 hr0 hn0]
    have hinj := List.inj_on_of_nodup_map hok.ids
    have hinjn := List.inj_on_of_nodup_map hok.names
    refine ⟨hf, rfl, ?_, ?_, ?_⟩
    · intro x hx
      simp only [List.mem_map]
      constructor
      · rintro ⟨y, hy, hyx⟩
        split_ifs at hyx with hid
        · rw [← hyx] at hx
          exact absurd hn0 hx
        · rw [← hyx]; exact hy
      · intro hxm
        refine ⟨x, hxm, ?_⟩
        rw [if_neg]
        intro hid
        apply hx
        rw [hinj hxm hr0 hid]; exact hn0
    · intro x hx
      simp only [List.mem_map]
      refine ⟨_, ⟨x, hx, rfl⟩, ?_⟩
      split_ifs with hid
      · exact hid.symm
      · rfl
    · refine ⟨_, List.mem_map.2 ⟨r0, hr0, if_pos rfl⟩, hn0, rfl, rfl, rfl, rfl, rfl, ?_, ?_⟩
      · intro r1 hr1 hn1
        rw [hinjn hr1 hr0 (hn1.trans hn0.symm)]
        exact ⟨rfl, rfl, rfl⟩
      · intro hall
        exact absurd hn0 (hall r0 hr0)
  · have hun : ∀ r0 ∈ w.systemHealth, r0.ComponentName ≠ c := by
      intro r0 hr0 hn0
      exact hk ⟨r0, hr0, hn0⟩
    rw [healthStep_unknown src w c err hf hun]
    refine ⟨hf, rfl, ?_, ?_, ?_⟩
    · intro x hx
      simp only [List.mem_append, List.mem_singleton]
      constructor
      · rintro (h | h)
        · exact h
        · rw [h] at hx
          exact absurd rfl hx
      · intro h; exact Or.inl h
    · intro x hx
      exact ⟨x, List.mem_append_left _ hx, rfl⟩
    · refine ⟨_, List.mem_append_right _ (List.mem_singleton_self _),
        rfl, rfl, rfl, rfl, rfl, rfl, ?_, ?_⟩
      · intro r1 hr1 hn1
        exact absurd hn1 (hun r1 hr1)
      · intro _
        refine ⟨rfl, rfl, ?_⟩
        intro x hx
        have := le_maxHealthID _ x hx
        simp only
        omega

/-- The health loop over a status map, on a store whose statements succeed. -/
theorem healthFold_spec (src : Sources) (comps : List (String × Option String)) :
    (mapKeys comps).Nodup →
    ∀ w : World, w.faults = [] → HealthTableOK w.systemHealth →
      (comps.foldl (fun acc (e : String × Option String) => healthStep src acc e.1 e.2)
        w).faults = [] ∧
      (comps.foldl (fun acc (e : String × Option String) => healthStep src acc e.1 e.2)
        w).now = w.now ∧
      (∀ x : SystemHealth, x.ComponentName ∉ mapKeys comps →
        (x ∈ (comps.foldl (fun acc (e : String × Option String) => healthStep src acc e.1 e.2)
          w).systemHealth ↔ x ∈ w.systemHealth)) ∧
      (∀ r0 ∈ w.systemHealth,
        ∃ r1 ∈ (comps.foldl (fun acc (e : String × Option String) => healthStep src acc e.1 e.2)
          w).systemHealth, r1.ID = r0.ID) ∧
      (∀ e ∈ comps,
        ∃ r ∈ (comps.foldl (fun acc (e : String × Option String) => healthStep src acc e.1 e.2)
          w).systemHealth, Upserted src w.now w.systemHealth e.1 e.2 r) := by
  induction comps with
  | nil =>
    intro _ w hf _
    exact ⟨hf, rfl, fun _ _ => Iff.rfl, fun r0 hr0 => ⟨r0, hr0, rfl⟩,
      fun e he => by cases he⟩
  | cons e0 rest ih =>
    intro hnd w hf hok
    have hnd2 : e0.1 ∉ mapKeys rest ∧ (mapKeys rest).Nodup := by
      simpa [mapKeys] using hnd
    rw [List.foldl_cons]
    obtain ⟨s1, s2, s3, s4, r, hr, hup⟩ := healthStep_spec src w e0.1 e0.2 hf hok
    obtain ⟨f1, f2, f3, f4, f5⟩ :=
      ih hnd2.2 (healthStep src w e0.1 e0.2) s1 (healthStep_ok src w e0.1 e0.2 hok)
    refine ⟨f1, f2.trans s2, ?_, ?_, ?_⟩
    · intro x hx
      have hx1 : x.ComponentName ≠ e0.1 := by
        intro h; apply hx; simp [mapKeys, h]
      have hx2 : x.ComponentName ∉ mapKeys rest := by
        intro h; apply hx
        simp only [mapKeys, List.map_cons, List.mem_cons]
        exact Or.inr h
      exact (f3 x hx2).trans (s3 x hx1)
    · intro r0 hr0
      obtain ⟨r1, hr1, h1⟩ := s4 r0 hr0
      obtain ⟨r2, hr2, h2⟩ := f4 r1 hr1
      exact ⟨r2, hr2, h2.trans h1⟩
    · intro e he
      rcases List.mem_cons.1 he with h | h
      · subst h
        refine ⟨r, ?_, hup⟩
        apply (f3 r _).2 hr
        rw [hup.1]; exact hnd2.1
      · obtain ⟨r2, hr2, u1, u2, u3, u4, u5, u6, u7, u8⟩ := f5 e h
        have hek : e.1 ∈ mapKeys rest := List.mem_map.2 ⟨e, h, rfl⟩
        have hne : e.1 ≠ e0.1 := by
          intro heq; apply hnd2.1; rw [← heq]; exact hek
        refine ⟨r2, hr2, u1, u2, u3, u4, u5.trans s2, u6.trans s2, ?_, ?_⟩
        · intro r0 hr0 hn0
          apply u7 r0 _ hn0
          apply (s3 r0 _).2 hr0
          rw [hn0]; exact hne
        · intro hall
          have hall1 : ∀ r0 ∈ (healthStep src w e0.1 e0.2).systemHealth,
              r0.ComponentName ≠ e.1 := by
            intro r0 hr0 hn0
            apply hall r0 _ hn0
            apply (s3 r0 _).1 hr0
            rw [hn0]; exact hne
          obtain ⟨v1, v2, v3⟩ := u8 hall1
          refine ⟨v1, v2.trans s2, ?_⟩
          intro r0 hr0
          obtain ⟨r1, hr1, h1⟩ := s4 r0 hr0
          rw [← h1]
          exact v3 r1 hr1

theorem nodup_mapKeys_healthCheck (src : Sources) : (mapKeys (HealthCheck src)).Nodup := by
  unfold HealthCheck
  have h1 : (mapKeys (mapSet ([] : List (String × Option String)) "saas_monitor"
      src.saasMonitorPing)).Nodup := nodup_mapKeys_mapSet _ _ _ List.nodup_nil
  have h2 := nodup_mapKeys_mapSet _ "light_admin" src.lightAdminPing h1
  have h3 : ∀ (l : List (String × ClickHouseConn)) (st : List (String × Option String)),
      (mapKeys st).Nodup →
      (mapKeys (l.foldl (fun st e => mapSet st ("clickhouse_" ++ e.1) e.2.ping) st)).Nodup := by
    intro l
    induction l with
    | nil => intro st h; exact h
    | cons x t ih =>
      intro st h
      rw [List.foldl_cons]
      exact ih _ (nodup_mapKeys_mapSet _ _ _ h)
  simp only
  split
  · exact nodup_mapKeys_mapSet _ _ _ (h3 _ _ h2)
  · exact h3 _ _ h2

theorem healthTableOK_healthWorld : HealthTableOK healthWorld.systemHealth :=
  ⟨by decide, by decide, by decide⟩

/-- C20 (counterexample): on an empty health table, when the statement `Create` for
the record of "saas_monitor" fails, the sweep ends without a record of the probed
component "saas_monitor": the outcome of the statement is not looked at. -/
theorem health_sweep_failed_create_leaves_no_record :
    ("saas_monitor", none) ∈ HealthCheck healthySources ∧
    ¬ ∃ r ∈ (collectSystemHealth healthySources
        { faults := [none, none, some "disk full"] }).2.systemHealth,
      r.ComponentName = "saas_monitor" := by
  decide

/-- C20 (amended): the health sweep returns no error and keeps the health table well
formed, with at most one record per component name, whatever statements fail. On
a store whose statements all succeed, after `collectSystemHealth` every probed
component has exactly one record, and it carries the probe result in status,
response time, error message and last-checked time; the record of a known
component keeps identifier, component name, component type and creation time,
the record of a previously unknown component is new, with the component type
derived from the name; records of components that were not probed are left as
they were. -/
theorem health_sweep_upserts (src : Sources) (w : World)
    (hok : HealthTableOK w.systemHealth) :
    (collectSystemHealth src w).1 = none ∧
    HealthTableOK (collectSystemHealth src w).2.systemHealth ∧
    (w.faults = [] →
      (∀ e ∈ HealthCheck src, ∃ r ∈ (collectSystemHealth src w).2.systemHealth,
        Upserted src w.now w.systemHealth e.1 e.2 r ∧
        ∀ r2 ∈ (collectSystemHealth src w).2.systemHealth,
          r2.ComponentName = e.1 → r2 = r) ∧
      (∀ x : SystemHealth, x.ComponentName ∉ mapKeys (HealthCheck src) →
        (x ∈ (collectSystemHealth src w).2.systemHealth ↔ x ∈ w.systemHealth))) := by
  have hok2 := healthFold_ok src (HealthCheck src) w hok
  refine ⟨rfl, hok2, ?_⟩
  intro hf
  obtain ⟨_, _, f3, _, f5⟩ :=
    healthFold_spec src (HealthCheck src) (nodup_mapKeys_healthCheck src) w hf hok
  refine ⟨?_, f3⟩
  intro e he
  obtain ⟨r, hr, hup⟩ := f5 e he
  refine ⟨r, hr, hup, ?_⟩
  intro r2 hr2 hn2
  exact List.inj_on_of_nodup_map hok2.names hr2 hr (hn2.trans hup.1.symm)

theorem health_sweep_upserts_witness :
    HealthTableOK healthWorld.systemHealth ∧ healthWorld.faults = [] ∧
    (collectSystemHealth healthySources healthWorld).1 = none ∧
    HealthTableOK (collectSystemHealth healthySources healthWorld).2.systemHealth ∧
    (∀ e ∈ HealthCheck healthySources,
      ∃ r ∈ (collectSystemHealth healthySources healthWorld).2.systemHealth,
        Upserted healthySources healthWorld.now healthWorld.systemHealth e.1 e.2 r ∧
        ∀ r2 ∈ (collectSystemHealth healthySources healthWorld).2.systemHealth,
          r2.ComponentName = e.1 → r2 = r) ∧
    (∀ x : SystemHealth, x.ComponentName ∉ mapKeys (HealthCheck healthySources) →
      (x ∈ (collectSystemHealth healthySources healthWorld).2.systemHealth ↔
        x ∈ healthWorld.systemHealth)) :=
  ⟨healthTableOK_healthWorld, rfl,
    (health_sweep_upserts healthySources healthWorld healthTableOK_healthWorld).1,
    (health_sweep_upserts healthySources healthWorld healthTableOK_healthWorld).2.1,
    (health_sweep_upserts healthySources healthWorld healthTableOK_healthWorld).2.2 rfl⟩

/-! ## The duration of a rule -/

/-- The duration of a rule is not read by the evaluator. -/
theorem evaluateAlertRule_duration (fmt : Fmt) (w : World) (rule : AlertRule) (d : Int) :
    evaluateAlertRule fmt w { rule with Duration := d } = evaluateAlertRule fmt w rule :=
  rfl

theorem checkFold_duration (fmt : Fmt) (f : AlertRule → Int) (rs : List AlertRule)
    (rules : List AlertRule) :
    ∀ acc : World,
      (rules.map (fun r => { r with Duration := f r })).foldl
          (fun acc rule => (evaluateAlertRule fmt acc rule).2) { acc with alertRules := rs } =
        { rules.foldl (fun acc rule => (evaluateAlertRule fmt acc rule).2) acc with
          alertRules := rs } := by
  induction rules with
  | nil => intro acc; rfl
  | cons r rest ih =>
    intro acc
    rw [List.map_cons, List.foldl_cons, List.foldl_cons, evaluateAlertRule_rules,
      evaluateAlertRule_duration]
    exact ih _

theorem checkAlerts_duration (fmt : Fmt) (w : World) (f : AlertRule → Int) :
    checkAlerts fmt
        { w with alertRules := w.alertRules.map (fun r => { r with Duration := f r }) } =
      ((checkAlerts fmt w).1,
       { (checkAlerts fmt w).2 with
         alertRules := w.alertRules.map (fun r => { r with Duration := f r }) }) := by
  unfold checkAlerts dbFindEnabledRules
  rw [nextFault_rules]
  have hr := (nextFault_frame w).1
  rcases hn : nextFault w with ⟨_ | msg, w1⟩
  · rw [hn] at hr
    simp only at hr ⊢
    rw [hr, List.filter_map]
    have hp : ((fun r : AlertRule => r.Enabled) ∘ fun r => { r with Duration := f r }) =
        fun r : AlertRule => r.Enabled := rfl
    rw [hp, checkFold_duration]
  · rfl

/-- C21: the outcome of evaluating a rule, its trigger decision and the log entries
written included, is the same for every value of the rule's duration field; an
evaluation tick over a store in which the durations of the rules are replaced by
arbitrary other values returns the same result and leaves the same store, the
durations apart; and a rule whose latest matching sample satisfies its comparison
is logged by the very evaluation that observes it, whatever its duration and
whatever samples came before. -/
theorem duration_is_not_enforced (fmt : Fmt) (w : World) (rule : AlertRule) (d : Int) :
    evaluateAlertRule fmt w { rule with Duration := d } = evaluateAlertRule fmt w rule ∧
    (∀ f : AlertRule → Int,
      checkAlerts fmt
          { w with alertRules := w.alertRules.map (fun r => { r with Duration := f r }) } =
        ((checkAlerts fmt w).1,
         { (checkAlerts fmt w).2 with
           alertRules := w.alertRules.map (fun r => { r with Duration := f r }) })) ∧
    (∀ metric : ResourceMetric, w.faults = [] →
      latestMetric (matchingMetrics w rule.TargetType rule.TargetName rule.MetricName) =
        some metric →
      triggered rule.Operator metric.MetricValue rule.Threshold = true →
      (evaluateAlertRule fmt w { rule with Duration := d }).2.monitoringLogs =
        w.monitoringLogs ++
          [notificationLog fmt rule metric w.now, triggeredLog fmt rule metric w.now]) := by
  refine ⟨rfl, checkAlerts_duration fmt w, ?_⟩
  intro metric hf hl ht
  rw [evaluateAlertRule_duration, evaluateAlertRule_healthy fmt w rule hf]
  simp only [alertEntries, hl, ht, if_true]

theorem duration_is_not_enforced_witness :
    exampleWorld.faults = [] ∧
    latestMetric (matchingMetrics exampleWorld exampleRule.TargetType exampleRule.TargetName
      exampleRule.MetricName) = some exampleMetric ∧
    triggered exampleRule.Operator exampleMetric.MetricValue exampleRule.Threshold = true ∧
    (evaluateAlertRule plainFmt exampleWorld { exampleRule with Duration := 3600 }).2.monitoringLogs =
      exampleWorld.monitoringLogs ++
        [notificationLog plainFmt exampleRule exampleMetric exampleWorld.now,
         triggeredLog plainFmt exampleRule exampleMetric exampleWorld.now] :=
  ⟨rfl, by decide, by decide,
    (duration_is_not_enforced plainFmt exampleWorld exampleRule 3600).2.2 exampleMetric rfl
      (by decide) (by decide)⟩

/-! ## The text of tags and the connection sample -/

theorem formatTags_nil (fmt : Fmt) : formatTags fmt [] = "\x7b\x7d" := by
  simp [formatTags, formatTagsLoop]

theorem formatTags_one (fmt : Fmt) (k : String) (v : TagValue) :
    formatTags fmt [(k, v)] = "\x7b\"" ++ k ++ "\":\"" ++ v.render fmt ++ "\"\x7d" := by
  have h1 : "\x7b\"" = "\x7b" ++ "\"" := by decide
  have h2 : "\"\x7d" = "\"" ++ "\x7d" := by decide
  rw [h1, h2]
  simp only [formatTags, formatTagsLoop, Bool.not_true, Bool.false_eq_true, if_false,
    String.append_assoc]

theorem formatTags_two (fmt : Fmt) (k1 k2 : String) (v1 v2 : TagValue) :
    formatTags fmt [(k1, v1), (k2, v2)] =
      "\x7b\"" ++ k1 ++ "\":\"" ++ v1.render fmt ++ "\",\"" ++ k2 ++ "\":\"" ++
        v2.render fmt ++ "\"\x7d" := by
  have h1 : "\x7b\"" = "\x7b" ++ "\"" := by decide
  have h2 : "\"\x7d" = "\"" ++ "\x7d" := by decide
  have h3 : "\",\"" = "\"" ++ ("," ++ "\"") := by decide
  rw [h1, h2, h3]
  simp only [formatTags, formatTagsLoop, Bool.not_true, Bool.false_eq_true, if_false,
    Bool.not_false, if_true, String.append_assoc]

/-- C22 (counterexample): for a pool with five connections in use and two idle the
library reports seven open connections, and the sample the connection step stores
for it has the value 7, not 5. -/
theorem connection_sample_counts_idle :
    PoolStats.Consistent { OpenConnections := 7, InUse := 5, Idle := 2 } ∧
    (collectPostgreSQLConnections plainFmt
        { healthySources with
          lightAdminPool := .ok { OpenConnections := 7, InUse := 5, Idle := 2 } }
        { }).2.resourceMetrics.map (fun m => (m.MetricName, m.MetricValue, m.Unit)) =
      [("active_connections", .fin 7, "count")] :=
  ⟨⟨by decide, by decide, by decide⟩, by decide⟩

/-- C22 (amended): for a relational pool that reports `a` connections in use and `i`
idle, and a configured maximum `m`, the connection step on a store that accepts
the insert returns no error and stores exactly one sample, of source kind
"postgresql", instance "light_admin", category "connection", name
"active_connections" and unit "count", collected now; its value is the float of
the number of open connections, `a + i`, and its tags are the text of the two
entries `max_connections` (`m`) and `idle_connections` (`i`), in either order. -/
theorem connection_sample_counts_open_connections (fmt : Fmt) (src : Sources) (w : World)
    (stats : PoolStats) (hs : src.lightAdminPool = .ok stats) (hc : stats.Consistent)
    (hf : w.faults = []) :
    ∃ m : ResourceMetric,
      collectPostgreSQLConnections fmt src w =
        (none, { w with resourceMetrics := w.resourceMetrics ++ [m], issued := w.issued + 1 }) ∧
      m.DatabaseType = "postgresql" ∧ m.DatabaseName = "light_admin" ∧
      m.MetricType = "connection" ∧ m.MetricName = "active_connections" ∧ m.Unit = "count" ∧
      m.MetricValue = Float64.ofInt (stats.InUse + stats.Idle) ∧
      m.CollectedAt = w.now ∧ m.CreatedAt = w.now ∧
      (m.Tags = "\x7b\"" ++ "max_connections" ++ "\":\"" ++
          toString src.lightAdminMaxOpenConns ++ "\",\"" ++ "idle_connections" ++ "\":\"" ++
          toString stats.Idle ++ "\"\x7d" ∨
       m.Tags = "\x7b\"" ++ "idle_connections" ++ "\":\"" ++ toString stats.Idle ++
          "\",\"" ++ "max_connections" ++ "\":\"" ++
          toString src.lightAdminMaxOpenConns ++ "\"\x7d") := by
  have hnf := nextFault_nil w hf
  unfold collectPostgreSQLConnections
  rw [hs]
  simp only
  unfold dbCreateMetrics
  rw [hnf]
  simp only [stampRows, List.length_singleton]
  refine ⟨_, rfl, rfl, rfl, rfl, rfl, rfl, ?_, rfl, rfl, ?_⟩
  · simp only
    rw [hc.2.2]
  · simp only
    split_ifs
    · left
      rw [formatTags_two]; rfl
    · right
      rw [formatTags_two]; rfl

theorem connection_sample_counts_open_connections_witness :
    healthySources.lightAdminPool = .ok { OpenConnections := 5, InUse := 3, Idle := 2 } ∧
    PoolStats.Consistent { OpenConnections := 5, InUse := 3, Idle := 2 } ∧
    exampleWorld.faults = [] ∧
    ∃ m : ResourceMetric,
      collectPostgreSQLConnections plainFmt healthySources exampleWorld =
        (none, { exampleWorld with
          resourceMetrics := exampleWorld.resourceMetrics ++ [m],
          issued := exampleWorld.issued + 1 }) ∧
      m.DatabaseType = "postgresql" ∧ m.DatabaseName = "light_admin" ∧
      m.MetricType = "connection" ∧ m.MetricName = "active_connections" ∧ m.Unit = "count" ∧
      m.MetricValue = Float64.ofInt (3 + 2) ∧
      m.CollectedAt = exampleWorld.now ∧ m.CreatedAt = exampleWorld.now ∧
      (m.Tags = "\x7b\"" ++ "max_connections" ++ "\":\"" ++ toString (10 : Int) ++
          "\",\"" ++ "idle_connections" ++ "\":\"" ++ toString (2 : Int) ++ "\"\x7d" ∨
       m.Tags = "\x7b\"" ++ "idle_connections" ++ "\":\"" ++ toString (2 : Int) ++
          "\",\"" ++ "max_connections" ++ "\":\"" ++ toString (10 : Int) ++ "\"\x7d") :=
  ⟨rfl, ⟨by decide, by decide, by decide⟩, rfl,
    connection_sample_counts_open_connections plainFmt healthySources exampleWorld
      { OpenConnections := 5, InUse := 3, Idle := 2 } rfl ⟨by decide, by decide, by decide⟩ rfl⟩

/-- The connection sample of the example sources: value 5 for five open connections,
of which two are idle. -/
theorem connection_sample_example :
    (collectPostgreSQLConnections plainFmt healthySources { }).2.resourceMetrics.map
        (fun m => (m.MetricName, m.MetricValue, m.Unit, m.Tags)) =
      [("active_connections", .fin 5, "count",
        "\x7b\"max_connections\":\"10\",\"idle_connections\":\"2\"\x7d")] := by
  decide

/-! ## Reading the text of `INFO` -/

theorem fieldsFrom_no_blank (l : List Char) :
    ∀ cur : List Char, (∀ c ∈ l, isSpace c = false) → (fieldsFrom l cur).length ≤ 1 := by
  induction l with
  | nil =>
    intro cur _
    unfold fieldsFrom
    split_ifs <;> simp
  | cons c cs ih =>
    intro cur h
    unfold fieldsFrom
    rw [if_neg (by simp [h c (List.mem_cons_self _ _)])]
    exact ih _ (fun x hx => h x (List.mem_cons_of_mem _ hx))

theorem mem_splitOn (sep : Char) (l : List Char) :
    ∀ line ∈ splitOn sep l, ∀ c ∈ line, c ∈ l ∧ c ≠ sep := by
  induction l with
  | nil =>
    intro line hl c hc
    simp only [splitOn, List.mem_singleton] at hl
    rw [hl] at hc; cases hc
  | cons x xs ih =>
    intro line hl c hc
    unfold splitOn at hl
    split_ifs at hl with hx
    · rcases List.mem_cons.1 hl with h | h
      · rw [h] at hc; cases hc
      · exact ⟨List.mem_cons_of_mem _ (ih line h c hc).1, (ih line h c hc).2⟩
    · rcases hs : splitOn sep xs with _ | ⟨l0, ls⟩
      · rw [hs] at hl
        simp only [List.mem_singleton] at hl
        rw [hl] at hc
        simp only [List.mem_singleton] at hc
        rw [hc]
        exact ⟨List.mem_cons_self _ _, hx⟩
      · rw [hs] at hl
        simp only at hl
        rcases List.mem_cons.1 hl with h | h
        · rw [h] at hc
          rcases List.mem_cons.1 hc with h1 | h1
          · rw [h1]; exact ⟨List.mem_cons_self _ _, hx⟩
          · have := ih l0 (by rw [hs]; exact List.mem_cons_self _ _) c h1
            exact ⟨List.mem_cons_of_mem _ this.1, this.2⟩
        · have := ih line (by rw [hs]; exact List.mem_cons_of_mem _ h) c hc
          exact ⟨List.mem_cons_of_mem _ this.1, this.2⟩

theorem extractFromLines_single_field (metric : List Char) (lines : List (List Char))
    (h : ∀ line ∈ lines, (fields line).length ≤ 1) : extractFromLines metric lines = 0 := by
  induction lines with
  | nil => rfl
  | cons line rest ih =>
    have hr := ih (fun l hl => h l (List.mem_cons_of_mem _ hl))
    have h1 := h line (List.mem_cons_self _ _)
    unfold extractFromLines
    split_ifs
    · rcases hf : fields line with _ | ⟨a, _ | ⟨b, t⟩⟩
      · simp only; exact hr
      · simp only; exact hr
      · rw [hf] at h1
        simp at h1
    · exact hr

/-- A blob in which no blank occurs inside a line yields 0 for every counter. -/
theorem extractRedisMetric_no_blank (info metric : String)
    (h : ∀ c ∈ info.toList, isSpace c = true → c = '\n') :
    extractRedisMetric info metric = 0 := by
  unfold extractRedisMetric
  apply extractFromLines_single_field
  intro line hl
  apply fieldsFrom_no_blank
  intro c hc
  obtain ⟨h1, h2⟩ := mem_splitOn '\n' info.toList line hl c hc
  cases hsp : isSpace c with
  | false => rfl
  | true => exact absurd (h c h1 hsp) h2
/-- C23 (the code at the failing input): from a blob whose counters are lines of the
form `name:value`, separated by `\n` or by `\r\n`, `extractRedisMetric` returns 0
for every counter, because the second blank-separated field of such a line does
not exist; the value is found only when a blank follows the colon.  The three
samples of the cache step are then 0, 0 and 0. -/
theorem extract_colon_line_yields_zero :
    extractRedisMetric "keyspace_hits:90" "keyspace_hits:" = 0 ∧
    extractRedisMetric "used_memory:1048576\nkeyspace_hits:90\nkeyspace_misses:10\n"
      "keyspace_hits:" = 0 ∧
    extractRedisMetric "used_memory:1048576\r\nkeyspace_hits:90\r\nkeyspace_misses:10\r\n"
      "keyspace_hits:" = 0 ∧
    extractRedisMetric "keyspace_hits: 90\n" "keyspace_hits:" = 90 ∧
    (redisMetrics 0
        "used_memory:1048576\r\nconnected_clients:3\r\nkeyspace_hits:90\r\nkeyspace_misses:10\r\n").map
      (fun m => (m.MetricName, m.MetricValue)) =
      [("used_memory_bytes", .fin 0), ("connected_clients", .fin 0),
       ("hit_rate_percent", .fin 0)] := by
  decide

/-! ## The sample a rule is compared with -/

theorem latestFold_max (l : List ResourceMetric) :
    ∀ b m : ResourceMetric, l.foldl
      (fun best m =>
        match best with
        | none => some m
        | some b =>
          if b.CollectedAt < m.CollectedAt ∨ (b.CollectedAt = m.CollectedAt ∧ m.ID < b.ID)
          then some m else some b) (some b) = some m →
      b.CollectedAt ≤ m.CollectedAt ∧ ∀ x ∈ l, x.CollectedAt ≤ m.CollectedAt := by
  induction l with
  | nil =>
    intro b m h
    simp only [List.foldl_nil, Option.some.injEq] at h
    rw [h]
    exact ⟨le_refl _, fun x hx => by cases hx⟩
  | cons x rest ih =>
    intro b m h
    rw [List.foldl_cons] at h
    simp only at h
    split_ifs at h with hc
    · obtain ⟨h1, h2⟩ := ih x m h
      have hb : b.CollectedAt ≤ x.CollectedAt := by
        rcases hc with hc | hc
        · exact le_of_lt hc
        · exact le_of_eq hc.1
      refine ⟨le_trans hb h1, ?_⟩
      intro y hy
      rcases List.mem_cons.1 hy with hy | hy
      · rw [hy]; exact h1
      · exact h2 y hy
    · obtain ⟨h1, h2⟩ := ih b m h
      have hx : x.CollectedAt ≤ b.CollectedAt := by
        by_contra hlt
        exact hc (Or.inl (not_le.1 hlt))
      refine ⟨h1, ?_⟩
      intro y hy
      rcases List.mem_cons.1 hy with hy | hy
      · rw [hy]; exact le_trans hx h1
      · exact h2 y hy

/-- The sample `latestMetric` keeps has the greatest collection time of the list. -/
theorem latestMetric_max (l : List ResourceMetric) (m : ResourceMetric)
    (h : latestMetric l = some m) : ∀ x ∈ l, x.CollectedAt ≤ m.CollectedAt := by
  cases l with
  | nil => intro x hx; cases hx
  | cons y rest =>
    have h1 : rest.foldl
      (fun best m =>
        match best with
        | none => some m
        | some b =>
          if b.CollectedAt < m.CollectedAt ∨ (b.CollectedAt = m.CollectedAt ∧ m.ID < b.ID)
          then some m else some b) (some y) = some m := by
      simpa [latestMetric] using h
    obtain ⟨h2, h3⟩ := latestFold_max rest y m h1
    intro x hx
    rcases List.mem_cons.1 hx with hx | hx
    · rw [hx]; exact h2
    · exact h3 x hx

theorem latestFold_created (f : ResourceMetric → Int) (l : List ResourceMetric) :
    ∀ best : Option ResourceMetric,
      (l.map (fun x => { x with CreatedAt := f x })).foldl
        (fun best m =>
          match best with
          | none => some m
          | some b =>
            if b.CollectedAt < m.CollectedAt ∨ (b.CollectedAt = m.CollectedAt ∧ m.ID < b.ID)
            then some m else some b) (best.map (fun x => { x with CreatedAt := f x })) =
      (l.foldl
        (fun best m =>
          match best with
          | none => some m
          | some b =>
            if b.CollectedAt < m.CollectedAt ∨ (b.CollectedAt = m.CollectedAt ∧ m.ID < b.ID)
            then some m else some b) best).map (fun x => { x with CreatedAt := f x }) := by
  induction l with
  | nil => intro best; rfl
  | cons x rest ih =>
    intro best
    rw [List.map_cons, List.foldl_cons, List.foldl_cons, ← ih]
    congr 1
    cases best with
    | none => rfl
    | some b =>
      simp only [Option.map_some']
      split_ifs <;> rfl

/-- The creation times of the samples play no part in the choice of `latestMetric`. -/
theorem latestMetric_created (f : ResourceMetric → Int) (l : List ResourceMetric) :
    latestMetric (l.map (fun x => { x with CreatedAt := f x })) =
      (latestMetric l).map (fun x => { x with CreatedAt := f x }) :=
  latestFold_created f l none

theorem matchingMetrics_created (f : ResourceMetric → Int) (w : World) (a b c : String) :
    matchingMetrics
        { w with resourceMetrics := w.resourceMetrics.map (fun x => { x with CreatedAt := f x }) }
        a b c =
      (matchingMetrics w a b c).map (fun x => { x with CreatedAt := f x }) := by
  unfold matchingMetrics
  simp only
  rw [List.filter_map]
  rfl

theorem matchingMetrics_perm (w : World) (l2 : List ResourceMetric) (a b c : String)
    (h : l2.Perm w.resourceMetrics) :
    (matchingMetrics { w with resourceMetrics := l2 } a b c).Perm (matchingMetrics w a b c) :=
  h.filter _

/-- What the lookup of a sample returns, by cases on the outcome of its statement. -/
theorem dbFirstMetric_cases (w : World) (a b c : String) :
    (∃ msg, (nextFault w).1 = some msg ∧
      dbFirstMetric w a b c = (.error (.other msg), (nextFault w).2)) ∨
    ((nextFault w).1 = none ∧
      dbFirstMetric w a b c =
        (match latestMetric (matchingMetrics w a b c) with
          | some m => .ok m
          | none => .error .ErrRecordNotFound, (nextFault w).2)) := by
  unfold dbFirstMetric
  have h1 := (nextFault_frame w).2.1
  rcases hn : nextFault w with ⟨_ | msg, w1⟩
  · right
    rw [hn] at h1
    simp only at h1 ⊢
    have : matchingMetrics w1 a b c = matchingMetrics w a b c := by
      unfold matchingMetrics; rw [h1]
    rw [this]
    refine ⟨trivial, ?_⟩
    cases latestMetric (matchingMetrics w a b c) <;> rfl
  · left
    exact ⟨msg, rfl, rfl⟩

theorem nextFault_setMetrics (w : World) (ms : List ResourceMetric) :
    nextFault { w with resourceMetrics := ms } =
      ((nextFault w).1, { (nextFault w).2 with resourceMetrics := ms }) := by
  obtain ⟨a, b, c, f, n, sh, iss⟩ := w
  cases f <;> rfl

/-- A lookup that returns a sample: the sample is the choice of `latestMetric`. -/
theorem dbFirstMetric_found (w w1 : World) (a b c : String) (m : ResourceMetric)
    (h : dbFirstMetric w a b c = (.ok m, w1)) :
    (nextFault w).1 = none ∧ w1 = (nextFault w).2 ∧
    latestMetric (matchingMetrics w a b c) = some m := by
  rcases dbFirstMetric_cases w a b c with ⟨msg, _, h1⟩ | ⟨h0, h1⟩
  · rw [h1] at h
    simp at h
  · rw [h1] at h
    cases hl : latestMetric (matchingMetrics w a b c) with
    | none => rw [hl] at h; simp at h
    | some m1 =>
      rw [hl] at h
      simp only [Prod.mk.injEq, Except.ok.injEq] at h
      exact ⟨h0, h.2.symm, by rw [h.1]⟩

/-- C24: the lookup made for a rule returns a sample whenever its statement succeeds
and some sample matches the rule's target kind, target instance and metric name;
the sample it returns is the one whose value `evaluateAlertRule` compares with the
threshold; it is a sample of the store that matches the rule in all three
columns, and no matching sample has a greater collection time.  The collection
time of the chosen sample is the same for every order in which the samples are
stored, and replacing the creation times of the samples by arbitrary values
does not change which sample is chosen. -/
theorem latest_matching_sample_is_compared (fmt : Fmt) (w : World) (rule : AlertRule) :
    ((nextFault w).1 = none →
      (∃ x ∈ w.resourceMetrics, x.DatabaseType = rule.TargetType ∧
        x.DatabaseName = rule.TargetName ∧ x.MetricName = rule.MetricName) →
      ∃ m w1, dbFirstMetric w rule.TargetType rule.TargetName rule.MetricName = (.ok m, w1)) ∧
    (∀ (m : ResourceMetric) (w1 : World),
      dbFirstMetric w rule.TargetType rule.TargetName rule.MetricName = (.ok m, w1) →
      evaluateAlertRule fmt w rule =
        (none,
          if triggered rule.Operator m.MetricValue rule.Threshold then
            logAlertTriggered fmt (sendAlertNotification fmt w1 rule m).2 rule m
          else w1) ∧
      m ∈ w.resourceMetrics ∧ m.DatabaseType = rule.TargetType ∧
      m.DatabaseName = rule.TargetName ∧ m.MetricName = rule.MetricName ∧
      (∀ x ∈ w.resourceMetrics, x.DatabaseType = rule.TargetType →
        x.DatabaseName = rule.TargetName → x.MetricName = rule.MetricName →
        x.CollectedAt ≤ m.CollectedAt) ∧
      (∀ (l2 : List ResourceMetric) (m2 : ResourceMetric) (w2 : World),
        l2.Perm w.resourceMetrics →
        dbFirstMetric { w with resourceMetrics := l2 } rule.TargetType rule.TargetName
          rule.MetricName = (.ok m2, w2) →
        m2.CollectedAt = m.CollectedAt) ∧
      (∀ f : ResourceMetric → Int,
        dbFirstMetric
            { w with
              resourceMetrics := w.resourceMetrics.map (fun x => { x with CreatedAt := f x }) }
            rule.TargetType rule.TargetName rule.MetricName =
          (.ok { m with CreatedAt := f m },
           { w1 with
             resourceMetrics :=
               w.resourceMetrics.map (fun x => { x with CreatedAt := f x }) }))) := by
  constructor
  · intro h0 ⟨x, hx, h1, h2, h3⟩
    rcases dbFirstMetric_cases w rule.TargetType rule.TargetName rule.MetricName with
      ⟨msg, hm, _⟩ | ⟨_, h4⟩
    · rw [h0] at hm; cases hm
    · have hne : matchingMetrics w rule.TargetType rule.TargetName rule.MetricName ≠ [] := by
        intro he
        have := (mem_matchingMetrics w _ _ _ x).2 ⟨hx, h1, h2, h3⟩
        rw [he] at this
        cases this
      cases hl : latestMetric
          (matchingMetrics w rule.TargetType rule.TargetName rule.MetricName) with
      | none => exact absurd ((latestMetric_eq_none _).1 hl) hne
      | some m =>
        rw [hl] at h4
        exact ⟨m, _, h4⟩
  · intro m w1 h
    obtain ⟨h0, hw1, hl⟩ := dbFirstMetric_found w w1 _ _ _ m h
    have hmem := (mem_matchingMetrics w _ _ _ m).1 (latestMetric_mem _ _ hl)
    have hmax := latestMetric_max _ _ hl
    refine ⟨evaluateAlertRule_found fmt w w1 rule m h, hmem.1, hmem.2.1, hmem.2.2.1,
      hmem.2.2.2, ?_, ?_, ?_⟩
    · intro x hx h1 h2 h3
      exact hmax x ((mem_matchingMetrics w _ _ _ x).2 ⟨hx, h1, h2, h3⟩)
    · intro l2 m2 w2 hp h2
      obtain ⟨_, _, hl2⟩ := dbFirstMetric_found _ w2 _ _ _ m2 h2
      have hperm := matchingMetrics_perm w l2 rule.TargetType rule.TargetName
        rule.MetricName hp
      have hmax2 := latestMetric_max _ _ hl2
      apply le_antisymm
      · exact hmax m2 (hperm.mem_iff.1 (latestMetric_mem _ _ hl2))
      · exact hmax2 m (hperm.mem_iff.2 (latestMetric_mem _ _ hl))
    · intro f
      rcases dbFirstMetric_cases
          { w with
            resourceMetrics := w.resourceMetrics.map (fun x => { x with CreatedAt := f x }) }
          rule.TargetType rule.TargetName rule.MetricName with ⟨msg, hm, _⟩ | ⟨_, h4⟩
      · rw [nextFault_setMetrics] at hm
        simp only at hm
        rw [h0] at hm; cases hm
      · rw [h4, matchingMetrics_created, latestMetric_created, hl, nextFault_setMetrics, hw1]
        rfl

theorem latest_matching_sample_is_compared_witness :
    (nextFault historyWorld).1 = none ∧
    dbFirstMetric historyWorld exampleRule.TargetType exampleRule.TargetName
        exampleRule.MetricName =
      (.ok { exampleMetric with
             ID := "5a3e9d70-77c2-4f0b-8a55-90c1e2d30002", MetricValue := .fin 9,
             CollectedAt := 3000, CreatedAt := 100 }, historyWorld) ∧
    ∀ x ∈ historyWorld.resourceMetrics, x.DatabaseType = exampleRule.TargetType →
      x.DatabaseName = exampleRule.TargetName → x.MetricName = exampleRule.MetricName →
      x.CollectedAt ≤ 3000 :=
  ⟨rfl, by decide,
    ((latest_matching_sample_is_compared plainFmt historyWorld exampleRule).2
      { exampleMetric with
        ID := "5a3e9d70-77c2-4f0b-8a55-90c1e2d30002", MetricValue := .fin 9,
        CollectedAt := 3000, CreatedAt := 100 }
      historyWorld (by decide)).2.2.2.2.2.1⟩

/-! ## Units of the size samples -/

theorem megabytes_eq : ((1024 : ℚ) * 1024) = 1048576 := by norm_num

/-- C25 (counterexample): for a cache that reports 2097152 bytes of used memory the
collector builds the sample `used_memory_bytes` with the value 2097152 and the
unit "bytes"; the byte count divided by 1024*1024 is 2. -/
theorem cache_used_memory_is_emitted_in_bytes :
    (redisMetrics 0 "used_memory: 2097152\n").map
        (fun m => (m.MetricName, m.MetricValue, m.Unit)) =
      [("used_memory_bytes", .fin 2097152, "bytes"), ("connected_clients", .fin 0, "count"),
       ("hit_rate_percent", .fin 0, "percent")] ∧
    (Float64.ofInt 2097152).div (.fin (1024 * 1024)) = .fin 2 := by
  rw [megabytes_eq]
  decide

theorem dbCreateMetrics_healthy (w : World) (ms : List ResourceMetric) (hf : w.faults = []) :
    dbCreateMetrics w ms =
      (none, { w with
        resourceMetrics := w.resourceMetrics ++ stampRows w.now w.issued ms
        issued := w.issued + ms.length }) := by
  unfold dbCreateMetrics
  rw [nextFault_nil w hf]

/-- The loop of `collectClickHouseTableStats` on a store whose statements succeed: the
two samples of every scanned row are stored, in the order of the rows. -/
theorem tableStatsFold_healthy (fmt : Fmt) (dbName : String)
    (rows : List (Except String (String × Int × Int))) :
    ∀ acc : World, acc.faults = [] →
      ∃ new : List ResourceMetric,
        rows.foldl
            (fun acc row =>
              match row with
              | .error _ => acc
              | .ok (tableName, totalBytes, totalRows) =>
                (dbCreateMetrics acc
                  (clickHouseTableMetrics fmt acc.now dbName tableName totalBytes
                    totalRows)).2) acc =
          { acc with resourceMetrics := acc.resourceMetrics ++ new,
                     issued := acc.issued + new.length } ∧
        new.map (fun m => (m.MetricName, m.MetricValue, m.Unit)) =
          (scannedRows rows).flatMap (fun r =>
            [("table_size_" ++ r.1, (Float64.ofInt r.2.1).div (.fin (1024 * 1024)), "MB"),
             ("table_rows_" ++ r.1, Float64.ofInt r.2.2, "count")]) ∧
        ∀ m ∈ new, m.DatabaseType = "clickhouse" ∧ m.DatabaseName = dbName ∧
          m.CollectedAt = acc.now ∧ m.CreatedAt = acc.now := by
  induction rows with
  | nil =>
    intro acc _
    refine ⟨[], ?_, rfl, fun m hm => by cases hm⟩
    simp
  | cons row rest ih =>
    intro acc hf
    rw [List.foldl_cons]
    rcases row with e | ⟨tableName, totalBytes, totalRows⟩
    · obtain ⟨new, h1, h2, h3⟩ := ih acc hf
      refine ⟨new, h1, ?_, h3⟩
      rw [h2]
      simp [scannedRows]
    · simp only
      rw [dbCreateMetrics_healthy acc _ hf]
      obtain ⟨new, h1, h2, h3⟩ := ih
        { acc with
          resourceMetrics := acc.resourceMetrics ++ stampRows acc.now acc.issued
            (clickHouseTableMetrics fmt acc.now dbName tableName totalBytes totalRows)
          issued := acc.issued +
            (clickHouseTableMetrics fmt acc.now dbName tableName totalBytes totalRows).length }
        hf
      refine ⟨stampRows acc.now acc.issued
          (clickHouseTableMetrics fmt acc.now dbName tableName totalBytes totalRows) ++ new,
        ?_, ?_, ?_⟩
      · rw [h1]
        simp [List.append_assoc, Nat.add_assoc, clickHouseTableMetrics, stampRows]
        omega
      · rw [List.map_append, h2]
        simp [scannedRows, clickHouseTableMetrics, stampRows]
      · intro m hm
        rcases List.mem_append.1 hm with hm | hm
        · simp only [clickHouseTableMetrics, stampRows, List.mem_cons, List.mem_singleton,
            List.not_mem_nil, or_false] at hm
          rcases hm with rfl | rfl <;> exact ⟨rfl, rfl, rfl, rfl⟩
        · exact h3 m hm

/-- C25 (amended): on a store that accepts the inserts, the sample of the relational
database size, the sample of a columnar database size and the sample of the size of
every columnar table the table query returns have the byte count divided by
1024*1024 as value and the unit "MB"; the sample of the cache's used memory has the
byte count itself as value, under the name `used_memory_bytes` and with the unit
"bytes". -/
theorem sizes_in_megabytes_cache_in_bytes (fmt : Fmt) (src : Sources) (w : World)
    (hf : w.faults = []) :
    (∀ b : Float64, src.databaseSize = .ok b →
      ∃ m : ResourceMetric,
        collectPostgreSQLDatabaseSize src w =
          (none, { w with resourceMetrics := w.resourceMetrics ++ [m],
                          issued := w.issued + 1 }) ∧
        m.MetricName = "database_size_mb" ∧ m.MetricValue = b.div (.fin (1024 * 1024)) ∧
        m.Unit = "MB") ∧
    (∀ (dbName : String) (conn : ClickHouseConn) (totalBytes tableCount rowCount : Int),
      conn.sizeRow = .ok (totalBytes, tableCount, rowCount) →
      ∃ m m2 m3 : ResourceMetric,
        collectClickHouseDatabaseSize w dbName conn =
          (none, { w with resourceMetrics := w.resourceMetrics ++ [m, m2, m3],
                          issued := w.issued + 3 }) ∧
        m.MetricName = "database_size_mb" ∧
        m.MetricValue = (Float64.ofInt totalBytes).div (.fin (1024 * 1024)) ∧
        m.Unit = "MB" ∧ m2.Unit = "count" ∧ m3.Unit = "count") ∧
    (∀ (dbName : String) (conn : ClickHouseConn)
        (rows : List (Except String (String × Int × Int))),
      conn.tableRows = .ok rows →
      ∃ new : List ResourceMetric,
        collectClickHouseTableStats fmt w dbName conn =
          (none, { w with resourceMetrics := w.resourceMetrics ++ new,
                          issued := w.issued + new.length }) ∧
        new.map (fun m => (m.MetricName, m.MetricValue, m.Unit)) =
          (scannedRows rows).flatMap (fun r =>
            [("table_size_" ++ r.1, (Float64.ofInt r.2.1).div (.fin (1024 * 1024)), "MB"),
             ("table_rows_" ++ r.1, Float64.ofInt r.2.2, "count")]) ∧
        ∀ m ∈ new, m.DatabaseType = "clickhouse" ∧ m.DatabaseName = dbName ∧
          m.CollectedAt = w.now ∧ m.CreatedAt = w.now) ∧
    (∀ (client : RedisClient) (redisInfo : String),
      src.redis = some client → client.info = .ok redisInfo →
      ∃ m m2 m3 : ResourceMetric,
        collectRedisData src w =
          (none, { w with resourceMetrics := w.resourceMetrics ++ [m, m2, m3],
                          issued := w.issued + 3 }) ∧
        m.MetricName = "used_memory_bytes" ∧
        m.MetricValue = Float64.ofInt (extractRedisMetric redisInfo "used_memory:") ∧
        m.Unit = "bytes" ∧ m2.Unit = "count" ∧ m3.Unit = "percent") := by
  have hnf := nextFault_nil w hf
  refine ⟨?_, ?_, ?_, ?_⟩
  · intro b hb
    unfold collectPostgreSQLDatabaseSize
    rw [hb]
    simp only
    unfold dbCreateMetrics
    rw [hnf]
    simp only [stampRows, List.length_singleton]
    exact ⟨_, rfl, rfl, rfl, rfl⟩
  · intro dbName conn totalBytes tableCount rowCount hc
    unfold collectClickHouseDatabaseSize
    rw [hc]
    simp only
    unfold dbCreateMetrics
    rw [hnf]
    simp only [stampRows, List.length_cons, List.length_nil]
    exact ⟨_, _, _, rfl, rfl, rfl, rfl, rfl, rfl⟩
  · intro dbName conn rows hc
    unfold collectClickHouseTableStats
    rw [hc]
    simp only
    obtain ⟨new, h1, h2, h3⟩ := tableStatsFold_healthy fmt dbName rows w hf
    exact ⟨new, by rw [h1], h2, h3⟩
  · intro client redisInfo hr hi
    unfold collectRedisData
    rw [hr]
    simp only
    rw [hi]
    simp only
    unfold dbCreateMetrics
    rw [hnf]
    simp only [redisMetrics, stampRows, List.length_cons, List.length_nil]
    exact ⟨_, _, _, rfl, rfl, rfl, rfl, rfl, rfl⟩

theorem sizes_in_megabytes_cache_in_bytes_witness :
    exampleWorld.faults = [] ∧ healthySources.databaseSize = .ok (.fin 10485760) ∧
    (∃ m : ResourceMetric,
      collectPostgreSQLDatabaseSize healthySources exampleWorld =
        (none, { exampleWorld with
          resourceMetrics := exampleWorld.resourceMetrics ++ [m],
          issued := exampleWorld.issued + 1 }) ∧
      m.MetricName = "database_size_mb" ∧
      m.MetricValue = (Float64.fin 10485760).div (.fin (1024 * 1024)) ∧ m.Unit = "MB") ∧
    twoTableConn.tableRows =
      .ok [.ok ("spans", 1048576, 500), .error "converting NULL to uint64",
           .ok ("logs", 3145728, 7)] ∧
    ∃ new : List ResourceMetric,
      collectClickHouseTableStats plainFmt exampleWorld "traces" twoTableConn =
        (none, { exampleWorld with
          resourceMetrics := exampleWorld.resourceMetrics ++ new,
          issued := exampleWorld.issued + new.length }) ∧
      new.map (fun m => (m.MetricName, m.MetricValue, m.Unit)) =
        (scannedRows [.ok ("spans", 1048576, 500), .error "converting NULL to uint64",
            .ok ("logs", 3145728, 7)]).flatMap (fun r =>
          [("table_size_" ++ r.1, (Float64.ofInt r.2.1).div (.fin (1024 * 1024)), "MB"),
           ("table_rows_" ++ r.1, Float64.ofInt r.2.2, "count")]) ∧
      ∀ m ∈ new, m.DatabaseType = "clickhouse" ∧ m.DatabaseName = "traces" ∧
        m.CollectedAt = exampleWorld.now ∧ m.CreatedAt = exampleWorld.now :=
  ⟨rfl, rfl,
    (sizes_in_megabytes_cache_in_bytes plainFmt healthySources exampleWorld rfl).1 _ rfl,
    rfl,
    (sizes_in_megabytes_cache_in_bytes plainFmt healthySources exampleWorld rfl).2.2.1
      "traces" twoTableConn _ rfl⟩

/-- The table samples of the example connection: 1 MB and 3 MB, the row that fails to
scan left out. -/
theorem table_size_samples_example :
    (scannedRows [.ok ("spans", 1048576, 500), .error "converting NULL to uint64",
        .ok ("logs", 3145728, 7)]).flatMap (fun r =>
      [("table_size_" ++ r.1, (Float64.ofInt r.2.1).div (.fin (1024 * 1024)), "MB"),
       ("table_rows_" ++ r.1, Float64.ofInt r.2.2, "count")]) =
    [("table_size_spans", .fin 1, "MB"), ("table_rows_spans", .fin 500, "count"),
     ("table_size_logs", .fin 3, "MB"), ("table_rows_logs", .fin 7, "count")] := by
  rw [megabytes_eq]
  decide

/-- Two conversions evaluated: 10485760 bytes are 10 MB and 2097152 bytes are 2 MB. -/
theorem size_samples_example :
    (Float64.fin 10485760).div (.fin (1024 * 1024)) = .fin 10 ∧
    (Float64.ofInt 2097152).div (.fin (1024 * 1024)) = .fin 2 := by
  rw [megabytes_eq]
  decide

/-! ## The registry over all calls -/

/-- C26: in every state reached from `NewTaskScheduler` by calls of `Start`, `Stop`
and `RestartTask` with any arguments, the ticker map and the stop-channel map
have the same keys, each key once; while `running` is true the keys are exactly
`data_collection`, `alert_checker` and `data_cleanup`, and while it is false
both maps are empty. -/
theorem registry_invariant (ts : TaskScheduler) (h : Reachable ts) :
    (∀ n, n ∈ mapKeys ts.collectors ↔ n ∈ mapKeys ts.stopChans) ∧
    (mapKeys ts.collectors).Nodup ∧ (mapKeys ts.stopChans).Nodup ∧
    (ts.running = true →
      ∀ n, (n ∈ mapKeys ts.collectors ↔ n ∈ taskNames) ∧
        (n ∈ mapKeys ts.stopChans ↔ n ∈ taskNames)) ∧
    (ts.running = false → ts.collectors = [] ∧ ts.stopChans = []) := by
  have hi := inv_of_reachable h
  refine ⟨?_, hi.reg.keysC, hi.reg.keysS, ?_, hi.stopped⟩
  · intro n
    cases hrun : ts.running with
    | true => exact (hi.runKeysC hrun n).trans (hi.runKeysS hrun n).symm
    | false =>
      obtain ⟨hc, hs⟩ := hi.stopped hrun
      rw [hc, hs]
  · intro hrun n
    exact ⟨hi.runKeysC hrun n, hi.runKeysS hrun n⟩

theorem registry_invariant_witness :
    (∀ n, n ∈ mapKeys runningExample.collectors ↔ n ∈ mapKeys runningExample.stopChans) ∧
    (mapKeys runningExample.collectors).Nodup ∧ (mapKeys runningExample.stopChans).Nodup ∧
    (runningExample.running = true →
      ∀ n, (n ∈ mapKeys runningExample.collectors ↔ n ∈ taskNames) ∧
        (n ∈ mapKeys runningExample.stopChans ↔ n ∈ taskNames)) ∧
    (runningExample.running = false →
      runningExample.collectors = [] ∧ runningExample.stopChans = []) :=
  registry_invariant runningExample runningExample_reachable

/-- Every call of `RestartTask` in a state satisfying the invariant returns. -/
theorem restart_returns (ts : TaskScheduler) (hi : Inv ts) (name : String) :
    ∃ r, RestartTask ts name = .ok r := by
  cases hrun : ts.running with
  | false =>
    exact ⟨(some "scheduler is not running", ts), by simp [RestartTask, hrun]⟩
  | true =>
    by_cases hname : name ∈ taskNames
    · obtain ⟨c, t, hmc, hmt⟩ := hi.registered hrun name hname
      exact ⟨_, restart_registered ts name c t hi.reg hrun hname (hi.runPeriod hrun) hmc hmt⟩
    · have hc : name ∉ mapKeys ts.collectors := fun hk => hname ((hi.runKeysC hrun name).1 hk)
      have hsc : name ∉ mapKeys ts.stopChans := fun hk => hname ((hi.runKeysS hrun name).1 hk)
      exact ⟨_, restart_unregistered ts name hrun hname hc hsc⟩

/-- A call of `Start` in a state satisfying the invariant returns, or faults in
`time.NewTicker`. -/
theorem start_returns_or_ticker_fault (ts : TaskScheduler) (hi : Inv ts) :
    (∃ r, Start ts = .ok r) ∨ Start ts = .error "non-positive interval for NewTicker" := by
  cases hrun : ts.running with
  | true =>
    exact Or.inl ⟨(some "scheduler is already running", ts), by simp [Start, hrun]⟩
  | false =>
    obtain ⟨hc, hsc⟩ := hi.stopped hrun
    rcases le_or_lt (dataCollectionInterval ts.config) 0 with hp | hp
    · exact Or.inr (start_fault ts hrun hp)
    · exact Or.inl ⟨_, start_of_empty ts hrun hc hsc hp⟩

/-- C27: in every state reached by calls of `Start`, `Stop` and `RestartTask`, every
channel held in the registry is open, so a closed channel is not in the registry;
`Stop` returns and `RestartTask` returns for every name, and `Start` returns or
faults only in `time.NewTicker`: no call ends in the fault of closing a closed
channel. -/
theorem no_channel_closed_twice (ts : TaskScheduler) (h : Reachable ts) :
    (∀ e ∈ ts.stopChans, ts.chans[e.2]? = some false) ∧
    (∀ c, ts.chans[c]? = some true → ∀ e ∈ ts.stopChans, e.2 ≠ c) ∧
    (∃ ts1, Stop ts = .ok ts1) ∧
    (∀ name, ∃ r, RestartTask ts name = .ok r) ∧
    ((∃ r, Start ts = .ok r) ∨ Start ts = .error "non-positive interval for NewTicker") ∧
    Stop ts ≠ .error "close of closed channel" ∧
    (∀ name, RestartTask ts name ≠ .error "close of closed channel") ∧
    Start ts ≠ .error "close of closed channel" := by
  have hi := inv_of_reachable h
  obtain ⟨ts1, hs, _⟩ := stop_of_inv ts hi
  refine ⟨hi.reg.chanOpen, ?_, ⟨ts1, hs⟩, restart_returns ts hi,
    start_returns_or_ticker_fault ts hi, ?_, ?_, ?_⟩
  · intro c hc e he hec
    have := hi.reg.chanOpen e he
    rw [hec, hc] at this
    cases this
  · rw [hs]; intro hx; cases hx
  · intro name
    obtain ⟨r, hr⟩ := restart_returns ts hi name
    rw [hr]; intro hx; cases hx
  · rcases start_returns_or_ticker_fault ts hi with ⟨r, hr⟩ | hr
    · rw [hr]; intro hx; cases hx
    · rw [hr]; decide

theorem no_channel_closed_twice_witness :
    (∀ e ∈ runningExample.stopChans, runningExample.chans[e.2]? = some false) ∧
    (∀ c, runningExample.chans[c]? = some true → ∀ e ∈ runningExample.stopChans, e.2 ≠ c) ∧
    (∃ ts1, Stop runningExample = .ok ts1) ∧
    (∀ name, ∃ r, RestartTask runningExample name = .ok r) ∧
    ((∃ r, Start runningExample = .ok r) ∨
      Start runningExample = .error "non-positive interval for NewTicker") ∧
    Stop runningExample ≠ .error "close of closed channel" ∧
    (∀ name, RestartTask runningExample name ≠ .error "close of closed channel") ∧
    Start runningExample ≠ .error "close of closed channel" :=
  no_channel_closed_twice runningExample runningExample_reachable

/-! ## The periods of the tickers -/

theorem tickerStop_periods (ts : TaskScheduler) (t : Nat)
    (h : ∀ k ∈ ts.tickers, 0 < k.period) : ∀ k ∈ (tickerStop ts t).tickers, 0 < k.period := by
  unfold tickerStop
  cases hk : ts.tickers[t]? with
  | none => exact h
  | some k0 =>
    intro k hmem
    simp only at hmem
    rcases List.mem_or_eq_of_mem_set hmem with h1 | h1
    · exact h k h1
    · rw [h1]
      exact h k0 (List.getElem?_mem hk)

theorem stopEntry_periods (ts ts1 : TaskScheduler) (name : String) (c : Nat)
    (hs : stopEntry ts name c = .ok ts1) (h : ∀ k ∈ ts.tickers, 0 < k.period) :
    ∀ k ∈ ts1.tickers, 0 < k.period := by
  unfold stopEntry closeChan at hs
  rcases hc : ts.chans[c]? with _ | (_ | _)
  · rw [hc] at hs; cases hs
  · rw [hc] at hs
    simp only [Except.ok.injEq] at hs
    rw [← hs]
    cases hg : mapGet ts.collectors name with
    | none => exact h
    | some t =>
      simp only
      exact tickerStop_periods { ts with chans := ts.chans.set c true } t h
  · rw [hc] at hs; cases hs

theorem stopLoop_periods (l : List (String × Nat)) :
    ∀ ts ts1 : TaskScheduler, stopLoop l ts = .ok ts1 → (∀ k ∈ ts.tickers, 0 < k.period) →
      ∀ k ∈ ts1.tickers, 0 < k.period := by
  induction l with
  | nil =>
    intro ts ts1 hs h
    simp only [stopLoop, Except.ok.injEq] at hs
    rw [← hs]; exact h
  | cons e rest ih =>
    intro ts ts1 hs h
    obtain ⟨name, c⟩ := e
    unfold stopLoop at hs
    cases he : stopEntry ts name c with
    | error x => rw [he] at hs; cases hs
    | ok ts2 =>
      rw [he] at hs
      exact ih ts2 ts1 hs (stopEntry_periods ts ts2 name c he h)

theorem stop_periods (ts ts1 : TaskScheduler) (hs : Stop ts = .ok ts1)
    (h : ∀ k ∈ ts.tickers, 0 < k.period) : ∀ k ∈ ts1.tickers, 0 < k.period := by
  unfold Stop at hs
  split_ifs at hs with hrun
  · simp only [Except.ok.injEq] at hs
    rw [← hs]; exact h
  · cases hl : stopLoop ts.stopChans ts with
    | error x => rw [hl] at hs; cases hs
    | ok ts2 =>
      rw [hl] at hs
      simp only [Except.ok.injEq] at hs
      rw [← hs]
      exact stopLoop_periods _ ts ts2 hl h

/-- No ticker of a reachable state has a non-positive period. -/
theorem periods_of_reachable {ts : TaskScheduler} (h : Reachable ts) :
    ∀ k ∈ ts.tickers, 0 < k.period := by
  induction h with
  | new cfg => intro k hk; cases hk
  | @start ts ts1 err hr hs ih =>
    have hi := inv_of_reachable hr
    cases hrun : ts.running with
    | true =>
      simp [Start, hrun] at hs
      rw [← hs.2]; exact ih
    | false =>
      obtain ⟨hc, hsc⟩ := hi.stopped hrun
      rcases le_or_lt (dataCollectionInterval ts.config) 0 with hp | hp
      · rw [start_fault ts hrun hp] at hs; cases hs
      · rw [start_of_empty ts hrun hc hsc hp] at hs
        simp only [Except.ok.injEq, Prod.mk.injEq] at hs
        rw [← hs.2]
        intro k hk
        simp only [List.mem_append, List.mem_cons, List.mem_singleton, List.not_mem_nil,
          or_false] at hk
        rcases hk with hk | rfl | rfl | rfl
        · exact ih k hk
        · exact hp
        · decide
        · decide
  | @stop ts ts1 _ hs ih => exact stop_periods ts ts1 hs ih
  | @restart ts ts1 err name hr hs ih =>
    have hi := inv_of_reachable hr
    cases hrun : ts.running with
    | false =>
      simp [RestartTask, hrun] at hs
      rw [← hs.2]; exact ih
    | true =>
      by_cases hname : name ∈ taskNames
      · obtain ⟨c, t, hmc, hmt⟩ := hi.registered hrun name hname
        rw [restart_registered ts name c t hi.reg hrun hname (hi.runPeriod hrun) hmc hmt] at hs
        simp only [Except.ok.injEq, Prod.mk.injEq] at hs
        rw [← hs.2]
        have hp := taskInterval_pos ts.config name (hi.runPeriod hrun)
        intro k hk
        simp only [List.mem_append, List.mem_singleton] at hk
        rcases hk with hk | rfl
        · rcases List.mem_or_eq_of_mem_set hk with h1 | rfl
          · exact ih k h1
          · exact hp
        · exact hp
      · have hc : name ∉ mapKeys ts.collectors := fun hk => hname ((hi.runKeysC hrun name).1 hk)
        have hsc : name ∉ mapKeys ts.stopChans := fun hk => hname ((hi.runKeysS hrun name).1 hk)
        rw [restart_unregistered ts name hrun hname hc hsc] at hs
        simp only [Except.ok.injEq, Prod.mk.injEq] at hs
        rw [← hs.2]; exact ih

theorem dataCollectionInterval_of_range (cfg : MonitoringConfig)
    (h0 : -153722867 ≤ cfg.CollectInterval) (h1 : cfg.CollectInterval ≤ 153722867) :
    dataCollectionInterval cfg = cfg.CollectInterval * 60000000000 := by
  unfold dataCollectionInterval minuteNs
  apply wrapInt64_of_range <;> omega

/-- C28 (counterexample): with a collection interval of 153722868 minutes, which is at
least 1, the 64-bit duration wraps around to a negative value and `Start` on the
stopped scheduler faults in `time.NewTicker`; with the negative collection
interval -153722868 the duration wraps around to a positive value and `Start`
registers the tasks. -/
theorem start_faults_on_overflowing_interval :
    dataCollectionInterval { CollectInterval := 153722868, RetentionDays := 30 } =
      -9223371993709551616 ∧
    Start (NewTaskScheduler { CollectInterval := 153722868, RetentionDays := 30 }) =
      .error "non-positive interval for NewTicker" ∧
    dataCollectionInterval { CollectInterval := -153722868, RetentionDays := 30 } =
      9223371993709551616 ∧
    (match Start (NewTaskScheduler { CollectInterval := -153722868, RetentionDays := 30 }) with
      | .ok (none, ts1) => ts1.running
      | _ => false) = true := by
  decide

/-- C28 (amended): ticker creation is fault-free exactly when the 64-bit duration
`CollectInterval * time.Minute` is positive, as it is for a collection interval
from 1 to 153722867 minutes, and is not for one from -153722867 to 0.  No ticker
of a reachable state has a non-positive period.  When the duration is positive,
`Start` on a stopped scheduler returns no error and creates three tickers with
the positive periods of the three tasks; when it is not, `Start` on a stopped
scheduler faults when it creates the `data_collection` ticker instead of
returning an error.  `RestartTask` returns in every reachable state. -/
theorem ticker_creation_fault_free_iff (ts : TaskScheduler) (h : Reachable ts) :
    (1 ≤ ts.config.CollectInterval → ts.config.CollectInterval ≤ 153722867 →
      0 < dataCollectionInterval ts.config) ∧
    (-153722867 ≤ ts.config.CollectInterval → ts.config.CollectInterval ≤ 0 →
      dataCollectionInterval ts.config ≤ 0) ∧
    (∀ k ∈ ts.tickers, 0 < k.period) ∧
    (ts.running = false → 0 < dataCollectionInterval ts.config →
      ∃ ts1, Start ts = .ok (none, ts1) ∧ ts1.running = true ∧
        ts1.tickers = ts.tickers ++
          [{ period := dataCollectionInterval ts.config, stopped := false },
           { period := 1 * minuteNs, stopped := false },
           { period := 24 * hourNs, stopped := false }]) ∧
    (ts.running = false → dataCollectionInterval ts.config ≤ 0 →
      Start ts = .error "non-positive interval for NewTicker") ∧
    (∀ name, ∃ r, RestartTask ts name = .ok r) := by
  have hi := inv_of_reachable h
  refine ⟨?_, ?_, periods_of_reachable h, ?_, ?_, restart_returns ts hi⟩
  · intro h0 h1
    rw [dataCollectionInterval_of_range ts.config (by omega) h1]
    omega
  · intro h0 h1
    rw [dataCollectionInterval_of_range ts.config h0 (by omega)]
    omega
  · intro hrun hp
    obtain ⟨hc, hsc⟩ := hi.stopped hrun
    exact ⟨_, start_of_empty ts hrun hc hsc hp, rfl, rfl⟩
  · intro hrun hp
    exact start_fault ts hrun hp

theorem ticker_creation_fault_free_iff_witness :
    (NewTaskScheduler exampleConfig).running = false ∧
    0 < dataCollectionInterval (NewTaskScheduler exampleConfig).config ∧
    ∃ ts1, Start (NewTaskScheduler exampleConfig) = .ok (none, ts1) ∧ ts1.running = true ∧
      ts1.tickers = (NewTaskScheduler exampleConfig).tickers ++
        [{ period := dataCollectionInterval (NewTaskScheduler exampleConfig).config,
           stopped := false },
         { period := 1 * minuteNs, stopped := false },
         { period := 24 * hourNs, stopped := false }] :=
  ⟨rfl, by decide,
    (ticker_creation_fault_free_iff (NewTaskScheduler exampleConfig)
      (Reachable.new exampleConfig)).2.2.2.1 rfl (by decide)⟩

/-! ## The first failure of a cleanup sweep, and the text of tags -/

/-- C29: when the deletion of samples fails, `cleanupOldData` returns that error, and
the store is as it was but for the outcome consumed by that one statement: the
deletion of log entries is not issued (the outcome decided for the next statement
is still pending), and the log table and the sample table are unchanged, whatever
they contain. -/
theorem cleanup_short_circuits (fmt : Fmt) (cfg : MonitoringConfig) (w : World)
    (msg : String) (rest : List (Option String)) (hf : w.faults = some msg :: rest) :
    cleanupOldData fmt cfg w =
      (some ("failed to cleanup resource metrics: " ++ msg), { w with faults := rest }) ∧
    (cleanupOldData fmt cfg w).2.monitoringLogs = w.monitoringLogs ∧
    (cleanupOldData fmt cfg w).2.resourceMetrics = w.resourceMetrics ∧
    (cleanupOldData fmt cfg w).2.faults = rest := by
  have h : cleanupOldData fmt cfg w =
      (some ("failed to cleanup resource metrics: " ++ msg), { w with faults := rest }) := by
    unfold cleanupOldData
    rw [dbDeleteMetricsBefore_fail w _ msg rest hf]
  rw [h]
  exact ⟨rfl, rfl, rfl, rfl⟩

theorem cleanup_short_circuits_witness :
    (∃ l ∈ retentionWorld.monitoringLogs,
      l.CreatedAt < cutoffDate plainFmt exampleConfig
        { retentionWorld with faults := [some "deadlock detected", none] }) ∧
    cleanupOldData plainFmt exampleConfig
        { retentionWorld with faults := [some "deadlock detected", none] } =
      (some ("failed to cleanup resource metrics: " ++ "deadlock detected"),
        { retentionWorld with faults := [none] }) ∧
    (cleanupOldData plainFmt exampleConfig
        { retentionWorld with faults := [some "deadlock detected", none] }).2.monitoringLogs =
      retentionWorld.monitoringLogs ∧
    (cleanupOldData plainFmt exampleConfig
        { retentionWorld with faults := [some "deadlock detected", none] }).2.resourceMetrics =
      retentionWorld.resourceMetrics ∧
    (cleanupOldData plainFmt exampleConfig
        { retentionWorld with faults := [some "deadlock detected", none] }).2.faults = [none] :=
  ⟨by decide,
    cleanup_short_circuits plainFmt exampleConfig
      { retentionWorld with faults := [some "deadlock detected", none] }
      "deadlock detected" [none] rfl⟩

/-- C30: `formatTags` gives the text of an empty map as two braces and the text of a
single entry as the key and the `%v` form of the value, each between double
quotes and copied as they are; a number is quoted like a text, so a number and
the text of its digits give the same output; a double quote inside a value is
copied without an escape, and a map with the one entry `a` whose value contains
quotes gives the same output as the map with the two entries `a` and `b`. -/
theorem format_tags_unescaped (fmt : Fmt) (k : String) (v : TagValue) :
    formatTags fmt [] = "\x7b\x7d" ∧
    formatTags fmt [(k, v)] = "\x7b\"" ++ k ++ "\":\"" ++ v.render fmt ++ "\"\x7d" ∧
    formatTags fmt [("max_connections", .int 10)] = "\x7b\"max_connections\":\"10\"\x7d" ∧
    formatTags fmt [("max_connections", .int 10)] =
      formatTags fmt [("max_connections", .str "10")] ∧
    formatTags fmt [("table", .str "a\"b")] = "\x7b\"table\":\"a\"b\"\x7d" ∧
    ([("a", TagValue.str "1\",\"b\":\"2")] : List (String × TagValue)) ≠
      [("a", .str "1"), ("b", .str "2")] ∧
    formatTags fmt [("a", .str "1\",\"b\":\"2")] =
      formatTags fmt [("a", .str "1"), ("b", .str "2")] := by
  refine ⟨formatTags_nil fmt, formatTags_one fmt k v, ?_, ?_, ?_, ?_, ?_⟩
  · rw [formatTags_one]
    simp only [TagValue.render]
    decide
  · rw [formatTags_one, formatTags_one]
    simp only [TagValue.render]
    decide
  · rw [formatTags_one]
    simp only [TagValue.render]
    decide
  · intro h
    have := congrArg List.length h
    simp at this
  · rw [formatTags_one, formatTags_two]
    simp only [TagValue.render]
    decide

end SassMonitor
